import Mathlib

/-!
# VAAPI hardware-acceleration context negotiation (tvheadend)

A shallow embedding of `src/transcoding/transcode/hwaccels/vaapi.c`.

* C enumerations become inductive types: the enumerators the source names are
  constructors, every other enumerator is `other n`.
* `int` / `unsigned int` values are `Int` / `Nat`.
* The program runs against libva, libavutil and libc.  Their answers are an
  `Env`: one function per external call, indexed by the number of external
  calls made so far, so that an answer may differ from one call to the next.
* Mutable program state is a `World`: the static `hw_device_ref`, the
  reference counts of the buffers the program holds references to, the heap
  cells of the `TVHVAContext` objects, and the chronological list of the
  external calls made (`trace`).
* Diagnostics (`tvhdebug`, `tvherror`, ...) and the release of function-local
  scratch arrays are not modelled.
-/

namespace Vaapi

/-! ## Enumerations and constants of the external headers -/

/-- Enumerators of `enum AVCodecID` the source switches on. -/
inductive AVCodecID where
  | MPEG2VIDEO
  | H264
  | HEVC
  | other (tag : Nat)
  deriving DecidableEq, Repr

/-- Enumerators of `VAProfile` the source names. -/
inductive VAProfile where
  | None
  | MPEG2Simple
  | MPEG2Main
  | H264Baseline
  | H264Main
  | H264High
  | H264ConstrainedBaseline
  | HEVCMain
  | HEVCMain10
  | other (tag : Nat)
  deriving DecidableEq, Repr

/-- Enumerators of `VAEntrypoint` the source names. -/
inductive VAEntrypoint where
  | VLD
  | EncSlice
  | other (tag : Nat)
  deriving DecidableEq, Repr

/-- Enumerators of `enum AVPixelFormat` the source names, and `NV21`, the
semi-planar 4:2:0 format with the chroma bytes of `NV12` swapped. -/
inductive AVPixelFormat where
  | NONE
  | YUV420P
  | NV12
  | NV21
  | YUV422P
  | UYVY422
  | YUYV422
  | GRAY8
  | VAAPI
  | other (tag : Nat)
  deriving DecidableEq, Repr

/-- The `int` value of `FF_PROFILE_UNKNOWN`. -/
abbrev FF_PROFILE_UNKNOWN : Int := -99
/-- The `int` value of `FF_PROFILE_MPEG2_MAIN`. -/
abbrev FF_PROFILE_MPEG2_MAIN : Int := 4
/-- The `int` value of `FF_PROFILE_MPEG2_SIMPLE`. -/
abbrev FF_PROFILE_MPEG2_SIMPLE : Int := 5
/-- The `int` value of `FF_PROFILE_H264_BASELINE`. -/
abbrev FF_PROFILE_H264_BASELINE : Int := 66
/-- The `int` value of `FF_PROFILE_H264_CONSTRAINED_BASELINE`, `66|(1<<9)`. -/
abbrev FF_PROFILE_H264_CONSTRAINED_BASELINE : Int := 578
/-- The `int` value of `FF_PROFILE_H264_MAIN`. -/
abbrev FF_PROFILE_H264_MAIN : Int := 77
/-- The `int` value of `FF_PROFILE_H264_HIGH`. -/
abbrev FF_PROFILE_H264_HIGH : Int := 100
/-- The `int` value of `FF_PROFILE_HEVC_MAIN`. -/
abbrev FF_PROFILE_HEVC_MAIN : Int := 1
/-- The `int` value of `FF_PROFILE_HEVC_MAIN_10`. -/
abbrev FF_PROFILE_HEVC_MAIN_10 : Int := 2

/-- The value of `VA_INVALID_ID`. -/
abbrev VA_INVALID_ID : Nat := 0xffffffff
/-- The value of `VA_ATTRIB_NOT_SUPPORTED`. -/
abbrev VA_ATTRIB_NOT_SUPPORTED : Nat := 0x80000000
/-- The value of `VA_RT_FORMAT_YUV420`. -/
abbrev VA_RT_FORMAT_YUV420 : Nat := 0x00000001
/-- The value of `VA_RT_FORMAT_YUV422`. -/
abbrev VA_RT_FORMAT_YUV422 : Nat := 0x00000002
/-- The value of `VA_RT_FORMAT_YUV400`. -/
abbrev VA_RT_FORMAT_YUV400 : Nat := 0x00000010
/-- The value of `AVERROR(ENOMEM)`. -/
abbrev AVERROR_ENOMEM : Int := -12
/-- The value of `AVERROR(EINVAL)`. -/
abbrev AVERROR_EINVAL : Int := -22

/-- The fields of `AVPixFmtDescriptor` the source reads. -/
structure AVPixFmtDescriptor where
  nb_components : Nat
  log2_chroma_w : Nat
  log2_chroma_h : Nat
  deriving DecidableEq, Repr

/-- The fields of `AVHWFramesConstraints` the source reads.  `valid_sw_formats`
is the array as the device hands it out; the source reads it up to the first
`AV_PIX_FMT_NONE`. -/
structure AVHWFramesConstraints where
  valid_sw_formats : List AVPixelFormat
  min_width : Int
  min_height : Int
  max_width : Int
  max_height : Int
  deriving DecidableEq, Repr

/-- The device nodes `tvhva_init` builds a path for. -/
inductive DevicePath where
  | renderD (dev_num : Int)
  | card (dev_num : Int)
  deriving DecidableEq, Repr

/-- The path string `snprintf` writes for a device node. -/
def DevicePath.path : DevicePath → String
  | .renderD n => "/dev/dri/renderD" ++ toString n
  | .card n => "/dev/dri/card" ++ toString n

/-! ## External calls -/

/-- One external call, with the arguments that identify what it acts on. -/
inductive Event where
  | av_hwdevice_ctx_create (device : DevicePath)
  | av_buffer_ref_device (buf : Nat)
  | av_buffer_ref_frames (buf : Nat)
  | av_buffer_unref_device (buf : Nat)
  | av_buffer_unref_frames (buf : Nat)
  | calloc
  | free_context (ptr : Nat)
  | vaMaxNumProfiles
  | vaQueryConfigProfiles
  | vaMaxNumEntrypoints
  | vaQueryConfigEntrypoints (profile : VAProfile)
  | vaGetConfigAttributes (profile : VAProfile) (entrypoint : VAEntrypoint)
  | vaCreateConfig (profile : VAProfile) (entrypoint : VAEntrypoint) (value : Nat)
  | vaDestroyConfig (config_id : Nat)
  | vaCreateContext (config_id : Nat) (width height : Int) (frames : Option Nat)
  | vaDestroyContext (context_id : Nat)
  | av_hwdevice_hwconfig_alloc
  | av_hwdevice_get_hwframe_constraints (config_id : Nat)
  | av_hwframe_ctx_alloc (device : Option Nat)
  | av_hwframe_ctx_init (frames : Nat)
  deriving DecidableEq, Repr

/-- The answers of the external libraries.  The first argument of a call is the
number of external calls made before it; `av_pix_fmt_desc_get` reads a
constant table and has no such argument. -/
structure Env where
  /-- Whether `av_hwdevice_ctx_create` returns 0 for this device node. -/
  av_hwdevice_ctx_create : Nat → DevicePath → Bool
  /-- Whether `av_buffer_ref` returns a non-null reference. -/
  av_buffer_ref : Nat → Bool
  /-- Whether `calloc` returns a non-null pointer. -/
  calloc : Nat → Bool
  vaMaxNumProfiles : Nat → Int
  /-- The first `profiles_len` entries written, `none` when the status is not
  `VA_STATUS_SUCCESS`. -/
  vaQueryConfigProfiles : Nat → Option (List VAProfile)
  vaMaxNumEntrypoints : Nat → Int
  /-- The first `entrypoints_len` entries written, `none` when the status is
  not `VA_STATUS_SUCCESS`. -/
  vaQueryConfigEntrypoints : Nat → VAProfile → Option (List VAEntrypoint)
  /-- The value written to `attrib.value`, `none` when the status is not
  `VA_STATUS_SUCCESS`. -/
  vaGetConfigAttributes : Nat → VAProfile → VAEntrypoint → Option Nat
  /-- The config id written, `none` when the status is not
  `VA_STATUS_SUCCESS`. -/
  vaCreateConfig : Nat → VAProfile → VAEntrypoint → Nat → Option Nat
  /-- Whether `av_hwdevice_hwconfig_alloc` returns non-null. -/
  av_hwdevice_hwconfig_alloc : Nat → Bool
  /-- The constraints for a config id, `none` for a null result. -/
  av_hwdevice_get_hwframe_constraints : Nat → Nat → Option AVHWFramesConstraints
  /-- Whether `av_hwframe_ctx_alloc` returns non-null. -/
  av_hwframe_ctx_alloc : Nat → Bool
  /-- Whether `av_hwframe_ctx_init` returns a value `>= 0`, given the
  software format, width, height and initial pool size of the frames
  context. -/
  av_hwframe_ctx_init : Nat → AVPixelFormat → Int → Int → Int → Bool
  /-- The context id written, `none` when the status is not
  `VA_STATUS_SUCCESS`. -/
  vaCreateContext : Nat → Nat → Int → Int → Option Nat
  /-- The descriptor table of libavutil, `none` for a null result. -/
  av_pix_fmt_desc_get : AVPixelFormat → Option AVPixFmtDescriptor

/-! ## Program state -/

/-- The `TVHVAContext` structure, with the fields of the embedded
`struct vaapi_context` the source uses.  A pointer is `none` when null; a
buffer reference is the index of the buffer it refers to. -/
structure TVHVAContext where
  display : Option Nat
  config_id : Nat
  context_id : Nat
  entrypoint : VAEntrypoint
  io_format : AVPixelFormat
  sw_format : AVPixelFormat
  width : Int
  height : Int
  hw_device_ref : Option Nat
  hw_frames_ref : Option Nat
  deriving DecidableEq, Repr

/-- The fields of `AVHWFramesContext` the source writes, with the reference
count of the buffer that holds it. -/
structure AVHWFramesContext where
  refcount : Nat
  device : Option Nat
  format : AVPixelFormat
  sw_format : AVPixelFormat
  width : Int
  height : Int
  initial_pool_size : Int
  deriving DecidableEq, Repr

/-- A heap cell obtained from `calloc` for a `TVHVAContext`.  After `free`
the cell keeps the values last written to it. -/
structure HeapCell where
  val : TVHVAContext
  freed : Bool
  deriving DecidableEq, Repr

/-- The callbacks `get_buffer2` can hold. -/
inductive GetBuffer2 where
  | avcodec_default_get_buffer2
  | vaapi_get_buffer2
  deriving DecidableEq, Repr

/-- The fields of `AVCodecContext` the source reads or writes; `codec_id` is
`avctx->codec->id` and `opaque_slot` is the field named `opaque` in C. -/
structure AVCodecContext where
  codec_id : AVCodecID
  profile : Int
  sw_pix_fmt : AVPixelFormat
  coded_width : Int
  coded_height : Int
  hw_frames_ctx : Option Nat
  hwaccel_context : Option Nat
  opaque_slot : Option Nat
  thread_count : Int
  thread_safe_callbacks : Int
  get_buffer2 : GetBuffer2
  deriving DecidableEq, Repr

/-- The mutable state of the program and of the objects it holds. -/
structure World where
  /-- The file-level `static AVBufferRef *hw_device_ref`. -/
  hw_device_ref : Option Nat
  /-- The reference count of every device buffer created so far. -/
  devices : List Nat
  /-- The frames contexts allocated so far. -/
  frames : List AVHWFramesContext
  /-- The `TVHVAContext` cells allocated so far. -/
  heap : List HeapCell
  /-- The external calls made so far, oldest first. -/
  trace : List Event
  deriving DecidableEq, Repr

/-- The state of a freshly started process. -/
def World.init : World :=
  { hw_device_ref := none, devices := [], frames := [], heap := [], trace := [] }

/-- The number of external calls made so far. -/
def World.now (w : World) : Nat := w.trace.length

/-- Record an external call. -/
def World.log (w : World) (e : Event) : World :=
  { w with trace := w.trace ++ [e] }

/-! ## Profile negotiation -/

/-- The value of the local `check` after the `switch` of
`tvhva_context_profile`. -/
def tvhva_context_profile_check (codec_id : AVCodecID) (profile : Int) : VAProfile :=
  match codec_id with
  | .MPEG2VIDEO =>
    if profile = FF_PROFILE_UNKNOWN ∨ profile = FF_PROFILE_MPEG2_MAIN then
      VAProfile.MPEG2Main
    else if profile = FF_PROFILE_MPEG2_SIMPLE then VAProfile.MPEG2Simple
    else VAProfile.None
  | .H264 =>
    if profile = FF_PROFILE_UNKNOWN ∨ profile = FF_PROFILE_H264_HIGH then
      VAProfile.H264High
    else if profile = FF_PROFILE_H264_BASELINE then VAProfile.H264Baseline
    else if profile = FF_PROFILE_H264_CONSTRAINED_BASELINE then
      VAProfile.H264ConstrainedBaseline
    else if profile = FF_PROFILE_H264_MAIN then VAProfile.H264Main
    else VAProfile.None
  | .HEVC =>
    if profile = FF_PROFILE_UNKNOWN ∨ profile = FF_PROFILE_HEVC_MAIN then
      VAProfile.HEVCMain
    else if profile = FF_PROFILE_HEVC_MAIN_10 then VAProfile.HEVCMain10
    else VAProfile.None
  | .other _ => VAProfile.None

/-- The loop of `tvhva_context_profile` over the reported profiles: `check`
at the first entry equal to it, `VAProfileNone` when there is none. -/
def tvhva_context_profile_scan (check : VAProfile) : List VAProfile → VAProfile
  | [] => VAProfile.None
  | p :: ps => if p = check then check else tvhva_context_profile_scan check ps

/-- `tvhva_context_profile`: the profile selected for a codec context. -/
def tvhva_context_profile (env : Env) (avctx : AVCodecContext) (w : World) :
    VAProfile × World :=
  let check := tvhva_context_profile_check avctx.codec_id avctx.profile
  if check ≠ VAProfile.None then
    let profiles_max := env.vaMaxNumProfiles w.now
    let w := w.log Event.vaMaxNumProfiles
    if profiles_max > 0 then
      let allocated := env.calloc w.now
      let w := w.log Event.calloc
      if allocated then
        let va_res := env.vaQueryConfigProfiles w.now
        let w := w.log Event.vaQueryConfigProfiles
        match va_res with
        | some profiles => (tvhva_context_profile_scan check profiles, w)
        | none => (VAProfile.None, w)
      else (VAProfile.None, w)
    else (VAProfile.None, w)
  else (VAProfile.None, w)

/-- The loop of `tvhva_context_check_profile` over the reported entry points:
0 at the first entry equal to the requested one, -1 when there is none. -/
def tvhva_context_check_profile_scan (entrypoint : VAEntrypoint) :
    List VAEntrypoint → Int
  | [] => -1
  | e :: es =>
    if e = entrypoint then 0 else tvhva_context_check_profile_scan entrypoint es

/-- `tvhva_context_check_profile`: 0 when the device lists the entry point of
the session for `profile`, -1 otherwise. -/
def tvhva_context_check_profile (env : Env) (self : TVHVAContext)
    (profile : VAProfile) (w : World) : Int × World :=
  let entrypoints_max := env.vaMaxNumEntrypoints w.now
  let w := w.log Event.vaMaxNumEntrypoints
  if entrypoints_max > 0 then
    let allocated := env.calloc w.now
    let w := w.log Event.calloc
    if allocated then
      let va_res := env.vaQueryConfigEntrypoints w.now profile
      let w := w.log (Event.vaQueryConfigEntrypoints profile)
      match va_res with
      | some entrypoints =>
        (tvhva_context_check_profile_scan self.entrypoint entrypoints, w)
      | none => (-1, w)
    else (-1, w)
  else (-1, w)

/-- The condition of the second `if` of `tvhva_context_setup`:
`(profile = tvhva_context_profile(...)) == VAProfileNone ||
tvhva_context_check_profile(self, profile)`.  The result is the profile when
the condition is false and `none` when it is true. -/
def tvhva_context_setup_profile (env : Env) (self : TVHVAContext)
    (avctx : AVCodecContext) (w : World) : Option VAProfile × World :=
  let r := tvhva_context_profile env avctx w
  if r.1 = VAProfile.None then (none, r.2)
  else
    let c := tvhva_context_check_profile env self r.1 r.2
    if c.1 ≠ 0 then (none, c.2) else (some r.1, c.2)

/-! ## Format class and config -/

/-- `tvhva_get_format`: the `VA_RT_FORMAT_*` class of a pixel format, 0 when
the `switch` has no case for it. -/
def tvhva_get_format : AVPixelFormat → Nat
  | .NV12 => VA_RT_FORMAT_YUV420
  | .YUV422P => VA_RT_FORMAT_YUV422
  | .UYVY422 => VA_RT_FORMAT_YUV422
  | .YUYV422 => VA_RT_FORMAT_YUV422
  | .GRAY8 => VA_RT_FORMAT_YUV400
  | _ => 0

/-- `tvhva_context_config`: query the RT-format attribute and create the
config. -/
def tvhva_context_config (env : Env) (self : TVHVAContext) (profile : VAProfile)
    (format : Nat) (w : World) : Int × TVHVAContext × World :=
  let va_res := env.vaGetConfigAttributes w.now profile self.entrypoint
  let w := w.log (Event.vaGetConfigAttributes profile self.entrypoint)
  match va_res with
  | none => (-1, self, w)
  | some value =>
    if value = VA_ATTRIB_NOT_SUPPORTED ∨ value &&& format = 0 then (-1, self, w)
    else
      let va_res := env.vaCreateConfig w.now profile self.entrypoint format
      let w := w.log (Event.vaCreateConfig profile self.entrypoint format)
      match va_res with
      | none => (-1, self, w)
      | some config_id => (0, { self with config_id := config_id }, w)

/-! ## Constraints -/

/-- The first loop of `tvhva_context_check_constraints`: the entry equal to
`io_format` among those before the first `AV_PIX_FMT_NONE`. -/
def tvhva_context_check_constraints_exact (io_format : AVPixelFormat) :
    List AVPixelFormat → Option AVPixelFormat
  | [] => none
  | sw_format :: rest =>
    if sw_format = AVPixelFormat.NONE then none
    else if sw_format = io_format then some sw_format
    else tvhva_context_check_constraints_exact io_format rest

/-- The second loop of `tvhva_context_check_constraints`: the first entry
before the first `AV_PIX_FMT_NONE` that has a descriptor with the component
count and chroma shifts of `io_desc`. -/
def tvhva_context_check_constraints_similar (env : Env)
    (io_desc : AVPixFmtDescriptor) : List AVPixelFormat → Option AVPixelFormat
  | [] => none
  | sw_format :: rest =>
    if sw_format = AVPixelFormat.NONE then none
    else
      match env.av_pix_fmt_desc_get sw_format with
      | some sw_desc =>
        if sw_desc.nb_components = io_desc.nb_components ∧
            sw_desc.log2_chroma_w = io_desc.log2_chroma_w ∧
            sw_desc.log2_chroma_h = io_desc.log2_chroma_h then
          some sw_format
        else tvhva_context_check_constraints_similar env io_desc rest
      | none => tvhva_context_check_constraints_similar env io_desc rest

/-- The block of `tvhva_context_check_constraints` that resolves
`self->sw_format` from the list of the device. -/
def tvhva_context_check_constraints_format (env : Env) (self : TVHVAContext)
    (valid_sw_formats : List AVPixelFormat) : TVHVAContext :=
  if self.io_format ≠ AVPixelFormat.NONE then
    let self :=
      match tvhva_context_check_constraints_exact self.io_format valid_sw_formats with
      | some sw_format => { self with sw_format := sw_format }
      | none => self
    if self.sw_format = AVPixelFormat.NONE then
      match env.av_pix_fmt_desc_get self.io_format with
      | some io_desc =>
        match tvhva_context_check_constraints_similar env io_desc valid_sw_formats with
        | some sw_format => { self with sw_format := sw_format }
        | none => self
      | none => self
    else self
  else self

/-- `tvhva_context_check_constraints`: resolve the native format and check the
picture size against the constraints of the device. -/
def tvhva_context_check_constraints (env : Env) (self : TVHVAContext) (w : World) :
    Int × TVHVAContext × World :=
  let va_config := env.av_hwdevice_hwconfig_alloc w.now
  let w := w.log Event.av_hwdevice_hwconfig_alloc
  if va_config = false then (AVERROR_ENOMEM, self, w)
  else
    let res := env.av_hwdevice_get_hwframe_constraints w.now self.config_id
    let w := w.log (Event.av_hwdevice_get_hwframe_constraints self.config_id)
    match res with
    | none => (-1, self, w)
    | some hw_constraints =>
      let self :=
        tvhva_context_check_constraints_format env self hw_constraints.valid_sw_formats
      if self.sw_format = AVPixelFormat.NONE then (AVERROR_EINVAL, self, w)
      else if self.width < hw_constraints.min_width ∨
          self.height < hw_constraints.min_height ∨
          self.width > hw_constraints.max_width ∨
          self.height > hw_constraints.max_height then (AVERROR_EINVAL, self, w)
      else (0, self, w)

/-! ## Device registry -/

/-- The device node `tvhva_init` tries in iteration `i` of its loop. -/
def tvhva_init_device (i : Int) : DevicePath :=
  if i < 3 then DevicePath.renderD (i + 128) else DevicePath.card (i - 3)

/-- The loop of `tvhva_init` over the remaining values of `i`.  A successful
`av_hwdevice_ctx_create` stores a reference to a new device buffer in
`hw_device_ref`; a failed one leaves it null. -/
def tvhva_init_loop (env : Env) : List Int → World → Int × World
  | [], w => (-1, w)
  | i :: rest, w =>
    let device := tvhva_init_device i
    let created := env.av_hwdevice_ctx_create w.now device
    let w := w.log (Event.av_hwdevice_ctx_create device)
    if created then
      (0, { w with hw_device_ref := some w.devices.length, devices := w.devices ++ [1] })
    else tvhva_init_loop env rest { w with hw_device_ref := none }

/-- `tvhva_init`: probe the six device nodes, `for (i = 0; i < 6; i++)`. -/
def tvhva_init (env : Env) (w : World) : Int × World :=
  tvhva_init_loop env [0, 1, 2, 3, 4, 5] w

/-- `av_buffer_unref` on a reference to device buffer `buf`. -/
def av_buffer_unref_device (buf : Nat) (w : World) : World :=
  { w.log (Event.av_buffer_unref_device buf) with
    devices := w.devices.set buf (w.devices.getD buf 0 - 1) }

/-- `av_buffer_unref` on a reference to frames buffer `buf`. -/
def av_buffer_unref_frames (buf : Nat) (w : World) : World :=
  { w.log (Event.av_buffer_unref_frames buf) with
    frames := match w.frames[buf]? with
      | some f => w.frames.set buf { f with refcount := f.refcount - 1 }
      | none => w.frames }

/-- `av_buffer_ref` on a reference to device buffer `buf`: the new reference,
`none` when the allocation fails. -/
def av_buffer_ref_device (env : Env) (buf : Nat) (w : World) : Option Nat × World :=
  let allocated := env.av_buffer_ref w.now
  let w := w.log (Event.av_buffer_ref_device buf)
  if allocated then
    (some buf, { w with devices := w.devices.set buf (w.devices.getD buf 0 + 1) })
  else (none, w)

/-- `av_buffer_ref` on a reference to frames buffer `buf`: the new reference,
`none` when the allocation fails. -/
def av_buffer_ref_frames (env : Env) (buf : Nat) (w : World) : Option Nat × World :=
  let allocated := env.av_buffer_ref w.now
  let w := w.log (Event.av_buffer_ref_frames buf)
  if allocated then
    (some buf,
      { w with frames := match w.frames[buf]? with
          | some f => w.frames.set buf { f with refcount := f.refcount + 1 }
          | none => w.frames })
  else (none, w)

/-- The body of `tvhva_context_destroy` up to `free(self)`, on the values the
cell holds: the fields as the function leaves them and the calls it makes. -/
def tvhva_context_destroy_fields (self : TVHVAContext) (w : World) :
    TVHVAContext × World :=
  let r :=
    if self.context_id ≠ VA_INVALID_ID then
      ({ self with context_id := VA_INVALID_ID },
        w.log (Event.vaDestroyContext self.context_id))
    else (self, w)
  let r :=
    if r.1.config_id ≠ VA_INVALID_ID then
      ({ r.1 with config_id := VA_INVALID_ID },
        r.2.log (Event.vaDestroyConfig r.1.config_id))
    else r
  let r : TVHVAContext × World := ({ r.1 with display := none }, r.2)
  let r :=
    match r.1.hw_frames_ref with
    | some buf => ({ r.1 with hw_frames_ref := none }, av_buffer_unref_frames buf r.2)
    | none => r
  match r.1.hw_device_ref with
  | some buf => ({ r.1 with hw_device_ref := none }, av_buffer_unref_device buf r.2)
  | none => r

/-- `tvhva_context_destroy`: release what the session at `self` holds and
free it.  The assignment `self = NULL` changes the parameter only.  A pointer
to no cell at all is left alone. -/
def tvhva_context_destroy (self : Option Nat) (w : World) : World :=
  match self with
  | none => w
  | some ptr =>
    match w.heap[ptr]? with
    | none => w
    | some cell =>
      let r := tvhva_context_destroy_fields cell.val w
      let w := r.2.log (Event.free_context ptr)
      { w with heap := w.heap.set ptr { val := r.1, freed := true } }

/-- `tvhva_context_display`: take a reference to the device for the session,
opening the device first when the registry is empty.  The result is the
display of the device, `none` for null; an opened device has a display, named
here by the index of the device buffer.  After a successful `tvhva_init` the
static reference is not null. -/
def tvhva_context_display (env : Env) (self : TVHVAContext) (w : World) :
    Option Nat × TVHVAContext × World :=
  let r : Bool × World :=
    if w.hw_device_ref = none then
      let i := tvhva_init env w
      (decide (i.1 ≠ 0), i.2)
    else (false, w)
  if r.1 then (none, self, r.2)
  else
    match r.2.hw_device_ref with
    | none => (none, self, r.2)
    | some buf =>
      let b := av_buffer_ref_device env buf r.2
      match b.1 with
      | none => (none, { self with hw_device_ref := none }, b.2)
      | some ref => (some ref, { self with hw_device_ref := some ref }, b.2)

/-- Lines 392-406 of `tvhva_context_setup`: allocate the frame pool on the
device of the session, fill in its fields and initialise it. -/
def tvhva_context_setup_pool (env : Env) (self : TVHVAContext) (w : World) :
    Int × TVHVAContext × World :=
  let allocated := env.av_hwframe_ctx_alloc w.now
  let w := w.log (Event.av_hwframe_ctx_alloc self.hw_device_ref)
  if allocated = false then (AVERROR_ENOMEM, { self with hw_frames_ref := none }, w)
  else
    let buf := w.frames.length
    let hw_frames_ctx : AVHWFramesContext :=
      { refcount := 1, device := self.hw_device_ref,
        format := AVPixelFormat.VAAPI, sw_format := self.sw_format,
        width := self.width, height := self.height,
        initial_pool_size := 32 }
    let self := { self with hw_frames_ref := some buf }
    let w := { w with frames := w.frames ++ [hw_frames_ctx] }
    let inited := env.av_hwframe_ctx_init w.now hw_frames_ctx.sw_format
      hw_frames_ctx.width hw_frames_ctx.height hw_frames_ctx.initial_pool_size
    let w := w.log (Event.av_hwframe_ctx_init buf)
    if inited = false then (-1, self, w) else (0, self, w)

/-- Lines 408-420 of `tvhva_context_setup`: create the execution context on
the surfaces of the frame pool, for the decode entry point only. -/
def tvhva_context_setup_context (env : Env) (self : TVHVAContext) (w : World) :
    Int × TVHVAContext × World :=
  if self.entrypoint = VAEntrypoint.VLD then
    let va_res := env.vaCreateContext w.now self.config_id self.width self.height
    let w := w.log
      (Event.vaCreateContext self.config_id self.width self.height self.hw_frames_ref)
    match va_res with
    | some context_id => (0, { self with context_id := context_id }, w)
    | none => (-1, self, w)
  else (0, self, w)

/-- Lines 422-429 of `tvhva_context_setup`: hand a reference to the frame pool
to the codec context and set its software format and thread count.  The
frame pool is not null here; the branch for a null one stands for the failure
of `av_buffer_ref`. -/
def tvhva_context_setup_export (env : Env) (self : TVHVAContext)
    (avctx : AVCodecContext) (w : World) : Int × AVCodecContext × World :=
  match self.hw_frames_ref with
  | none => (AVERROR_ENOMEM, { avctx with hw_frames_ctx := none }, w)
  | some buf =>
    let b := av_buffer_ref_frames env buf w
    match b.1 with
    | none => (AVERROR_ENOMEM, { avctx with hw_frames_ctx := none }, b.2)
    | some ref =>
      (0, { avctx with hw_frames_ctx := some ref,
                       sw_pix_fmt := self.sw_format,
                       thread_count := 1 }, b.2)

/-- `tvhva_context_setup`: the negotiation chain of a session. -/
def tvhva_context_setup (env : Env) (self : TVHVAContext) (avctx : AVCodecContext)
    (w : World) : Int × TVHVAContext × AVCodecContext × World :=
  let d := tvhva_context_display env self w
  let self := { d.2.1 with display := d.1 }
  if d.1 = none then (-1, self, avctx, d.2.2)
  else
    let n := tvhva_context_setup_profile env self avctx d.2.2
    match n.1 with
    | none => (-1, self, avctx, n.2)
    | some profile =>
      let format := tvhva_get_format self.io_format
      if format = 0 then (-1, self, avctx, n.2)
      else
        let c := tvhva_context_config env self profile format n.2
        if c.1 ≠ 0 then (-1, c.2.1, avctx, c.2.2)
        else
          let k := tvhva_context_check_constraints env c.2.1 c.2.2
          if k.1 ≠ 0 then (-1, k.2.1, avctx, k.2.2)
          else
            let f := tvhva_context_setup_pool env k.2.1 k.2.2
            if f.1 ≠ 0 then (f.1, f.2.1, avctx, f.2.2)
            else
              let x := tvhva_context_setup_context env f.2.1 f.2.2
              if x.1 ≠ 0 then (-1, x.2.1, avctx, x.2.2)
              else
                let b := tvhva_context_setup_export env x.2.1 avctx x.2.2
                (b.1, x.2.1, b.2.1, b.2.2)

/-- The values `tvhva_context_create` gives the fields of a new session
before it runs the setup. -/
def tvhva_context_create_self (avctx : AVCodecContext) (entrypoint : VAEntrypoint) :
    TVHVAContext :=
  { display := none, config_id := VA_INVALID_ID, context_id := VA_INVALID_ID,
    entrypoint := entrypoint,
    io_format :=
      if avctx.sw_pix_fmt = AVPixelFormat.YUV420P then AVPixelFormat.NV12
      else avctx.sw_pix_fmt,
    sw_format := AVPixelFormat.NONE,
    width := avctx.coded_width, height := avctx.coded_height,
    hw_device_ref := none, hw_frames_ref := none }

/-- The state in which `tvhva_context_create` calls the setup: the session
has been allocated at the end of the heap. -/
def tvhva_context_create_world (avctx : AVCodecContext) (entrypoint : VAEntrypoint)
    (w : World) : World :=
  { w.log Event.calloc with
    heap := w.heap ++ [{ val := tvhva_context_create_self avctx entrypoint, freed := false }] }

/-- `tvhva_context_create`: allocate a session, run the setup and destroy the
session when the setup fails.  The result is the pointer to the session,
`none` for null. -/
def tvhva_context_create (env : Env) (avctx : AVCodecContext)
    (entrypoint : VAEntrypoint) (w : World) : Option Nat × AVCodecContext × World :=
  if env.calloc w.now = false then (none, avctx, w.log Event.calloc)
  else
    let ptr := w.heap.length
    let s := tvhva_context_setup env (tvhva_context_create_self avctx entrypoint) avctx
      (tvhva_context_create_world avctx entrypoint w)
    let w := { s.2.2.2 with heap := s.2.2.2.heap.set ptr { val := s.2.1, freed := false } }
    if s.1 ≠ 0 then (none, s.2.2.1, tvhva_context_destroy (some ptr) w)
    else (some ptr, s.2.2.1, w)

/-! ## Decoding -/

/-- `vaapi_decode_setup_context`. -/
def vaapi_decode_setup_context (env : Env) (avctx : AVCodecContext) (w : World) :
    Int × AVCodecContext × World :=
  let c := tvhva_context_create env avctx VAEntrypoint.VLD w
  let avctx := { c.2.1 with hwaccel_context := c.1 }
  if c.1 = none then (-1, avctx, c.2.2)
  else
    (0, { avctx with get_buffer2 := GetBuffer2.vaapi_get_buffer2,
                     thread_safe_callbacks := 0 }, c.2.2)

/-- `vaapi_decode_close_context`: the codec context is not written to. -/
def vaapi_decode_close_context (avctx : AVCodecContext) (w : World) :
    AVCodecContext × World :=
  (avctx, tvhva_context_destroy avctx.hwaccel_context w)

/-! ## Encoding -/

/-- `vaapi_encode_setup_context`.  A session that `tvhva_context_create`
returns holds a device reference; the branch for a null one stands for the
failure of `av_buffer_ref`. -/
def vaapi_encode_setup_context (env : Env) (avctx : AVCodecContext) (w : World) :
    Int × AVCodecContext × World :=
  let c := tvhva_context_create env avctx VAEntrypoint.EncSlice w
  match c.1 with
  | none => (-1, c.2.1, c.2.2)
  | some hwaccel_context =>
    match (c.2.2.heap[hwaccel_context]?).bind (fun cell => cell.val.hw_device_ref) with
    | none =>
      (AVERROR_ENOMEM, { c.2.1 with opaque_slot := none },
        tvhva_context_destroy (some hwaccel_context) c.2.2)
    | some buf =>
      let b := av_buffer_ref_device env buf c.2.2
      match b.1 with
      | none =>
        (AVERROR_ENOMEM, { c.2.1 with opaque_slot := none },
          tvhva_context_destroy (some hwaccel_context) b.2)
      | some ref =>
        (0, { c.2.1 with opaque_slot := some ref },
          tvhva_context_destroy (some hwaccel_context) b.2)

/-- `vaapi_encode_close_context`. -/
def vaapi_encode_close_context (avctx : AVCodecContext) (w : World) :
    AVCodecContext × World :=
  match avctx.opaque_slot with
  | some hw_device_ctx =>
    ({ avctx with opaque_slot := none }, av_buffer_unref_device hw_device_ctx w)
  | none => (avctx, w)

/-! ## Module -/

/-- `AV_DICT_DONT_OVERWRITE` of `libavutil/dict.h`. -/
def AV_DICT_DONT_OVERWRITE : Nat := 16

/-- A request made on the options dictionary through one of the macros of
`transcoding/codec/internals.h`. -/
inductive DictRequest where
  | set_int (key : String) (value : Int) (flags : Nat)
  | set_bit_rate (value : ℚ)
  deriving DecidableEq

/-- The options dictionary `AVDictionary **opts`, as the requests made on it,
oldest first. -/
abbrev AVDictionary := List DictRequest

/-- Modelled from the spec: the macro `AV_DICT_SET_INT` is defined in
`transcoding/codec/internals.h`, which is not among the sources.  The values
of a descriptor populate the configuration dictionary passed to the encoder
and carry no error condition: the macro asks for an integer value under a
key, with the flags given, and the request is recorded. -/
def AV_DICT_SET_INT (d : AVDictionary) (k : String) (v : Int) (f : Nat) : AVDictionary :=
  d ++ [DictRequest.set_int k v f]

/-- Modelled from the spec: the macro `AV_DICT_SET_BIT_RATE` is defined in
`transcoding/codec/internals.h`, which is not among the sources.  It asks for
the target bit rate, and the request is recorded. -/
def AV_DICT_SET_BIT_RATE (d : AVDictionary) (v : ℚ) : AVDictionary :=
  d ++ [DictRequest.set_bit_rate v]

/-- The macro `AV_DICT_SET_QP`: `(v) ? (v) : (a)` under the key `qp`. -/
def AV_DICT_SET_QP (d : AVDictionary) (v a : Int) : AVDictionary :=
  AV_DICT_SET_INT d "qp" (if v ≠ 0 then v else a) AV_DICT_DONT_OVERWRITE

/-- The fields of `tvh_codec_profile_vaapi_t` that the open functions read.
`bit_rate` belongs to the embedded `TVHVideoCodecProfile`; it is a `double`
that the source only tests against zero, here a rational. -/
structure tvh_codec_profile_vaapi_t where
  bit_rate : ℚ
  qp : Int
  quality : Int
  deriving DecidableEq

/-- `tvh_codec_profile_vaapi_h264_open`. -/
def tvh_codec_profile_vaapi_h264_open (self : tvh_codec_profile_vaapi_t)
    (opts : AVDictionary) : Int × AVDictionary :=
  let opts :=
    if self.bit_rate ≠ 0 then AV_DICT_SET_BIT_RATE opts self.bit_rate
    else AV_DICT_SET_QP opts self.qp 20
  let opts := AV_DICT_SET_INT opts "quality" self.quality 0
  (0, opts)

/-- `tvh_codec_profile_vaapi_hevc_open`. -/
def tvh_codec_profile_vaapi_hevc_open (self : tvh_codec_profile_vaapi_t)
    (opts : AVDictionary) : Int × AVDictionary :=
  let opts :=
    if self.bit_rate ≠ 0 then AV_DICT_SET_BIT_RATE opts self.bit_rate
    else AV_DICT_SET_QP opts self.qp 25
  (0, opts)

/-! ## Definitions used to state the specification -/

/-- The profile table as the specification words it: the candidate for each
listed pair of codec and profile hint. -/
def spec_profile_table : List ((AVCodecID × Int) × VAProfile) :=
  [ ((AVCodecID.MPEG2VIDEO, FF_PROFILE_UNKNOWN), VAProfile.MPEG2Main),
    ((AVCodecID.MPEG2VIDEO, FF_PROFILE_MPEG2_MAIN), VAProfile.MPEG2Main),
    ((AVCodecID.MPEG2VIDEO, FF_PROFILE_MPEG2_SIMPLE), VAProfile.MPEG2Simple),
    ((AVCodecID.H264, FF_PROFILE_UNKNOWN), VAProfile.H264High),
    ((AVCodecID.H264, FF_PROFILE_H264_HIGH), VAProfile.H264High),
    ((AVCodecID.H264, FF_PROFILE_H264_BASELINE), VAProfile.H264Baseline),
    ((AVCodecID.H264, FF_PROFILE_H264_CONSTRAINED_BASELINE),
      VAProfile.H264ConstrainedBaseline),
    ((AVCodecID.H264, FF_PROFILE_H264_MAIN), VAProfile.H264Main),
    ((AVCodecID.HEVC, FF_PROFILE_UNKNOWN), VAProfile.HEVCMain),
    ((AVCodecID.HEVC, FF_PROFILE_HEVC_MAIN), VAProfile.HEVCMain),
    ((AVCodecID.HEVC, FF_PROFILE_HEVC_MAIN_10), VAProfile.HEVCMain10) ]

/-- The candidate of the specification's table, `none` for an unlisted pair. -/
def spec_profile_candidate (codec_id : AVCodecID) (profile : Int) : Option VAProfile :=
  (spec_profile_table.find? (fun e => decide (e.1 = (codec_id, profile)))).map Prod.snd

/-- The formats a device lists: the entries of `valid_sw_formats` before the
terminating `AV_PIX_FMT_NONE`. -/
def listed_sw_formats (valid_sw_formats : List AVPixelFormat) : List AVPixelFormat :=
  valid_sw_formats.takeWhile (fun f => decide (f ≠ AVPixelFormat.NONE))

/-- Whether format `f` has the component count and the horizontal and vertical
chroma subsampling of the desired format `io_format`. -/
def same_layout (env : Env) (io_format f : AVPixelFormat) : Bool :=
  match env.av_pix_fmt_desc_get io_format, env.av_pix_fmt_desc_get f with
  | some io_desc, some sw_desc =>
    decide (sw_desc.nb_components = io_desc.nb_components ∧
      sw_desc.log2_chroma_w = io_desc.log2_chroma_w ∧
      sw_desc.log2_chroma_h = io_desc.log2_chroma_h)
  | _, _ => false

/-- The entries of libavutil's descriptor table (`pixdesc.c`) for the software
formats named here: component count and log2 chroma shifts. -/
def pixdesc (f : AVPixelFormat) : Option AVPixFmtDescriptor :=
  match f with
  | .YUV420P => some { nb_components := 3, log2_chroma_w := 1, log2_chroma_h := 1 }
  | .NV12 => some { nb_components := 3, log2_chroma_w := 1, log2_chroma_h := 1 }
  | .NV21 => some { nb_components := 3, log2_chroma_w := 1, log2_chroma_h := 1 }
  | .YUV422P => some { nb_components := 3, log2_chroma_w := 1, log2_chroma_h := 0 }
  | .UYVY422 => some { nb_components := 3, log2_chroma_w := 1, log2_chroma_h := 0 }
  | .YUYV422 => some { nb_components := 3, log2_chroma_w := 1, log2_chroma_h := 0 }
  | .GRAY8 => some { nb_components := 1, log2_chroma_w := 0, log2_chroma_h := 0 }
  | _ => none

/-- A format of the 4:2:0 chroma family: three components, chroma halved in
both directions. -/
def is_yuv420 (f : AVPixelFormat) : Prop :=
  pixdesc f = some { nb_components := 3, log2_chroma_w := 1, log2_chroma_h := 1 }

/-- Whether an external call is a create-config request. -/
def Event.isCreateConfig : Event → Bool
  | .vaCreateConfig _ _ _ => true
  | _ => false

/-- Whether an external call belongs to the acquisition of a device
reference: an attempt to open a device node or a new reference to a device
buffer. -/
def Event.isAcquire : Event → Bool
  | .av_hwdevice_ctx_create _ => true
  | .av_buffer_ref_device _ => true
  | _ => false

/-- Whether an external call belongs to the capability queries of the profile
negotiation, the allocation of their result arrays included. -/
def Event.isQuery : Event → Bool
  | .vaMaxNumProfiles => true
  | .vaQueryConfigProfiles => true
  | .vaMaxNumEntrypoints => true
  | .vaQueryConfigEntrypoints _ => true
  | .calloc => true
  | _ => false

/-- Whether an external call releases something a session holds: an execution
context, a config, a frame-pool reference, a device reference or the session
object itself. -/
def Event.isRelease : Event → Bool
  | .vaDestroyContext _ => true
  | .vaDestroyConfig _ => true
  | .av_buffer_unref_frames _ => true
  | .av_buffer_unref_device _ => true
  | .free_context _ => true
  | _ => false

/-- The release calls a session with these field values is due, in the order
in which `tvhva_context_destroy` makes them: execution context, config, frame
pool, device reference; nothing for a resource the session does not hold. -/
def release_events (self : TVHVAContext) : List Event :=
  (if self.context_id ≠ VA_INVALID_ID then [Event.vaDestroyContext self.context_id]
    else []) ++
  (if self.config_id ≠ VA_INVALID_ID then [Event.vaDestroyConfig self.config_id]
    else []) ++
  (match self.hw_frames_ref with
    | some buf => [Event.av_buffer_unref_frames buf]
    | none => []) ++
  (match self.hw_device_ref with
    | some buf => [Event.av_buffer_unref_device buf]
    | none => [])

/-- A session that holds nothing: what `tvhva_context_destroy` leaves in the
fields of the session it was given. -/
def released (self : TVHVAContext) : TVHVAContext :=
  { self with display := none, config_id := VA_INVALID_ID, context_id := VA_INVALID_ID,
              hw_device_ref := none, hw_frames_ref := none }

/-- Whether an external call is an attempt to open a device node. -/
def Event.isOpen : Event → Bool
  | .av_hwdevice_ctx_create _ => true
  | _ => false

/-- Whether an external call is the allocation of a frame pool. -/
def Event.isPoolAlloc : Event → Bool
  | .av_hwframe_ctx_alloc _ => true
  | _ => false

/-- Whether an external call is a create-execution-context request. -/
def Event.isCreateContext : Event → Bool
  | .vaCreateContext _ _ _ _ => true
  | _ => false

/-- Whether an external call is a destroy-config request. -/
def Event.isDestroyConfig : Event → Bool
  | .vaDestroyConfig _ => true
  | _ => false

/-- Whether an external call is a destroy-execution-context request. -/
def Event.isDestroyContext : Event → Bool
  | .vaDestroyContext _ => true
  | _ => false

/-- The candidates of the specification in probing order: render nodes 128,
129 and 130, then the legacy cards 0, 1 and 2. -/
def spec_candidates : List DevicePath :=
  [ DevicePath.renderD 128, DevicePath.renderD 129, DevicePath.renderD 130,
    DevicePath.card 0, DevicePath.card 1, DevicePath.card 2 ]

/-- The key of a request for an integer option, `none` for the bit-rate
request. -/
def DictRequest.key : DictRequest → Option String
  | .set_int k _ _ => some k
  | .set_bit_rate _ => none

/-- Whether a request is the bit-rate request. -/
def DictRequest.isBitRate : DictRequest → Bool
  | .set_bit_rate _ => true
  | .set_int _ _ _ => false

/-- A call of one of the four session functions, on the codec context with
the given index. -/
inductive Call where
  | decode_setup (i : Nat)
  | decode_close (i : Nat)
  | encode_setup (i : Nat)
  | encode_close (i : Nat)
  deriving DecidableEq, Repr

/-- The codec contexts of the callers together with the program state. -/
structure Machine where
  ctxs : List AVCodecContext
  world : World
  deriving DecidableEq, Repr

/-- One call on a machine; a call on an index without a codec context does
nothing. -/
def Machine.call (env : Env) (m : Machine) (c : Call) : Machine :=
  match c with
  | .decode_setup i =>
    match m.ctxs[i]? with
    | none => m
    | some avctx =>
      let r := vaapi_decode_setup_context env avctx m.world
      { ctxs := m.ctxs.set i r.2.1, world := r.2.2 }
  | .decode_close i =>
    match m.ctxs[i]? with
    | none => m
    | some avctx =>
      let r := vaapi_decode_close_context avctx m.world
      { ctxs := m.ctxs.set i r.1, world := r.2 }
  | .encode_setup i =>
    match m.ctxs[i]? with
    | none => m
    | some avctx =>
      let r := vaapi_encode_setup_context env avctx m.world
      { ctxs := m.ctxs.set i r.2.1, world := r.2.2 }
  | .encode_close i =>
    match m.ctxs[i]? with
    | none => m
    | some avctx =>
      let r := vaapi_encode_close_context avctx m.world
      { ctxs := m.ctxs.set i r.1, world := r.2 }

/-- The external calls made between state `w` and a later state `w2`. -/
def World.since (w2 w : World) : List Event := w2.trace.drop w.trace.length

/-! ## Example device and codec contexts -/

/-- A device on `/dev/dri/renderD129` that supports H.264 Main and High for
decode and encode, the YUV420 and YUV422 format classes, and NV21 and NV12
surfaces from 16x16 to 4096x4096. -/
def example_env : Env :=
  { av_hwdevice_ctx_create := fun _ d => decide (d = DevicePath.renderD 129),
    av_buffer_ref := fun _ => true,
    calloc := fun _ => true,
    vaMaxNumProfiles := fun _ => 16,
    vaQueryConfigProfiles := fun _ => some [VAProfile.H264Main, VAProfile.H264High],
    vaMaxNumEntrypoints := fun _ => 8,
    vaQueryConfigEntrypoints := fun _ _ => some [VAEntrypoint.VLD, VAEntrypoint.EncSlice],
    vaGetConfigAttributes := fun _ _ _ => some 3,
    vaCreateConfig := fun _ _ _ _ => some 7,
    av_hwdevice_hwconfig_alloc := fun _ => true,
    av_hwdevice_get_hwframe_constraints := fun _ _ =>
      some { valid_sw_formats := [AVPixelFormat.NV21, AVPixelFormat.NV12, AVPixelFormat.NONE],
             min_width := 16, min_height := 16, max_width := 4096, max_height := 4096 },
    av_hwframe_ctx_alloc := fun _ => true,
    av_hwframe_ctx_init := fun _ _ _ _ _ => true,
    vaCreateContext := fun _ _ _ _ => some 9,
    av_pix_fmt_desc_get := pixdesc }

/-- A codec context for H.264 High, planar YUV 4:2:0, 1920x1080. -/
def example_avctx : AVCodecContext :=
  { codec_id := AVCodecID.H264, profile := FF_PROFILE_H264_HIGH,
    sw_pix_fmt := AVPixelFormat.YUV420P,
    coded_width := 1920, coded_height := 1080, hw_frames_ctx := none,
    hwaccel_context := none, opaque_slot := none, thread_count := 4,
    thread_safe_callbacks := 1, get_buffer2 := GetBuffer2.avcodec_default_get_buffer2 }

/-! ## The resources of a session -/

/-- The four resources a session acquires from the device. -/
inductive Resource where
  | device
  | config
  | frame_pool
  | context
  deriving DecidableEq, Repr

/-- The resource an external call asks for on behalf of a session, if any: a
reference to the device buffer, a config, a frame pool or an execution
context. -/
def Event.acquires : Event → Option Resource
  | .av_buffer_ref_device _ => some Resource.device
  | .vaCreateConfig _ _ _ => some Resource.config
  | .av_hwframe_ctx_alloc _ => some Resource.frame_pool
  | .vaCreateContext _ _ _ _ => some Resource.context
  | _ => none

/-- The resource of a session an external call releases, if any. -/
def Event.releases : Event → Option Resource
  | .av_buffer_unref_device _ => some Resource.device
  | .vaDestroyConfig _ => some Resource.config
  | .av_buffer_unref_frames _ => some Resource.frame_pool
  | .vaDestroyContext _ => some Resource.context
  | _ => none

/-- Whether a session holds a resource: a reference that is not null, or an
id other than `VA_INVALID_ID`. -/
def TVHVAContext.holds (self : TVHVAContext) : Resource → Bool
  | .device => self.hw_device_ref.isSome
  | .config => decide (self.config_id ≠ VA_INVALID_ID)
  | .frame_pool => self.hw_frames_ref.isSome
  | .context => decide (self.context_id ≠ VA_INVALID_ID)

/-! ## Sequences of calls that stay within defined behaviour -/

/-- Whether a call reads only memory that is still allocated: a decode
teardown is defined on a codec context whose `hwaccel_context` is null or
points to a session that has not been freed.  The other three functions read
no session through a pointer kept in the codec context. -/
def Machine.call_defined (m : Machine) : Call → Bool
  | .decode_close i =>
    match m.ctxs[i]? with
    | none => true
    | some avctx =>
      match avctx.hwaccel_context with
      | none => true
      | some ptr =>
        match m.world.heap[ptr]? with
        | some cell => !cell.freed
        | none => false
  | _ => true

/-- Run a sequence of calls as far as the behaviour of the C program is
defined: `none` when a call in it is a teardown on a session that has been
freed. -/
def Machine.run_defined (env : Env) (m : Machine) : List Call → Option Machine
  | [] => some m
  | c :: cs => if m.call_defined c then (m.call env c).run_defined env cs else none

/-! ## Auxiliary lemmas -/

theorem log_trace (w : World) (e : Event) : (w.log e).trace = w.trace ++ [e] := rfl

theorem init_loop_trace (env : Env) (l : List Int) (w : World) :
    ∃ evs, (tvhva_init_loop env l w).2.trace = w.trace ++ evs ∧
      ∀ e ∈ evs, e.isAcquire = true := by
  induction l generalizing w with
  | nil => exact ⟨[], by simp [tvhva_init_loop]⟩
  | cons i rest ih =>
    unfold tvhva_init_loop
    by_cases h : env.av_hwdevice_ctx_create w.now (tvhva_init_device i) = true
    · exact ⟨[Event.av_hwdevice_ctx_create (tvhva_init_device i)], by
        simp [h, World.log, Event.isAcquire]⟩
    · obtain ⟨evs, h1, h2⟩ := ih
        { w.log (Event.av_hwdevice_ctx_create (tvhva_init_device i)) with
          hw_device_ref := none }
      refine ⟨Event.av_hwdevice_ctx_create (tvhva_init_device i) :: evs, ?_, ?_⟩
      · simp only [h]
        simp only [Bool.false_eq_true, if_false]
        rw [h1]
        simp [World.log]
      · intro e he
        rcases List.mem_cons.mp he with rfl | he
        · rfl
        · exact h2 e he

theorem display_trace (env : Env) (self : TVHVAContext) (w : World) :
    ∃ evs, (tvhva_context_display env self w).2.2.trace = w.trace ++ evs ∧
      ∀ e ∈ evs, e.isAcquire = true := by
  obtain ⟨evs, h1, h2⟩ := init_loop_trace env [0, 1, 2, 3, 4, 5] w
  unfold tvhva_context_display
  by_cases hr : w.hw_device_ref = none
  · simp only [hr, if_true, tvhva_init]
    by_cases hi : (tvhva_init_loop env [0, 1, 2, 3, 4, 5] w).1 = 0
    · simp only [hi, ne_eq, not_true_eq_false, decide_False, Bool.false_eq_true, if_false]
      cases hd : (tvhva_init_loop env [0, 1, 2, 3, 4, 5] w).2.hw_device_ref with
      | none => exact ⟨evs, h1, h2⟩
      | some buf =>
        simp only [av_buffer_ref_device]
        refine ⟨evs ++ [Event.av_buffer_ref_device buf], ?_, ?_⟩
        · split_ifs <;> simp [World.log, h1]
        · intro e he
          rcases List.mem_append.mp he with he | he
          · exact h2 e he
          · simp at he; subst he; rfl
    · simp only [hi, ne_eq, not_false_eq_true, decide_True, if_true]
      exact ⟨evs, h1, h2⟩
  · simp only [hr, if_false, Bool.false_eq_true]
    cases hd : w.hw_device_ref with
    | none => exact absurd hd hr
    | some buf =>
      simp only [av_buffer_ref_device]
      refine ⟨[Event.av_buffer_ref_device buf], ?_, ?_⟩
      · split_ifs <;> simp [World.log]
      · intro e he
        simp at he; subst he; rfl

theorem display_self (env : Env) (self : TVHVAContext) (w : World) :
    (tvhva_context_display env self w).2.1 =
      { self with hw_device_ref := (tvhva_context_display env self w).2.1.hw_device_ref } := by
  unfold tvhva_context_display av_buffer_ref_device
  dsimp only
  split_ifs <;> (try split) <;> simp

theorem profile_trace (env : Env) (avctx : AVCodecContext) (w : World) :
    ∃ evs, (tvhva_context_profile env avctx w).2.trace = w.trace ++ evs ∧
      ∀ e ∈ evs, e.isQuery = true := by
  unfold tvhva_context_profile
  dsimp only
  split_ifs
  · split
    · exact ⟨[Event.vaMaxNumProfiles, Event.calloc, Event.vaQueryConfigProfiles], by
        simp [World.log, Event.isQuery]⟩
    · exact ⟨[Event.vaMaxNumProfiles, Event.calloc, Event.vaQueryConfigProfiles], by
        simp [World.log, Event.isQuery]⟩
  · exact ⟨[Event.vaMaxNumProfiles, Event.calloc], by simp [World.log, Event.isQuery]⟩
  · exact ⟨[Event.vaMaxNumProfiles], by simp [World.log, Event.isQuery]⟩
  · exact ⟨[], by simp⟩

theorem check_profile_trace (env : Env) (self : TVHVAContext) (profile : VAProfile)
    (w : World) :
    ∃ evs, (tvhva_context_check_profile env self profile w).2.trace = w.trace ++ evs ∧
      ∀ e ∈ evs, e.isQuery = true := by
  unfold tvhva_context_check_profile
  dsimp only
  split_ifs
  · split
    · exact ⟨[Event.vaMaxNumEntrypoints, Event.calloc,
        Event.vaQueryConfigEntrypoints profile], by simp [World.log, Event.isQuery]⟩
    · exact ⟨[Event.vaMaxNumEntrypoints, Event.calloc,
        Event.vaQueryConfigEntrypoints profile], by simp [World.log, Event.isQuery]⟩
  · exact ⟨[Event.vaMaxNumEntrypoints, Event.calloc], by simp [World.log, Event.isQuery]⟩
  · exact ⟨[Event.vaMaxNumEntrypoints], by simp [World.log, Event.isQuery]⟩

theorem setup_profile_trace (env : Env) (self : TVHVAContext) (avctx : AVCodecContext)
    (w : World) :
    ∃ evs, (tvhva_context_setup_profile env self avctx w).2.trace = w.trace ++ evs ∧
      ∀ e ∈ evs, e.isQuery = true := by
  obtain ⟨e1, h1, q1⟩ := profile_trace env avctx w
  obtain ⟨e2, h2, q2⟩ := check_profile_trace env self
    (tvhva_context_profile env avctx w).1 (tvhva_context_profile env avctx w).2
  unfold tvhva_context_setup_profile
  dsimp only
  split_ifs
  · exact ⟨e1, h1, q1⟩
  · refine ⟨e1 ++ e2, by rw [h2, h1, List.append_assoc], ?_⟩
    intro e he
    rcases List.mem_append.mp he with he | he
    · exact q1 e he
    · exact q2 e he
  · refine ⟨e1 ++ e2, by rw [h2, h1, List.append_assoc], ?_⟩
    intro e he
    rcases List.mem_append.mp he with he | he
    · exact q1 e he
    · exact q2 e he

/-- The head of the setup, up to the format class: device reference and profile
negotiation only. -/
theorem setup_head_trace (env : Env) (self : TVHVAContext) (avctx : AVCodecContext)
    (w : World) (h : tvhva_get_format self.io_format = 0) :
    (tvhva_context_setup env self avctx w).1 = -1 ∧
    ∃ evs, (tvhva_context_setup env self avctx w).2.2.2.trace = w.trace ++ evs ∧
      ∀ e ∈ evs, e.isAcquire = true ∨ e.isQuery = true := by
  obtain ⟨e1, h1, q1⟩ := display_trace env self w
  obtain ⟨e2, h2, q2⟩ := setup_profile_trace env
    { (tvhva_context_display env self w).2.1 with
      display := (tvhva_context_display env self w).1 } avctx
    (tvhva_context_display env self w).2.2
  have hio : (tvhva_context_display env self w).2.1.io_format = self.io_format := by
    rw [display_self]
  have hall : ∀ e ∈ e1 ++ e2, e.isAcquire = true ∨ e.isQuery = true := by
    intro e he
    rcases List.mem_append.mp he with he | he
    · exact Or.inl (q1 e he)
    · exact Or.inr (q2 e he)
  have htr : (tvhva_context_setup_profile env
      { (tvhva_context_display env self w).2.1 with
        display := (tvhva_context_display env self w).1 } avctx
      (tvhva_context_display env self w).2.2).2.trace = w.trace ++ (e1 ++ e2) := by
    rw [h2, h1, List.append_assoc]
  unfold tvhva_context_setup
  dsimp only
  split_ifs with hd hf
  · exact ⟨rfl, e1, h1, fun e he => Or.inl (q1 e he)⟩
  · split <;> exact ⟨rfl, e1 ++ e2, htr, hall⟩
  · exact absurd (by rw [hio]; exact h) hf

theorem profile_check_eq_spec (codec_id : AVCodecID) (profile : Int) :
    tvhva_context_profile_check codec_id profile =
      (spec_profile_candidate codec_id profile).getD VAProfile.None := by
  by_cases h1 : profile = -99
  · subst h1; cases codec_id <;> rfl
  by_cases h2 : profile = 4
  · subst h2; cases codec_id <;> rfl
  by_cases h3 : profile = 5
  · subst h3; cases codec_id <;> rfl
  by_cases h4 : profile = 66
  · subst h4; cases codec_id <;> rfl
  by_cases h5 : profile = 578
  · subst h5; cases codec_id <;> rfl
  by_cases h6 : profile = 77
  · subst h6; cases codec_id <;> rfl
  by_cases h7 : profile = 100
  · subst h7; cases codec_id <;> rfl
  by_cases h8 : profile = 1
  · subst h8; cases codec_id <;> rfl
  by_cases h9 : profile = 2
  · subst h9; cases codec_id <;> rfl
  have e1 := Ne.symm h1
  have e2 := Ne.symm h2
  have e3 := Ne.symm h3
  have e4 := Ne.symm h4
  have e5 := Ne.symm h5
  have e6 := Ne.symm h6
  have e7 := Ne.symm h7
  have e8 := Ne.symm h8
  have e9 := Ne.symm h9
  cases codec_id <;>
    simp [tvhva_context_profile_check, spec_profile_candidate, spec_profile_table,
      List.find?, h1, h2, h3, h4, h5, h6, h7, h8, h9, e1, e2, e3, e4, e5, e6, e7, e8, e9]

theorem profile_none_of_check (env : Env) (avctx : AVCodecContext) (w : World)
    (h : tvhva_context_profile_check avctx.codec_id avctx.profile = VAProfile.None) :
    tvhva_context_profile env avctx w = (VAProfile.None, w) := by
  simp [tvhva_context_profile, h]

theorem profile_scan_eq (check : VAProfile) (ps : List VAProfile) :
    tvhva_context_profile_scan check ps = if check ∈ ps then check else VAProfile.None := by
  induction ps with
  | nil => simp [tvhva_context_profile_scan]
  | cons p ps ih =>
    by_cases h : p = check
    · simp [tvhva_context_profile_scan, h]
    · have h2 : ¬ check = p := fun e => h e.symm
      simp [tvhva_context_profile_scan, h, h2, ih]

theorem check_profile_scan_eq (e : VAEntrypoint) (es : List VAEntrypoint) :
    tvhva_context_check_profile_scan e es = if e ∈ es then 0 else -1 := by
  induction es with
  | nil => simp [tvhva_context_check_profile_scan]
  | cons x xs ih =>
    by_cases h : x = e
    · simp [tvhva_context_check_profile_scan, h]
    · have h2 : ¬ e = x := fun c => h c.symm
      simp [tvhva_context_check_profile_scan, h, h2, ih]

theorem since_append (w : World) (evs : List Event) (w2 : World)
    (h : w2.trace = w.trace ++ evs) : w2.since w = evs := by
  simp [World.since, h]

theorem check_constraints_exact_eq (io : AVPixelFormat) (l : List AVPixelFormat) :
    tvhva_context_check_constraints_exact io l =
      if io ∈ listed_sw_formats l then some io else none := by
  induction l with
  | nil => simp [tvhva_context_check_constraints_exact, listed_sw_formats]
  | cons f fs ih =>
    unfold listed_sw_formats at ih
    by_cases h1 : f = AVPixelFormat.NONE
    · simp [tvhva_context_check_constraints_exact, listed_sw_formats, h1, List.takeWhile]
    · by_cases h2 : f = io
      · simp [tvhva_context_check_constraints_exact, listed_sw_formats, h1, h2,
          List.takeWhile]
        subst h2
        simp [h1]
      · have h3 : ¬ io = f := fun e => h2 e.symm
        simp [tvhva_context_check_constraints_exact, listed_sw_formats, h1, h2, h3,
          List.takeWhile, ih]

theorem check_constraints_similar_eq (env : Env) (io : AVPixelFormat)
    (io_desc : AVPixFmtDescriptor) (hio : env.av_pix_fmt_desc_get io = some io_desc)
    (l : List AVPixelFormat) :
    tvhva_context_check_constraints_similar env io_desc l =
      (listed_sw_formats l).find? (same_layout env io) := by
  induction l with
  | nil => simp [tvhva_context_check_constraints_similar, listed_sw_formats]
  | cons f fs ih =>
    unfold listed_sw_formats at ih
    by_cases h1 : f = AVPixelFormat.NONE
    · simp [tvhva_context_check_constraints_similar, listed_sw_formats, h1, List.takeWhile]
    · cases hd : env.av_pix_fmt_desc_get f with
      | none =>
        simp [tvhva_context_check_constraints_similar, listed_sw_formats, h1, hd,
          List.takeWhile, List.find?, same_layout, hio, ih]
      | some sw_desc =>
        by_cases h2 : sw_desc.nb_components = io_desc.nb_components ∧
            sw_desc.log2_chroma_w = io_desc.log2_chroma_w ∧
            sw_desc.log2_chroma_h = io_desc.log2_chroma_h
        · simp [tvhva_context_check_constraints_similar, listed_sw_formats, h1, hd,
            List.takeWhile, List.find?, same_layout, hio, h2]
        · simp [tvhva_context_check_constraints_similar, listed_sw_formats, h1, hd,
            List.takeWhile, List.find?, same_layout, hio, h2, ih]

theorem same_layout_of_no_desc (env : Env) (io : AVPixelFormat)
    (hio : env.av_pix_fmt_desc_get io = none) (l : List AVPixelFormat) :
    l.find? (same_layout env io) = none := by
  induction l with
  | nil => rfl
  | cons f fs ih => simp [List.find?, same_layout, hio, ih]

theorem listed_ne_none (l : List AVPixelFormat) (f : AVPixelFormat)
    (h : f ∈ listed_sw_formats l) : f ≠ AVPixelFormat.NONE := by
  have := List.mem_takeWhile_imp h
  simpa using this

theorem check_constraints_format_similar (env : Env) (self : TVHVAContext)
    (l : List AVPixelFormat)
    (hnone : env.av_pix_fmt_desc_get AVPixelFormat.NONE = none)
    (hsw : self.sw_format = AVPixelFormat.NONE)
    (hmem : self.io_format ∉ listed_sw_formats l) :
    (tvhva_context_check_constraints_format env self l).sw_format =
      ((listed_sw_formats l).find? (same_layout env self.io_format)).getD
        AVPixelFormat.NONE := by
  by_cases hio : self.io_format = AVPixelFormat.NONE
  · have h0 : env.av_pix_fmt_desc_get self.io_format = none := by rw [hio]; exact hnone
    rw [same_layout_of_no_desc env self.io_format h0]
    simp [tvhva_context_check_constraints_format, hio, hsw]
  · cases hd : env.av_pix_fmt_desc_get self.io_format with
    | none =>
      rw [same_layout_of_no_desc env self.io_format hd]
      simp [tvhva_context_check_constraints_format, hio, hsw, check_constraints_exact_eq,
        hmem, hd]
    | some io_desc =>
      have hs := check_constraints_similar_eq env self.io_format io_desc hd l
      cases hfind : (listed_sw_formats l).find? (same_layout env self.io_format) with
      | none =>
        rw [hfind] at hs
        simp [tvhva_context_check_constraints_format, hio, hsw, check_constraints_exact_eq,
          hmem, hd, hs]
      | some f =>
        rw [hfind] at hs
        simp [tvhva_context_check_constraints_format, hio, hsw, check_constraints_exact_eq,
          hmem, hd, hs]

theorem check_constraints_format_eq (env : Env) (self : TVHVAContext)
    (l : List AVPixelFormat) :
    tvhva_context_check_constraints_format env self l =
      { self with
        sw_format := (tvhva_context_check_constraints_format env self l).sw_format } := by
  obtain ⟨display, config_id, context_id, entrypoint, io_format, sw_format, width, height,
    hw_device_ref, hw_frames_ref⟩ := self
  unfold tvhva_context_check_constraints_format
  by_cases hio : io_format = AVPixelFormat.NONE
  · simp [hio]
  · cases he : tvhva_context_check_constraints_exact io_format l with
    | some f =>
      by_cases hf : f = AVPixelFormat.NONE
      · cases hd : env.av_pix_fmt_desc_get io_format with
        | none => simp [hio, hf, hd]
        | some d =>
          cases hs : tvhva_context_check_constraints_similar env d l <;>
            simp [hio, hf, hs, hd]
      · simp [hio, hf]
    | none =>
      by_cases hsw : sw_format = AVPixelFormat.NONE
      · cases hd : env.av_pix_fmt_desc_get io_format with
        | none => simp [hio, hsw, hd]
        | some d =>
          cases hs : tvhva_context_check_constraints_similar env d l <;>
            simp [hio, hsw, hs, hd]
      · simp [hio, hsw]

theorem check_constraints_format_width (env : Env) (self : TVHVAContext)
    (l : List AVPixelFormat) :
    (tvhva_context_check_constraints_format env self l).width = self.width ∧
    (tvhva_context_check_constraints_format env self l).height = self.height := by
  rw [check_constraints_format_eq]
  exact ⟨rfl, rfl⟩

theorem init_loop_heap (env : Env) (l : List Int) (w : World) :
    (tvhva_init_loop env l w).2.heap = w.heap := by
  induction l generalizing w with
  | nil => rfl
  | cons i rest ih =>
    unfold tvhva_init_loop
    dsimp only
    split_ifs
    · rfl
    · rw [ih]; rfl

theorem display_heap (env : Env) (self : TVHVAContext) (w : World) :
    (tvhva_context_display env self w).2.2.heap = w.heap := by
  have h := init_loop_heap env [0, 1, 2, 3, 4, 5] w
  unfold tvhva_context_display av_buffer_ref_device tvhva_init
  dsimp only
  split_ifs <;> (try split) <;> simp_all [World.log]

theorem profile_heap (env : Env) (avctx : AVCodecContext) (w : World) :
    (tvhva_context_profile env avctx w).2.heap = w.heap := by
  unfold tvhva_context_profile
  dsimp only
  split_ifs <;> (try split) <;> rfl

theorem check_profile_heap (env : Env) (self : TVHVAContext) (profile : VAProfile)
    (w : World) : (tvhva_context_check_profile env self profile w).2.heap = w.heap := by
  unfold tvhva_context_check_profile
  dsimp only
  split_ifs <;> (try split) <;> rfl

theorem setup_profile_heap (env : Env) (self : TVHVAContext) (avctx : AVCodecContext)
    (w : World) : (tvhva_context_setup_profile env self avctx w).2.heap = w.heap := by
  unfold tvhva_context_setup_profile
  dsimp only
  split_ifs <;> simp [profile_heap, check_profile_heap]

theorem config_heap (env : Env) (self : TVHVAContext) (profile : VAProfile) (format : Nat)
    (w : World) : (tvhva_context_config env self profile format w).2.2.heap = w.heap := by
  unfold tvhva_context_config
  dsimp only
  split
  · rfl
  · split_ifs
    · rfl
    · split <;> rfl

theorem check_constraints_heap (env : Env) (self : TVHVAContext) (w : World) :
    (tvhva_context_check_constraints env self w).2.2.heap = w.heap := by
  unfold tvhva_context_check_constraints
  dsimp only
  split_ifs
  · rfl
  · split
    · rfl
    · split_ifs <;> rfl

theorem av_buffer_ref_frames_heap (env : Env) (buf : Nat) (w : World) :
    (av_buffer_ref_frames env buf w).2.heap = w.heap := by
  unfold av_buffer_ref_frames
  dsimp only
  split_ifs <;> rfl

theorem setup_pool_heap (env : Env) (self : TVHVAContext) (w : World) :
    (tvhva_context_setup_pool env self w).2.2.heap = w.heap := by
  unfold tvhva_context_setup_pool
  dsimp only
  split_ifs <;> rfl

theorem setup_context_heap (env : Env) (self : TVHVAContext) (w : World) :
    (tvhva_context_setup_context env self w).2.2.heap = w.heap := by
  unfold tvhva_context_setup_context
  dsimp only
  split_ifs
  · split <;> rfl
  · rfl

theorem setup_export_heap (env : Env) (self : TVHVAContext) (avctx : AVCodecContext)
    (w : World) : (tvhva_context_setup_export env self avctx w).2.2.heap = w.heap := by
  unfold tvhva_context_setup_export
  dsimp only
  split
  · rfl
  · split <;> exact av_buffer_ref_frames_heap _ _ _

theorem setup_heap (env : Env) (self : TVHVAContext) (avctx : AVCodecContext) (w : World) :
    (tvhva_context_setup env self avctx w).2.2.2.heap = w.heap := by
  unfold tvhva_context_setup
  dsimp only
  split_ifs
  · exact display_heap env self w
  · split
    · rw [setup_profile_heap, display_heap]
    · rw [setup_profile_heap, display_heap]
  · split
    · rw [setup_profile_heap, display_heap]
    · split_ifs
      · rw [config_heap, setup_profile_heap, display_heap]
      · rw [check_constraints_heap, config_heap, setup_profile_heap, display_heap]
      · rw [setup_pool_heap, check_constraints_heap, config_heap, setup_profile_heap,
          display_heap]
      · rw [setup_context_heap, setup_pool_heap, check_constraints_heap, config_heap,
          setup_profile_heap, display_heap]
      · rw [setup_export_heap, setup_context_heap, setup_pool_heap, check_constraints_heap,
          config_heap, setup_profile_heap, display_heap]

theorem display_ok (env : Env) (self : TVHVAContext) (w : World)
    (h : (tvhva_context_display env self w).1 ≠ none) :
    (tvhva_context_display env self w).2.1.hw_device_ref ≠ none := by
  revert h
  unfold tvhva_context_display av_buffer_ref_device
  dsimp only
  split_ifs <;> (try split) <;> simp

theorem config_self (env : Env) (self : TVHVAContext) (profile : VAProfile) (format : Nat)
    (w : World) :
    (tvhva_context_config env self profile format w).2.1 =
      { self with
        config_id := (tvhva_context_config env self profile format w).2.1.config_id } := by
  unfold tvhva_context_config
  dsimp only
  split
  · rfl
  · split_ifs
    · rfl
    · split <;> rfl

theorem config_ok (env : Env) (self : TVHVAContext) (profile : VAProfile) (format : Nat)
    (w : World) (h : (tvhva_context_config env self profile format w).1 = 0) :
    ∃ t, env.vaCreateConfig t profile self.entrypoint format =
      some (tvhva_context_config env self profile format w).2.1.config_id := by
  revert h
  unfold tvhva_context_config
  dsimp only
  split
  · simp
  · split_ifs
    · simp
    · split
      · simp
      · rename_i id hid
        intro _
        exact ⟨_, hid⟩

theorem check_constraints_self (env : Env) (self : TVHVAContext) (w : World) :
    (tvhva_context_check_constraints env self w).2.1 =
      { self with
        sw_format := (tvhva_context_check_constraints env self w).2.1.sw_format } := by
  unfold tvhva_context_check_constraints
  dsimp only
  split_ifs
  · rfl
  · split
    · rfl
    · split_ifs <;> exact check_constraints_format_eq _ _ _

theorem check_constraints_ok (env : Env) (self : TVHVAContext) (w : World)
    (h : (tvhva_context_check_constraints env self w).1 = 0) :
    (tvhva_context_check_constraints env self w).2.1.sw_format ≠ AVPixelFormat.NONE := by
  revert h
  unfold tvhva_context_check_constraints
  dsimp only
  split_ifs
  · simp
  · split
    · simp
    · split_ifs with h1 h2
      · simp
      · simp
      · intro _; exact h1

theorem setup_pool_ok (env : Env) (self : TVHVAContext) (w : World)
    (h : (tvhva_context_setup_pool env self w).1 = 0) :
    (tvhva_context_setup_pool env self w).2.1 =
      { self with hw_frames_ref := some w.frames.length } := by
  revert h
  unfold tvhva_context_setup_pool
  dsimp only
  split_ifs <;> simp [World.log]

theorem setup_context_self (env : Env) (self : TVHVAContext) (w : World) :
    (tvhva_context_setup_context env self w).2.1 =
      { self with
        context_id := (tvhva_context_setup_context env self w).2.1.context_id } := by
  unfold tvhva_context_setup_context
  dsimp only
  split_ifs
  · split <;> rfl
  · rfl

theorem setup_context_ok (env : Env) (self : TVHVAContext) (w : World)
    (h : (tvhva_context_setup_context env self w).1 = 0)
    (hv : self.entrypoint = VAEntrypoint.VLD) :
    ∃ t, env.vaCreateContext t self.config_id self.width self.height =
      some (tvhva_context_setup_context env self w).2.1.context_id := by
  revert h
  unfold tvhva_context_setup_context
  dsimp only
  rw [if_pos hv]
  split
  · rename_i id hid
    intro _
    exact ⟨_, hid⟩
  · simp

/-- The session a successful `tvhva_context_setup` leaves behind. -/
theorem setup_ok (env : Env) (self : TVHVAContext) (avctx : AVCodecContext) (w : World)
    (hcfg : ∀ t p e f id, env.vaCreateConfig t p e f = some id → id ≠ VA_INVALID_ID)
    (hctx : ∀ t c x y id, env.vaCreateContext t c x y = some id → id ≠ VA_INVALID_ID)
    (h : (tvhva_context_setup env self avctx w).1 = 0) :
    (tvhva_context_setup env self avctx w).2.1.display ≠ none ∧
    (tvhva_context_setup env self avctx w).2.1.hw_device_ref ≠ none ∧
    (tvhva_context_setup env self avctx w).2.1.config_id ≠ VA_INVALID_ID ∧
    (tvhva_context_setup env self avctx w).2.1.hw_frames_ref ≠ none ∧
    (tvhva_context_setup env self avctx w).2.1.sw_format ≠ AVPixelFormat.NONE ∧
    (self.entrypoint = VAEntrypoint.VLD →
      (tvhva_context_setup env self avctx w).2.1.context_id ≠ VA_INVALID_ID) ∧
    (tvhva_context_setup env self avctx w).2.1.entrypoint = self.entrypoint := by
  have hd1 := display_ok env self w
  have hd2 := display_self env self w
  revert h
  unfold tvhva_context_setup
  dsimp only
  generalize tvhva_context_display env self w = d at *
  obtain ⟨d1, dself, dw⟩ := d
  dsimp only at *
  by_cases hd : d1 = none
  · simp [hd]
  · rw [if_neg hd]
    have hent : dself.entrypoint = self.entrypoint := by rw [hd2]
    generalize hfmt : tvhva_get_format dself.io_format = format
    generalize hself1 : ({ dself with display := d1 } : TVHVAContext) = self1
    have hdev : self1.hw_device_ref ≠ none := by rw [← hself1]; exact hd1 hd
    have hdisp : self1.display ≠ none := by rw [← hself1]; exact hd
    have hent1 : self1.entrypoint = self.entrypoint := by rw [← hself1]; exact hent
    generalize tvhva_context_setup_profile env self1 avctx dw = n
    obtain ⟨n1, w2⟩ := n
    dsimp only
    cases n1 with
    | none => simp
    | some profile =>
      dsimp only
      by_cases hf : format = 0
      · simp [hf]
      · rw [if_neg hf]
        have c1 := config_self env self1 profile format w2
        have c2 := config_ok env self1 profile format w2
        generalize tvhva_context_config env self1 profile format w2 = c at *
        by_cases hc : c.1 = 0
        · rw [if_neg (by simpa using hc)]
          have k1 := check_constraints_self env c.2.1 c.2.2
          have k2 := check_constraints_ok env c.2.1 c.2.2
          generalize tvhva_context_check_constraints env c.2.1 c.2.2 = k at *
          by_cases hk : k.1 = 0
          · rw [if_neg (by simpa using hk)]
            have f1 := setup_pool_ok env k.2.1 k.2.2
            generalize tvhva_context_setup_pool env k.2.1 k.2.2 = f at *
            by_cases hp : f.1 = 0
            · rw [if_neg (by simpa using hp)]
              have x1 := setup_context_self env f.2.1 f.2.2
              have x2 := setup_context_ok env f.2.1 f.2.2
              generalize tvhva_context_setup_context env f.2.1 f.2.2 = x at *
              by_cases hx : x.1 = 0
              · rw [if_neg (by simpa using hx)]
                intro _
                obtain ⟨t, c3⟩ := c2 hc
                dsimp only
                rw [x1, f1 hp, k1, c1]
                dsimp only
                refine ⟨hdisp, hdev, hcfg _ _ _ _ _ c3, by simp, k2 hk, ?_, hent1⟩
                intro hv
                obtain ⟨t2, x3⟩ := x2 hx (by rw [f1 hp, k1, c1]; exact hent1.trans hv)
                exact hctx _ _ _ _ _ x3
              · rw [if_pos (by simpa using hx)]
                simp
            · rw [if_pos (by simpa using hp)]
              intro h0
              exact absurd h0 hp
          · rw [if_pos (by simpa using hk)]
            simp
        · rw [if_pos (by simpa using hc)]
          simp

theorem heap_set_last (l : List HeapCell) (a b : HeapCell) :
    ((l ++ [a]).set l.length b)[l.length]? = some b := by
  simp

theorem create_eq_none_iff (env : Env) (avctx : AVCodecContext) (entrypoint : VAEntrypoint)
    (w : World) :
    (tvhva_context_create env avctx entrypoint w).1 ≠ none ↔
      env.calloc w.now = true ∧
      (tvhva_context_setup env (tvhva_context_create_self avctx entrypoint) avctx
        (tvhva_context_create_world avctx entrypoint w)).1 = 0 := by
  unfold tvhva_context_create
  dsimp only
  by_cases hc : env.calloc w.now = false
  · simp [hc]
  · rw [if_neg hc]
    by_cases hs : (tvhva_context_setup env (tvhva_context_create_self avctx entrypoint) avctx
        (tvhva_context_create_world avctx entrypoint w)).1 = 0
    · rw [if_neg (by simpa using hs)]
      simpa [hs] using hc
    · rw [if_pos (by simpa using hs)]
      simp [hs]

theorem create_some_cell (env : Env) (avctx : AVCodecContext) (entrypoint : VAEntrypoint)
    (w : World) (ptr : Nat) (h : (tvhva_context_create env avctx entrypoint w).1 = some ptr) :
    ptr = w.heap.length ∧
    (tvhva_context_setup env (tvhva_context_create_self avctx entrypoint) avctx
        (tvhva_context_create_world avctx entrypoint w)).1 = 0 ∧
    (tvhva_context_create env avctx entrypoint w).2.2.heap[ptr]? =
      some { val := (tvhva_context_setup env (tvhva_context_create_self avctx entrypoint)
              avctx (tvhva_context_create_world avctx entrypoint w)).2.1,
             freed := false } := by
  have hh := setup_heap env (tvhva_context_create_self avctx entrypoint) avctx
    (tvhva_context_create_world avctx entrypoint w)
  revert h
  unfold tvhva_context_create
  dsimp only
  by_cases hc : env.calloc w.now = false
  · simp [hc]
  · rw [if_neg hc]
    by_cases hs : (tvhva_context_setup env (tvhva_context_create_self avctx entrypoint) avctx
        (tvhva_context_create_world avctx entrypoint w)).1 = 0
    · rw [if_neg (by simpa using hs)]
      intro h
      have hp : ptr = w.heap.length := by simpa using h.symm
      subst hp
      refine ⟨rfl, hs, ?_⟩
      dsimp only
      rw [hh]
      simp [tvhva_context_create_world, World.log]
    · rw [if_pos (by simpa using hs)]
      simp

theorem destroy_fields_eq (self : TVHVAContext) (w : World) :
    (tvhva_context_destroy_fields self w).1 = released self ∧
    (tvhva_context_destroy_fields self w).2.trace = w.trace ++ release_events self ∧
    (tvhva_context_destroy_fields self w).2.heap = w.heap ∧
    (tvhva_context_destroy_fields self w).2.hw_device_ref = w.hw_device_ref := by
  obtain ⟨display, config_id, context_id, entrypoint, io_format, sw_format, width, height,
    hw_device_ref, hw_frames_ref⟩ := self
  unfold tvhva_context_destroy_fields release_events released
  by_cases h1 : context_id = VA_INVALID_ID <;> by_cases h2 : config_id = VA_INVALID_ID <;>
    cases hw_frames_ref <;> cases hw_device_ref <;>
    simp [h1, h2, World.log, av_buffer_unref_frames, av_buffer_unref_device]

theorem release_events_released (self : TVHVAContext) :
    release_events (released self) = [] := by
  simp [release_events, released]

theorem released_released (self : TVHVAContext) : released (released self) = released self := rfl

theorem destroy_eq (ptr : Nat) (w : World) (cell : HeapCell)
    (h : w.heap[ptr]? = some cell) :
    (tvhva_context_destroy (some ptr) w).trace =
      w.trace ++ release_events cell.val ++ [Event.free_context ptr] ∧
    (tvhva_context_destroy (some ptr) w).heap[ptr]? =
      some { val := released cell.val, freed := true } ∧
    (tvhva_context_destroy (some ptr) w).hw_device_ref = w.hw_device_ref := by
  obtain ⟨h1, h2, h3, h4⟩ := destroy_fields_eq cell.val w
  have hlt : ptr < w.heap.length := by
    rcases List.getElem?_eq_some_iff.mp h with ⟨hl, _⟩
    exact hl
  simp only [tvhva_context_destroy, h]
  refine ⟨?_, ?_, ?_⟩
  · simp [World.log, h2]
  · simp [World.log, h3, h1, hlt]
  · simp [World.log, h4]

/-- After a successful decode setup the first teardown releases the execution
context, the config, the frame pool, the device reference and the session
object once each, leaves `hwaccel_context` pointing at the freed session, and
a second teardown frees the session object again. -/
theorem decode_close_twice (env : Env) (avctx : AVCodecContext) (w : World)
    (hcfg : ∀ t p e f id, env.vaCreateConfig t p e f = some id → id ≠ VA_INVALID_ID)
    (hctx : ∀ t c x y id, env.vaCreateContext t c x y = some id → id ≠ VA_INVALID_ID)
    (h : (vaapi_decode_setup_context env avctx w).1 = 0) :
    ∃ ptr context_id config_id frames device,
      (vaapi_decode_setup_context env avctx w).2.1.hwaccel_context = some ptr ∧
      (vaapi_decode_close_context (vaapi_decode_setup_context env avctx w).2.1
          (vaapi_decode_setup_context env avctx w).2.2).2.since
          (vaapi_decode_setup_context env avctx w).2.2 =
        [Event.vaDestroyContext context_id, Event.vaDestroyConfig config_id,
          Event.av_buffer_unref_frames frames, Event.av_buffer_unref_device device,
          Event.free_context ptr] ∧
      (vaapi_decode_close_context (vaapi_decode_setup_context env avctx w).2.1
          (vaapi_decode_setup_context env avctx w).2.2).1.hwaccel_context = some ptr ∧
      (vaapi_decode_close_context
          (vaapi_decode_close_context (vaapi_decode_setup_context env avctx w).2.1
            (vaapi_decode_setup_context env avctx w).2.2).1
          (vaapi_decode_close_context (vaapi_decode_setup_context env avctx w).2.1
            (vaapi_decode_setup_context env avctx w).2.2).2).2.since
          (vaapi_decode_close_context (vaapi_decode_setup_context env avctx w).2.1
            (vaapi_decode_setup_context env avctx w).2.2).2 =
        [Event.free_context ptr] := by
  cases hc : (tvhva_context_create env avctx VAEntrypoint.VLD w).1 with
  | none => simp [vaapi_decode_setup_context, hc] at h
  | some ptr =>
    obtain ⟨_, hs, hcell⟩ := create_some_cell env avctx VAEntrypoint.VLD w ptr hc
    obtain ⟨_, b, c, d, _, f, _⟩ := setup_ok env
      (tvhva_context_create_self avctx VAEntrypoint.VLD) avctx
      (tvhva_context_create_world avctx VAEntrypoint.VLD w) hcfg hctx hs
    generalize (tvhva_context_setup env (tvhva_context_create_self avctx VAEntrypoint.VLD)
      avctx (tvhva_context_create_world avctx VAEntrypoint.VLD w)).2.1 = val at *
    have hS : (vaapi_decode_setup_context env avctx w).2.1.hwaccel_context = some ptr := by
      simp [vaapi_decode_setup_context, hc]
    have hW : (vaapi_decode_setup_context env avctx w).2.2 =
        (tvhva_context_create env avctx VAEntrypoint.VLD w).2.2 := by
      simp [vaapi_decode_setup_context, hc]
    obtain ⟨t1, g1, _⟩ := destroy_eq ptr
      (tvhva_context_create env avctx VAEntrypoint.VLD w).2.2 _ hcell
    obtain ⟨t2, _, _⟩ := destroy_eq ptr
      (tvhva_context_destroy (some ptr)
        (tvhva_context_create env avctx VAEntrypoint.VLD w).2.2) _ g1
    obtain ⟨frames, hfr⟩ := Option.ne_none_iff_exists'.mp d
    obtain ⟨device, hdv⟩ := Option.ne_none_iff_exists'.mp b
    refine ⟨ptr, val.context_id, val.config_id, frames, device, hS, ?_, ?_, ?_⟩
    · simp only [vaapi_decode_close_context, hS, hW, World.since, t1]
      simp [release_events, c, f rfl, hfr, hdv]
    · simp only [vaapi_decode_close_context, hS]
    · simp only [vaapi_decode_close_context, hS, hW, World.since, t2]
      simp [release_events_released]

theorem profile_result (env : Env) (avctx : AVCodecContext) (w : World) :
    (tvhva_context_profile env avctx w).1 = VAProfile.None ∨
    (tvhva_context_profile env avctx w).1 =
      tvhva_context_profile_check avctx.codec_id avctx.profile := by
  unfold tvhva_context_profile
  dsimp only
  split_ifs
  · split
    · rw [profile_scan_eq]
      split_ifs
      · exact Or.inr rfl
      · exact Or.inl rfl
    · exact Or.inl rfl
  · exact Or.inl rfl
  · exact Or.inl rfl
  · exact Or.inl rfl

theorem spec_profile_candidate_ne_none (codec_id : AVCodecID) (profile : Int) (p : VAProfile)
    (h : spec_profile_candidate codec_id profile = some p) : p ≠ VAProfile.None := by
  have hm : (p ∈ spec_profile_table.map Prod.snd) := by
    unfold spec_profile_candidate at h
    obtain ⟨e, he, hp⟩ := Option.map_eq_some'.mp h
    exact List.mem_map.mpr ⟨e, List.mem_of_find?_eq_some he, hp⟩
  intro hp
  subst hp
  revert hm
  decide

/-- A teardown after a failed decode setup finds `hwaccel_context` null and
does nothing. -/
theorem decode_close_after_failed_setup (env : Env) (avctx : AVCodecContext) (w : World)
    (h : (vaapi_decode_setup_context env avctx w).1 ≠ 0) :
    (vaapi_decode_setup_context env avctx w).2.1.hwaccel_context = none ∧
    vaapi_decode_close_context (vaapi_decode_setup_context env avctx w).2.1
        (vaapi_decode_setup_context env avctx w).2.2 =
      ((vaapi_decode_setup_context env avctx w).2.1,
        (vaapi_decode_setup_context env avctx w).2.2) := by
  cases hc : (tvhva_context_create env avctx VAEntrypoint.VLD w).1 with
  | none => simp [vaapi_decode_setup_context, vaapi_decode_close_context, hc,
      tvhva_context_destroy]
  | some ptr => simp [vaapi_decode_setup_context, hc] at h

theorem setup_of_display_none (env : Env) (self : TVHVAContext) (avctx : AVCodecContext)
    (w : World) (selfd : TVHVAContext) (wd : World)
    (hd : tvhva_context_display env self w = (none, selfd, wd)) :
    tvhva_context_setup env self avctx w =
      (-1, { selfd with display := none }, avctx, wd) := by
  simp [tvhva_context_setup, hd]

theorem setup_of_profile_none (env : Env) (self : TVHVAContext) (avctx : AVCodecContext)
    (w : World) (disp : Nat) (selfd : TVHVAContext) (wd wn : World)
    (hd : tvhva_context_display env self w = (some disp, selfd, wd))
    (hn : tvhva_context_setup_profile env { selfd with display := some disp } avctx wd =
      (none, wn)) :
    tvhva_context_setup env self avctx w =
      (-1, { selfd with display := some disp }, avctx, wn) := by
  simp [tvhva_context_setup, hd, hn]

theorem setup_of_constraints_fail (env : Env) (self : TVHVAContext)
    (avctx : AVCodecContext) (w : World) (disp : Nat) (selfd : TVHVAContext)
    (wd wn : World) (profile : VAProfile) (selfc : TVHVAContext) (wc : World)
    (hd : tvhva_context_display env self w = (some disp, selfd, wd))
    (hn : tvhva_context_setup_profile env { selfd with display := some disp } avctx wd =
      (some profile, wn))
    (hf : tvhva_get_format selfd.io_format ≠ 0)
    (hc : tvhva_context_config env { selfd with display := some disp } profile
      (tvhva_get_format selfd.io_format) wn = (0, selfc, wc))
    (hk : (tvhva_context_check_constraints env selfc wc).1 ≠ 0) :
    tvhva_context_setup env self avctx w =
      (-1, (tvhva_context_check_constraints env selfc wc).2.1, avctx,
        (tvhva_context_check_constraints env selfc wc).2.2) := by
  simp [tvhva_context_setup, hd, hn, hf, hc, hk]

theorem setup_of_constraints_ok (env : Env) (self : TVHVAContext)
    (avctx : AVCodecContext) (w : World) (disp : Nat) (selfd : TVHVAContext)
    (wd wn : World) (profile : VAProfile) (selfc : TVHVAContext) (wc : World)
    (selfk : TVHVAContext) (wk : World)
    (hd : tvhva_context_display env self w = (some disp, selfd, wd))
    (hn : tvhva_context_setup_profile env { selfd with display := some disp } avctx wd =
      (some profile, wn))
    (hf : tvhva_get_format selfd.io_format ≠ 0)
    (hc : tvhva_context_config env { selfd with display := some disp } profile
      (tvhva_get_format selfd.io_format) wn = (0, selfc, wc))
    (hk : tvhva_context_check_constraints env selfc wc = (0, selfk, wk)) :
    tvhva_context_setup env self avctx w =
      (let f := tvhva_context_setup_pool env selfk wk
       if f.1 ≠ 0 then (f.1, f.2.1, avctx, f.2.2)
       else
         let x := tvhva_context_setup_context env f.2.1 f.2.2
         if x.1 ≠ 0 then (-1, x.2.1, avctx, x.2.2)
         else
           let b := tvhva_context_setup_export env x.2.1 avctx x.2.2
           (b.1, x.2.1, b.2.1, b.2.2)) := by
  simp [tvhva_context_setup, hd, hn, hf, hc, hk]

theorem create_of_setup_fail (env : Env) (avctx : AVCodecContext) (entrypoint : VAEntrypoint)
    (w : World) (hcalloc : env.calloc w.now = true)
    (hs : (tvhva_context_setup env (tvhva_context_create_self avctx entrypoint) avctx
      (tvhva_context_create_world avctx entrypoint w)).1 ≠ 0) :
    (tvhva_context_create env avctx entrypoint w).1 = none ∧
    (tvhva_context_create env avctx entrypoint w).2.1 =
      (tvhva_context_setup env (tvhva_context_create_self avctx entrypoint) avctx
        (tvhva_context_create_world avctx entrypoint w)).2.2.1 ∧
    (tvhva_context_create env avctx entrypoint w).2.2.trace =
      (tvhva_context_setup env (tvhva_context_create_self avctx entrypoint) avctx
        (tvhva_context_create_world avctx entrypoint w)).2.2.2.trace ++
      release_events (tvhva_context_setup env (tvhva_context_create_self avctx entrypoint)
        avctx (tvhva_context_create_world avctx entrypoint w)).2.1 ++
      [Event.free_context w.heap.length] := by
  have hh := setup_heap env (tvhva_context_create_self avctx entrypoint) avctx
    (tvhva_context_create_world avctx entrypoint w)
  unfold tvhva_context_create
  simp only [hcalloc, Bool.true_eq_false, if_false]
  rw [if_pos hs]
  generalize tvhva_context_setup env (tvhva_context_create_self avctx entrypoint) avctx
    (tvhva_context_create_world avctx entrypoint w) = s at *
  obtain ⟨r, selfs, avctx2, ws⟩ := s
  dsimp only at *
  have hcell : (World.mk ws.hw_device_ref ws.devices ws.frames
      (ws.heap.set w.heap.length (HeapCell.mk selfs false)) ws.trace).heap[w.heap.length]? =
      some { val := selfs, freed := false } := by
    dsimp only
    rw [hh]
    simp [tvhva_context_create_world, World.log]
  obtain ⟨t1, _, _⟩ := destroy_eq w.heap.length _ _ hcell
  exact ⟨rfl, rfl, t1⟩

theorem since_trace (w w2 : World) (evs : List Event) (h : w2.trace = w.trace ++ evs) :
    w2.since w = evs := by
  simp [World.since, h]

theorem create_world_trace (avctx : AVCodecContext) (entrypoint : VAEntrypoint) (w : World) :
    (tvhva_context_create_world avctx entrypoint w).trace = w.trace ++ [Event.calloc] := rfl

/-- The calls of a setup that stops at the profile negotiation, and of the
teardown that follows it. -/
theorem create_trace_of_profile_none (env : Env) (avctx : AVCodecContext)
    (entrypoint : VAEntrypoint) (w : World) (disp : Nat) (selfd : TVHVAContext)
    (wd : World)
    (hcalloc : env.calloc w.now = true)
    (hd : tvhva_context_display env (tvhva_context_create_self avctx entrypoint)
      (tvhva_context_create_world avctx entrypoint w) = (some disp, selfd, wd))
    (hn : (tvhva_context_setup_profile env { selfd with display := some disp } avctx
      wd).1 = none) :
    (tvhva_context_setup env (tvhva_context_create_self avctx entrypoint) avctx
      (tvhva_context_create_world avctx entrypoint w)).1 = -1 ∧
    (tvhva_context_create env avctx entrypoint w).1 = none ∧
    ∃ pre rel, (tvhva_context_create env avctx entrypoint w).2.2.since w =
        Event.calloc :: (pre ++ rel ++ [Event.free_context w.heap.length]) ∧
      (∀ e ∈ pre, e.isAcquire = true ∨ e.isQuery = true) ∧
      (rel = [] ∨ ∃ buf, rel = [Event.av_buffer_unref_device buf]) := by
  have hs := setup_of_profile_none env (tvhva_context_create_self avctx entrypoint) avctx
    (tvhva_context_create_world avctx entrypoint w) disp selfd wd
    (tvhva_context_setup_profile env { selfd with display := some disp } avctx wd).2 hd
    (Prod.ext hn rfl)
  have hs1 : (tvhva_context_setup env (tvhva_context_create_self avctx entrypoint) avctx
      (tvhva_context_create_world avctx entrypoint w)).1 ≠ 0 := by rw [hs]; simp
  obtain ⟨c1, _, c3⟩ := create_of_setup_fail env avctx entrypoint w hcalloc hs1
  obtain ⟨e1, h1, q1⟩ := display_trace env (tvhva_context_create_self avctx entrypoint)
    (tvhva_context_create_world avctx entrypoint w)
  obtain ⟨e2, h2, q2⟩ := setup_profile_trace env { selfd with display := some disp } avctx wd
  have hself := display_self env (tvhva_context_create_self avctx entrypoint)
    (tvhva_context_create_world avctx entrypoint w)
  rw [hd] at h1 hself
  dsimp only at h1 hself
  refine ⟨by rw [hs], c1, e1 ++ e2, release_events { selfd with display := some disp }, ?_, ?_, ?_⟩
  · apply since_trace
    rw [c3, hs]
    dsimp only
    rw [h2, h1, create_world_trace]
    simp
  · intro e he
    rcases List.mem_append.mp he with he | he
    · exact Or.inl (q1 e he)
    · exact Or.inr (q2 e he)
  · rw [hself]
    cases selfd.hw_device_ref <;> simp [release_events, tvhva_context_create_self]

theorem display_some_ref (env : Env) (self : TVHVAContext) (w : World) (disp : Nat)
    (selfd : TVHVAContext) (wd : World)
    (hd : tvhva_context_display env self w = (some disp, selfd, wd)) :
    selfd = { self with hw_device_ref := some disp } := by
  revert hd
  unfold tvhva_context_display av_buffer_ref_device
  dsimp only
  split_ifs <;> (try split) <;> (try split) <;> simp_all

theorem config_zero (env : Env) (self : TVHVAContext) (profile : VAProfile) (format : Nat)
    (w : World) (selfc : TVHVAContext) (wc : World)
    (h : tvhva_context_config env self profile format w = (0, selfc, wc)) :
    wc.trace = w.trace ++ [Event.vaGetConfigAttributes profile self.entrypoint,
      Event.vaCreateConfig profile self.entrypoint format] ∧
    selfc = { self with config_id := selfc.config_id } := by
  revert h
  unfold tvhva_context_config
  dsimp only
  split
  · simp
  · split_ifs
    · simp
    · split
      · simp
      · intro h
        simp only [Prod.mk.injEq, true_and] at h
        obtain ⟨h1, h2⟩ := h
        subst h1; subst h2
        exact ⟨by simp [World.log], rfl⟩

theorem check_constraints_size_fail (env : Env) (self : TVHVAContext) (w : World)
    (c : AVHWFramesConstraints)
    (halloc : env.av_hwdevice_hwconfig_alloc w.now = true)
    (hcons : env.av_hwdevice_get_hwframe_constraints
      (w.log Event.av_hwdevice_hwconfig_alloc).now self.config_id = some c)
    (hsize : ¬ (c.min_width ≤ self.width ∧ self.width ≤ c.max_width ∧
      c.min_height ≤ self.height ∧ self.height ≤ c.max_height)) :
    (tvhva_context_check_constraints env self w).1 ≠ 0 ∧
    (tvhva_context_check_constraints env self w).2.2.trace =
      w.trace ++ [Event.av_hwdevice_hwconfig_alloc,
        Event.av_hwdevice_get_hwframe_constraints self.config_id] := by
  obtain ⟨hw, hh⟩ := check_constraints_format_width env self c.valid_sw_formats
  simp only [tvhva_context_check_constraints, halloc, hcons]
  simp only [Bool.true_eq_false, if_false, hw, hh]
  split_ifs with h1 h2
  · exact ⟨by simp, by simp [World.log]⟩
  · exact ⟨by simp, by simp [World.log]⟩
  · exfalso
    apply hsize
    omega

theorem countP_eq_zero_of_forall (p : Event → Bool) (l : List Event)
    (h : ∀ e ∈ l, p e = false) : l.countP p = 0 := by
  rw [List.countP_eq_zero]
  intro e he
  simp [h e he]

theorem acquire_or_query_kind (e : Event) (h : e.isAcquire = true ∨ e.isQuery = true) :
    e.isCreateConfig = false ∧ e.isPoolAlloc = false ∧ e.isCreateContext = false ∧
    e.isDestroyConfig = false ∧ e.isDestroyContext = false ∧ e.isRelease = false := by
  rcases h with h | h <;> cases e <;>
    simp_all [Event.isAcquire, Event.isQuery, Event.isCreateConfig, Event.isPoolAlloc,
      Event.isCreateContext, Event.isDestroyConfig, Event.isDestroyContext, Event.isRelease]

theorem log_now (w : World) (e : Event) : (w.log e).now = w.now + 1 := by
  simp [World.log, World.now]

/-- The loop of `tvhva_init` when every remaining attempt fails. -/
theorem init_loop_all_fail (env : Env) (l : List Int) (w : World)
    (h : ∀ j i, l[j]? = some i →
      env.av_hwdevice_ctx_create (w.now + j) (tvhva_init_device i) = false) :
    (tvhva_init_loop env l w).1 = -1 ∧
    (tvhva_init_loop env l w).2.trace =
      w.trace ++ l.map (fun i => Event.av_hwdevice_ctx_create (tvhva_init_device i)) ∧
    (tvhva_init_loop env l w).2.devices = w.devices ∧
    (tvhva_init_loop env l w).2.frames = w.frames ∧
    (l ≠ [] → (tvhva_init_loop env l w).2.hw_device_ref = none) := by
  induction l generalizing w with
  | nil => simp [tvhva_init_loop]
  | cons i rest ih =>
    have h0 := h 0 i (by simp)
    simp only [Nat.add_zero] at h0
    have ih1 := ih { w.log (Event.av_hwdevice_ctx_create (tvhva_init_device i)) with
        hw_device_ref := none } (by
      intro j i2 hj
      have := h (j + 1) i2 (by simpa using hj)
      simpa [World.now, World.log, Nat.add_assoc, Nat.add_comm 1 j] using this)
    obtain ⟨a, b, c, d, e⟩ := ih1
    unfold tvhva_init_loop
    simp only [h0, Bool.false_eq_true, if_false]
    refine ⟨a, ?_, c, d, ?_⟩
    · rw [b]; simp [World.log]
    · intro _
      cases rest with
      | nil => simp [tvhva_init_loop]
      | cons i2 r2 => exact e (by simp)

/-- The loop of `tvhva_init` when the attempt at position `pre.length` is the
first to succeed. -/
theorem init_loop_first_success (env : Env) (pre : List Int) (i : Int) (post : List Int)
    (w : World)
    (hfail : ∀ j i2, pre[j]? = some i2 →
      env.av_hwdevice_ctx_create (w.now + j) (tvhva_init_device i2) = false)
    (hsucc : env.av_hwdevice_ctx_create (w.now + pre.length) (tvhva_init_device i) = true) :
    (tvhva_init_loop env (pre ++ i :: post) w).1 = 0 ∧
    (tvhva_init_loop env (pre ++ i :: post) w).2.trace =
      w.trace ++ (pre ++ [i]).map
        (fun i => Event.av_hwdevice_ctx_create (tvhva_init_device i)) ∧
    (tvhva_init_loop env (pre ++ i :: post) w).2.devices = w.devices ++ [1] ∧
    (tvhva_init_loop env (pre ++ i :: post) w).2.frames = w.frames ∧
    (tvhva_init_loop env (pre ++ i :: post) w).2.hw_device_ref = some w.devices.length := by
  induction pre generalizing w with
  | nil =>
    simp only [List.length_nil, Nat.add_zero] at hsucc
    simp [tvhva_init_loop, hsucc, World.log]
  | cons i0 rest ih =>
    have h0 := hfail 0 i0 (by simp)
    simp only [Nat.add_zero] at h0
    have ih1 := ih { w.log (Event.av_hwdevice_ctx_create (tvhva_init_device i0)) with
        hw_device_ref := none } (by
      intro j i2 hj
      have := hfail (j + 1) i2 (by simpa using hj)
      simpa [World.now, World.log, Nat.add_assoc, Nat.add_comm 1 j] using this) (by
      simpa [World.now, World.log, Nat.add_assoc, Nat.add_comm 1] using hsucc)
    obtain ⟨a, b, c, d, e⟩ := ih1
    simp only [List.cons_append]
    unfold tvhva_init_loop
    simp only [h0, Bool.false_eq_true, if_false]
    refine ⟨a, ?_, c, d, e⟩
    rw [b]; simp [World.log]

theorem spec_candidates_eq :
    spec_candidates = ([0, 1, 2, 3, 4, 5] : List Int).map tvhva_init_device := by
  decide

theorem spec_candidates_getElem (j : Nat) (d : DevicePath)
    (h : spec_candidates[j]? = some d) :
    ∃ i, ([0, 1, 2, 3, 4, 5] : List Int)[j]? = some i ∧ d = tvhva_init_device i := by
  rw [spec_candidates_eq, List.getElem?_map] at h
  obtain ⟨i, hi, hd⟩ := Option.map_eq_some'.mp h
  exact ⟨i, hi, hd.symm⟩

theorem init_first_success (env : Env) (w : World) (k : Nat) (c : DevicePath)
    (hk : spec_candidates[k]? = some c)
    (hfail : ∀ j d, j < k → spec_candidates[j]? = some d →
      env.av_hwdevice_ctx_create (w.now + j) d = false)
    (hsucc : env.av_hwdevice_ctx_create (w.now + k) c = true) :
    (tvhva_init env w).1 = 0 ∧
    (tvhva_init env w).2.since w =
      (spec_candidates.take (k + 1)).map Event.av_hwdevice_ctx_create ∧
    (tvhva_init env w).2.hw_device_ref = some w.devices.length ∧
    (tvhva_init env w).2.devices = w.devices ++ [1] := by
  obtain ⟨i, hi, hc⟩ := spec_candidates_getElem k c hk
  have hk6 : k < 6 := by
    rcases List.getElem?_eq_some_iff.mp hi with ⟨hl, _⟩
    simpa using hl
  have hsplit : ([0, 1, 2, 3, 4, 5] : List Int) =
      ([0, 1, 2, 3, 4, 5] : List Int).take k ++ i :: ([0, 1, 2, 3, 4, 5] : List Int).drop (k + 1) := by
    interval_cases k <;> simp at hi <;> subst hi <;> rfl
  have hlen : (([0, 1, 2, 3, 4, 5] : List Int).take k).length = k := by
    simp; omega
  have hf : ∀ j i2, (([0, 1, 2, 3, 4, 5] : List Int).take k)[j]? = some i2 →
      env.av_hwdevice_ctx_create (w.now + j) (tvhva_init_device i2) = false := by
    intro j i2 hj
    rw [List.getElem?_take] at hj
    split_ifs at hj with hjk
    apply hfail j _ hjk
    rw [spec_candidates_eq, List.getElem?_map, hj]
    rfl
  obtain ⟨a, b, c1, _, e⟩ := init_loop_first_success env
    (([0, 1, 2, 3, 4, 5] : List Int).take k) i (([0, 1, 2, 3, 4, 5] : List Int).drop (k + 1))
    w hf (by rw [hlen, ← hc]; exact hsucc)
  rw [← hsplit] at a b c1 e
  refine ⟨a, ?_, e, c1⟩
  apply since_trace
  unfold tvhva_init
  rw [b]
  congr 1
  rw [spec_candidates_eq, ← List.map_take, List.map_map]
  congr 1
  interval_cases k <;> simp at hi <;> subst hi <;> rfl

theorem init_all_fail (env : Env) (w : World)
    (hfail : ∀ j d, spec_candidates[j]? = some d →
      env.av_hwdevice_ctx_create (w.now + j) d = false) :
    (tvhva_init env w).1 = -1 ∧
    (tvhva_init env w).2.since w = spec_candidates.map Event.av_hwdevice_ctx_create ∧
    (tvhva_init env w).2.hw_device_ref = none ∧
    (tvhva_init env w).2.devices = w.devices := by
  obtain ⟨a, b, c, _, e⟩ := init_loop_all_fail env [0, 1, 2, 3, 4, 5] w (by
    intro j i hj
    apply hfail
    rw [spec_candidates_eq, List.getElem?_map, hj]
    rfl)
  refine ⟨a, ?_, e (by simp), c⟩
  apply since_trace
  unfold tvhva_init
  rw [b, spec_candidates_eq, List.map_map]
  rfl

/-- With an empty registry `tvhva_context_display` starts with the whole of
`tvhva_init`. -/
theorem display_runs_init (env : Env) (self : TVHVAContext) (w : World)
    (h : w.hw_device_ref = none) :
    ∃ rest, (tvhva_context_display env self w).2.2.since w =
      (tvhva_init env w).2.since w ++ rest := by
  obtain ⟨evs, h1, _⟩ := init_loop_trace env [0, 1, 2, 3, 4, 5] w
  have hi : (tvhva_init env w).2.since w = evs := since_trace _ _ _ h1
  rw [hi]
  unfold tvhva_context_display av_buffer_ref_device
  simp only [h, if_true]
  by_cases hr : (tvhva_init env w).1 = 0
  · simp only [hr, ne_eq, not_true_eq_false, decide_False, Bool.false_eq_true, if_false]
    cases hd : (tvhva_init env w).2.hw_device_ref with
    | none => exact ⟨[], by simp [hi]⟩
    | some buf =>
      refine ⟨[Event.av_buffer_ref_device buf], ?_⟩
      apply since_trace
      dsimp only
      split_ifs <;> simp [World.log, tvhva_init, h1]
  · simp only [hr, ne_eq, not_false_eq_true, decide_True, if_true]
    exact ⟨[], by simp [hi]⟩

theorem setup_profile_ext (env : Env) (self : TVHVAContext) (avctx : AVCodecContext)
    (w : World) :
    ∃ evs, (tvhva_context_setup_profile env self avctx w).2.trace = w.trace ++ evs ∧
      ∀ e ∈ evs, e.isOpen = false := by
  obtain ⟨evs, h1, h2⟩ := setup_profile_trace env self avctx w
  refine ⟨evs, h1, fun e he => ?_⟩
  have := h2 e he
  cases e <;> simp_all [Event.isQuery, Event.isOpen]

theorem log_ext (w0 w : World) (e : Event) (he : e.isOpen = false)
    (h : ∃ evs, w.trace = w0.trace ++ evs ∧ ∀ x ∈ evs, x.isOpen = false) :
    ∃ evs, (w.log e).trace = w0.trace ++ evs ∧ ∀ x ∈ evs, x.isOpen = false := by
  obtain ⟨evs, h1, h2⟩ := h
  refine ⟨evs ++ [e], by simp [World.log, h1], ?_⟩
  intro x hx
  rcases List.mem_append.mp hx with hx | hx
  · exact h2 x hx
  · rcases List.mem_singleton.mp hx with rfl
    exact he

theorem ext_refl (w : World) :
    ∃ evs, w.trace = w.trace ++ evs ∧ ∀ e ∈ evs, e.isOpen = false :=
  ⟨[], by simp, by simp⟩

theorem config_ext (env : Env) (self : TVHVAContext) (profile : VAProfile) (format : Nat)
    (w : World) :
    ∃ evs, (tvhva_context_config env self profile format w).2.2.trace = w.trace ++ evs ∧
      ∀ e ∈ evs, e.isOpen = false := by
  unfold tvhva_context_config
  dsimp only
  split
  · exact log_ext w w _ rfl (ext_refl w)
  · split_ifs
    · exact log_ext w w _ rfl (ext_refl w)
    · split
      · exact log_ext w _ _ rfl (log_ext w w _ rfl (ext_refl w))
      · exact log_ext w _ _ rfl (log_ext w w _ rfl (ext_refl w))

theorem check_constraints_ext (env : Env) (self : TVHVAContext) (w : World) :
    ∃ evs, (tvhva_context_check_constraints env self w).2.2.trace = w.trace ++ evs ∧
      ∀ e ∈ evs, e.isOpen = false := by
  unfold tvhva_context_check_constraints
  dsimp only
  split_ifs
  · exact log_ext w w _ rfl (ext_refl w)
  · split
    · exact log_ext w _ _ rfl (log_ext w w _ rfl (ext_refl w))
    · split_ifs <;> exact log_ext w _ _ rfl (log_ext w w _ rfl (ext_refl w))

theorem setup_pool_ext (env : Env) (self : TVHVAContext) (w : World) :
    ∃ evs, (tvhva_context_setup_pool env self w).2.2.trace = w.trace ++ evs ∧
      ∀ e ∈ evs, e.isOpen = false := by
  have h1 := log_ext w w (Event.av_hwframe_ctx_alloc self.hw_device_ref) rfl (ext_refl w)
  unfold tvhva_context_setup_pool
  dsimp only
  split_ifs
  · exact h1
  · exact log_ext w (World.mk _ _ _ _ _) (Event.av_hwframe_ctx_init _) rfl h1
  · exact log_ext w (World.mk _ _ _ _ _) (Event.av_hwframe_ctx_init _) rfl h1

theorem setup_context_ext (env : Env) (self : TVHVAContext) (w : World) :
    ∃ evs, (tvhva_context_setup_context env self w).2.2.trace = w.trace ++ evs ∧
      ∀ e ∈ evs, e.isOpen = false := by
  unfold tvhva_context_setup_context
  dsimp only
  split_ifs
  · split
    · exact log_ext w w _ rfl (ext_refl w)
    · exact log_ext w w _ rfl (ext_refl w)
  · exact ext_refl w

theorem setup_export_ext (env : Env) (self : TVHVAContext) (avctx : AVCodecContext)
    (w : World) :
    ∃ evs, (tvhva_context_setup_export env self avctx w).2.2.trace = w.trace ++ evs ∧
      ∀ e ∈ evs, e.isOpen = false := by
  unfold tvhva_context_setup_export av_buffer_ref_frames
  dsimp only
  split
  · exact ext_refl w
  · split_ifs <;> exact log_ext w w (Event.av_buffer_ref_frames _) rfl (ext_refl w)

theorem ext_trans {w1 w2 w3 : World} (h1 : ∃ evs, w2.trace = w1.trace ++ evs ∧
      ∀ e ∈ evs, e.isOpen = false)
    (h2 : ∃ evs, w3.trace = w2.trace ++ evs ∧ ∀ e ∈ evs, e.isOpen = false) :
    ∃ evs, w3.trace = w1.trace ++ evs ∧ ∀ e ∈ evs, e.isOpen = false := by
  obtain ⟨a, ha, pa⟩ := h1
  obtain ⟨b, hb, pb⟩ := h2
  refine ⟨a ++ b, by rw [hb, ha, List.append_assoc], ?_⟩
  intro e he
  rcases List.mem_append.mp he with he | he
  · exact pa e he
  · exact pb e he

/-- After the device acquisition the setup only extends the trace, and opens
no device. -/
theorem setup_ext (env : Env) (self : TVHVAContext) (avctx : AVCodecContext) (w : World) :
    ∃ evs, (tvhva_context_setup env self avctx w).2.2.2.trace =
        (tvhva_context_display env self w).2.2.trace ++ evs ∧
      ∀ e ∈ evs, e.isOpen = false := by
  unfold tvhva_context_setup
  dsimp only
  generalize tvhva_context_display env self w = d
  obtain ⟨d1, dself, dw⟩ := d
  dsimp only
  by_cases hd : d1 = none
  · rw [if_pos hd]; exact ext_refl dw
  · rw [if_neg hd]
    generalize tvhva_get_format dself.io_format = format
    generalize ({ dself with display := d1 } : TVHVAContext) = self1
    have hn := setup_profile_ext env self1 avctx dw
    generalize tvhva_context_setup_profile env self1 avctx dw = n at hn ⊢
    obtain ⟨n1, w2⟩ := n
    dsimp only at hn ⊢
    cases n1 with
    | none => exact hn
    | some profile =>
      dsimp only
      by_cases hf : format = 0
      · rw [if_pos hf]; exact hn
      · rw [if_neg hf]
        have hc := config_ext env self1 profile format w2
        generalize tvhva_context_config env self1 profile format w2 = c at hc ⊢
        by_cases hc0 : c.1 ≠ 0
        · rw [if_pos hc0]; exact ext_trans hn hc
        · rw [if_neg hc0]
          have hk := check_constraints_ext env c.2.1 c.2.2
          generalize tvhva_context_check_constraints env c.2.1 c.2.2 = k at hk ⊢
          by_cases hk0 : k.1 ≠ 0
          · rw [if_pos hk0]; exact ext_trans hn (ext_trans hc hk)
          · rw [if_neg hk0]
            have hp := setup_pool_ext env k.2.1 k.2.2
            generalize tvhva_context_setup_pool env k.2.1 k.2.2 = f at hp ⊢
            by_cases hp0 : f.1 ≠ 0
            · rw [if_pos hp0]; exact ext_trans hn (ext_trans hc (ext_trans hk hp))
            · rw [if_neg hp0]
              have hx := setup_context_ext env f.2.1 f.2.2
              generalize tvhva_context_setup_context env f.2.1 f.2.2 = x at hx ⊢
              by_cases hx0 : x.1 ≠ 0
              · rw [if_pos hx0]
                exact ext_trans hn (ext_trans hc (ext_trans hk (ext_trans hp hx)))
              · rw [if_neg hx0]
                have hb := setup_export_ext env x.2.1 avctx x.2.2
                exact ext_trans hn (ext_trans hc (ext_trans hk (ext_trans hp
                  (ext_trans hx hb))))

theorem profile_world (env : Env) (avctx : AVCodecContext) (w : World) :
    (tvhva_context_profile env avctx w).2 =
      { w with trace := (tvhva_context_profile env avctx w).2.trace } := by
  unfold tvhva_context_profile
  dsimp only
  split_ifs <;> (try split) <;> rfl

theorem check_profile_world (env : Env) (self : TVHVAContext) (profile : VAProfile)
    (w : World) :
    (tvhva_context_check_profile env self profile w).2 =
      { w with trace := (tvhva_context_check_profile env self profile w).2.trace } := by
  unfold tvhva_context_check_profile
  dsimp only
  split_ifs <;> (try split) <;> rfl

theorem setup_profile_world (env : Env) (self : TVHVAContext) (avctx : AVCodecContext)
    (w : World) :
    (tvhva_context_setup_profile env self avctx w).2 =
      { w with trace := (tvhva_context_setup_profile env self avctx w).2.trace } := by
  have h1 := profile_world env avctx w
  have h2 := check_profile_world env self (tvhva_context_profile env avctx w).1
    (tvhva_context_profile env avctx w).2
  unfold tvhva_context_setup_profile
  dsimp only
  split_ifs
  · exact h1
  · rw [h2]; dsimp only; rw [h1]
  · rw [h2]; dsimp only; rw [h1]

theorem config_world (env : Env) (self : TVHVAContext) (profile : VAProfile) (format : Nat)
    (w : World) :
    (tvhva_context_config env self profile format w).2.2 =
      { w with trace := (tvhva_context_config env self profile format w).2.2.trace } := by
  unfold tvhva_context_config
  dsimp only
  split
  · rfl
  · split_ifs
    · rfl
    · split <;> rfl

theorem check_constraints_world (env : Env) (self : TVHVAContext) (w : World) :
    (tvhva_context_check_constraints env self w).2.2 =
      { w with trace := (tvhva_context_check_constraints env self w).2.2.trace } := by
  unfold tvhva_context_check_constraints
  dsimp only
  split_ifs
  · rfl
  · split
    · rfl
    · split_ifs <;> rfl

theorem setup_context_world (env : Env) (self : TVHVAContext) (w : World) :
    (tvhva_context_setup_context env self w).2.2 =
      { w with trace := (tvhva_context_setup_context env self w).2.2.trace } := by
  unfold tvhva_context_setup_context
  dsimp only
  split_ifs
  · split <;> rfl
  · rfl

/-- The frame-pool stage changes the trace and, when the allocation succeeds,
appends one frames context with the fields the source writes. -/
theorem setup_pool_world (env : Env) (self : TVHVAContext) (w : World) :
    (env.av_hwframe_ctx_alloc w.now = false →
      (tvhva_context_setup_pool env self w).1 = AVERROR_ENOMEM ∧
      (tvhva_context_setup_pool env self w).2.1 = { self with hw_frames_ref := none } ∧
      (tvhva_context_setup_pool env self w).2.2 =
        { w with trace := (tvhva_context_setup_pool env self w).2.2.trace }) ∧
    (env.av_hwframe_ctx_alloc w.now = true →
      (tvhva_context_setup_pool env self w).2.1 =
        { self with hw_frames_ref := some w.frames.length } ∧
      (tvhva_context_setup_pool env self w).2.2 =
        { w with
          trace := (tvhva_context_setup_pool env self w).2.2.trace,
          frames := w.frames ++
            [{ refcount := 1, device := self.hw_device_ref, format := AVPixelFormat.VAAPI,
               sw_format := self.sw_format, width := self.width, height := self.height,
               initial_pool_size := 32 }] }) := by
  unfold tvhva_context_setup_pool
  dsimp only
  constructor
  · intro h
    simp [h, World.log]
  · intro h
    simp only [h, Bool.true_eq_false, if_false]
    split_ifs <;> exact ⟨rfl, rfl⟩

theorem av_buffer_ref_frames_world (env : Env) (buf : Nat) (w : World) :
    (av_buffer_ref_frames env buf w).2.hw_device_ref = w.hw_device_ref ∧
    (av_buffer_ref_frames env buf w).2.devices = w.devices ∧
    (av_buffer_ref_frames env buf w).2.frames.length = w.frames.length ∧
    ∀ (i : Nat) (f : AVHWFramesContext), (av_buffer_ref_frames env buf w).2.frames[i]? = some f →
      ∃ f0 : AVHWFramesContext, w.frames[i]? = some f0 ∧
        f = { f0 with refcount := f.refcount } := by
  unfold av_buffer_ref_frames
  dsimp only
  split_ifs
  · dsimp only
    refine ⟨rfl, rfl, ?_, ?_⟩
    · simp only [World.log]
      cases hb : w.frames[buf]? <;> simp
    · intro i f h
      simp only [World.log] at h
      cases hb : w.frames[buf]? with
      | none =>
        rw [hb] at h
        exact ⟨f, h, rfl⟩
      | some fb =>
        rw [hb] at h
        dsimp only at h
        by_cases hi : buf = i
        · subst hi
          have hlt : buf < w.frames.length := by
            rcases List.getElem?_eq_some_iff.mp hb with ⟨hl, _⟩
            exact hl
          simp [hlt] at h
          subst h
          exact ⟨fb, hb, rfl⟩
        · rw [List.getElem?_set_ne hi] at h
          exact ⟨f, h, rfl⟩
  · exact ⟨rfl, rfl, rfl, fun i f h => ⟨f, h, rfl⟩⟩

/-- The export stage changes the trace and the reference count of the frame
pool of the session. -/
theorem setup_export_world (env : Env) (self : TVHVAContext) (avctx : AVCodecContext)
    (w : World) :
    (tvhva_context_setup_export env self avctx w).2.2.hw_device_ref = w.hw_device_ref ∧
    (tvhva_context_setup_export env self avctx w).2.2.devices = w.devices ∧
    (tvhva_context_setup_export env self avctx w).2.2.frames.length = w.frames.length ∧
    ∀ (i : Nat) (f : AVHWFramesContext),
      (tvhva_context_setup_export env self avctx w).2.2.frames[i]? = some f →
      ∃ f0 : AVHWFramesContext, w.frames[i]? = some f0 ∧
        f = { f0 with refcount := f.refcount } := by
  unfold tvhva_context_setup_export
  dsimp only
  split
  · exact ⟨rfl, rfl, rfl, fun i f h => ⟨f, h, rfl⟩⟩
  · split <;> exact av_buffer_ref_frames_world env _ w

/-- Case analysis of `tvhva_context_setup`: either it returns -1 before the
frame pool, or it runs the frame-pool, execution-context and export stages.
In both cases the session differs from the one the device acquisition left
in `display`, `config_id` and `sw_format` at most, and the state in the trace
only. -/
theorem setup_elim (env : Env) (self : TVHVAContext) (avctx : AVCodecContext) (w : World)
    (P : Int × TVHVAContext × AVCodecContext × World → Prop)
    (hearly : ∀ (selfk : TVHVAContext) (wk : World),
      (selfk.context_id = (tvhva_context_display env self w).2.1.context_id ∧
        selfk.entrypoint = (tvhva_context_display env self w).2.1.entrypoint ∧
        selfk.io_format = (tvhva_context_display env self w).2.1.io_format ∧
        selfk.width = (tvhva_context_display env self w).2.1.width ∧
        selfk.height = (tvhva_context_display env self w).2.1.height ∧
        selfk.hw_device_ref = (tvhva_context_display env self w).2.1.hw_device_ref ∧
        selfk.hw_frames_ref = (tvhva_context_display env self w).2.1.hw_frames_ref) →
      (wk.hw_device_ref = (tvhva_context_display env self w).2.2.hw_device_ref ∧
        wk.devices = (tvhva_context_display env self w).2.2.devices ∧
        wk.frames = (tvhva_context_display env self w).2.2.frames ∧
        wk.heap = (tvhva_context_display env self w).2.2.heap) →
      P (-1, selfk, avctx, wk))
    (hlate : ∀ (selfk : TVHVAContext) (wk : World),
      (selfk.context_id = (tvhva_context_display env self w).2.1.context_id ∧
        selfk.entrypoint = (tvhva_context_display env self w).2.1.entrypoint ∧
        selfk.io_format = (tvhva_context_display env self w).2.1.io_format ∧
        selfk.width = (tvhva_context_display env self w).2.1.width ∧
        selfk.height = (tvhva_context_display env self w).2.1.height ∧
        selfk.hw_device_ref = (tvhva_context_display env self w).2.1.hw_device_ref ∧
        selfk.hw_frames_ref = (tvhva_context_display env self w).2.1.hw_frames_ref) →
      (wk.hw_device_ref = (tvhva_context_display env self w).2.2.hw_device_ref ∧
        wk.devices = (tvhva_context_display env self w).2.2.devices ∧
        wk.frames = (tvhva_context_display env self w).2.2.frames ∧
        wk.heap = (tvhva_context_display env self w).2.2.heap) →
      (tvhva_context_display env self w).1 ≠ none →
      selfk.config_id ≠ VA_INVALID_ID ∨
        (∃ t p e f, env.vaCreateConfig t p e f = some VA_INVALID_ID) →
      P (let f := tvhva_context_setup_pool env selfk wk
         if f.1 ≠ 0 then (f.1, f.2.1, avctx, f.2.2)
         else
           let x := tvhva_context_setup_context env f.2.1 f.2.2
           if x.1 ≠ 0 then (-1, x.2.1, avctx, x.2.2)
           else
             let b := tvhva_context_setup_export env x.2.1 avctx x.2.2
             (b.1, x.2.1, b.2.1, b.2.2))) :
    P (tvhva_context_setup env self avctx w) := by
  unfold tvhva_context_setup
  dsimp only
  generalize tvhva_context_display env self w = d at hearly hlate ⊢
  obtain ⟨d1, dself, dw⟩ := d
  dsimp only at hearly hlate ⊢
  by_cases hd : d1 = none
  · rw [if_pos hd]
    exact hearly _ _ ⟨rfl, rfl, rfl, rfl, rfl, rfl, rfl⟩ ⟨rfl, rfl, rfl, rfl⟩
  · rw [if_neg hd]
    generalize tvhva_get_format dself.io_format = format
    have hs1 : ({ dself with display := d1 } : TVHVAContext).context_id = dself.context_id ∧
        ({ dself with display := d1 } : TVHVAContext).entrypoint = dself.entrypoint ∧
        ({ dself with display := d1 } : TVHVAContext).io_format = dself.io_format ∧
        ({ dself with display := d1 } : TVHVAContext).width = dself.width ∧
        ({ dself with display := d1 } : TVHVAContext).height = dself.height ∧
        ({ dself with display := d1 } : TVHVAContext).hw_device_ref = dself.hw_device_ref ∧
        ({ dself with display := d1 } : TVHVAContext).hw_frames_ref = dself.hw_frames_ref :=
      ⟨rfl, rfl, rfl, rfl, rfl, rfl, rfl⟩
    generalize ({ dself with display := d1 } : TVHVAContext) = self1 at hs1 ⊢
    have hn := setup_profile_world env self1 avctx dw
    generalize tvhva_context_setup_profile env self1 avctx dw = n at hn ⊢
    obtain ⟨n1, w2⟩ := n
    dsimp only at hn ⊢
    have hw2 : w2.hw_device_ref = dw.hw_device_ref ∧ w2.devices = dw.devices ∧
        w2.frames = dw.frames ∧ w2.heap = dw.heap := by
      rw [hn]; exact ⟨rfl, rfl, rfl, rfl⟩
    cases n1 with
    | none => exact hearly _ _ hs1 hw2
    | some profile =>
      dsimp only
      by_cases hf : format = 0
      · rw [if_pos hf]; exact hearly _ _ hs1 hw2
      · rw [if_neg hf]
        have hc := config_world env self1 profile format w2
        have hcs := config_self env self1 profile format w2
        have hco := config_ok env self1 profile format w2
        generalize tvhva_context_config env self1 profile format w2 = c at hc hcs hco ⊢
        obtain ⟨c1, cself, cw⟩ := c
        dsimp only at hc hcs hco ⊢
        have hcs2 : cself.context_id = dself.context_id ∧
            cself.entrypoint = dself.entrypoint ∧ cself.io_format = dself.io_format ∧
            cself.width = dself.width ∧ cself.height = dself.height ∧
            cself.hw_device_ref = dself.hw_device_ref ∧
            cself.hw_frames_ref = dself.hw_frames_ref := by
          rw [hcs]; exact hs1
        have hcw : cw.hw_device_ref = dw.hw_device_ref ∧ cw.devices = dw.devices ∧
            cw.frames = dw.frames ∧ cw.heap = dw.heap := by
          rw [hc]; exact hw2
        by_cases hc0 : c1 ≠ 0
        · rw [if_pos hc0]; exact hearly _ _ hcs2 hcw
        · rw [if_neg hc0]
          have hk := check_constraints_world env cself cw
          have hks := check_constraints_self env cself cw
          generalize tvhva_context_check_constraints env cself cw = k at hk hks ⊢
          obtain ⟨k1, kself, kw⟩ := k
          dsimp only at hk hks ⊢
          have hks2 : kself.context_id = dself.context_id ∧
              kself.entrypoint = dself.entrypoint ∧ kself.io_format = dself.io_format ∧
              kself.width = dself.width ∧ kself.height = dself.height ∧
              kself.hw_device_ref = dself.hw_device_ref ∧
              kself.hw_frames_ref = dself.hw_frames_ref := by
            rw [hks]; exact hcs2
          have hkw : kw.hw_device_ref = dw.hw_device_ref ∧ kw.devices = dw.devices ∧
              kw.frames = dw.frames ∧ kw.heap = dw.heap := by
            rw [hk]; exact hcw
          by_cases hk0 : k1 ≠ 0
          · rw [if_pos hk0]; exact hearly _ _ hks2 hkw
          · rw [if_neg hk0]
            refine hlate _ _ hks2 hkw hd ?_
            obtain ⟨t, ht⟩ := hco (by simpa using hc0)
            by_cases hid : kself.config_id = VA_INVALID_ID
            · right
              refine ⟨t, profile, self1.entrypoint, format, ?_⟩
              rw [ht, ← hid, hks]
            · exact Or.inl hid

theorem init_loop_frames (env : Env) (l : List Int) (w : World) :
    (tvhva_init_loop env l w).2.frames = w.frames := by
  induction l generalizing w with
  | nil => rfl
  | cons i rest ih =>
    unfold tvhva_init_loop
    dsimp only
    split_ifs
    · rfl
    · rw [ih]; rfl

theorem display_frames (env : Env) (self : TVHVAContext) (w : World) :
    (tvhva_context_display env self w).2.2.frames = w.frames := by
  have h := init_loop_frames env [0, 1, 2, 3, 4, 5] w
  unfold tvhva_context_display av_buffer_ref_device tvhva_init
  dsimp only
  split_ifs <;> (try split) <;> simp_all [World.log]

/-- The frame pool that the last three stages of the setup leave behind. -/
theorem setup_tail_frames (env : Env) (selfk : TVHVAContext) (avctx : AVCodecContext)
    (wk : World) (s : Int × TVHVAContext × AVCodecContext × World)
    (hs : s = (let f := tvhva_context_setup_pool env selfk wk
         if f.1 ≠ 0 then (f.1, f.2.1, avctx, f.2.2)
         else
           let x := tvhva_context_setup_context env f.2.1 f.2.2
           if x.1 ≠ 0 then (-1, x.2.1, avctx, x.2.2)
           else
             let b := tvhva_context_setup_export env x.2.1 avctx x.2.2
             (b.1, x.2.1, b.2.1, b.2.2))) :
    s.2.2.2.frames.length ≤ wk.frames.length + 1 ∧
    ∀ f : AVHWFramesContext, s.2.2.2.frames[wk.frames.length]? = some f →
      f.initial_pool_size = 32 ∧ f.width = selfk.width ∧ f.height = selfk.height ∧
      f.sw_format = s.2.1.sw_format ∧ f.format = AVPixelFormat.VAAPI ∧
      f.device = s.2.1.hw_device_ref := by
  obtain ⟨p1, p2⟩ := setup_pool_world env selfk wk
  subst hs
  dsimp only
  by_cases ha : env.av_hwframe_ctx_alloc wk.now = true
  · obtain ⟨q1, q2⟩ := p2 ha
    generalize tvhva_context_setup_pool env selfk wk = f at q1 q2 ⊢
    obtain ⟨f1, fself, fw⟩ := f
    dsimp only at q1 q2 ⊢
    have hfr : fw.frames = wk.frames ++
        [{ refcount := 1, device := selfk.hw_device_ref, format := AVPixelFormat.VAAPI,
           sw_format := selfk.sw_format, width := selfk.width, height := selfk.height,
           initial_pool_size := 32 }] := by rw [q2]
    by_cases hf : f1 ≠ 0
    · rw [if_pos hf]
      dsimp only
      rw [hfr, q1]
      refine ⟨by simp, ?_⟩
      intro f hfeq
      simp at hfeq
      subst hfeq
      exact ⟨rfl, rfl, rfl, rfl, rfl, rfl⟩
    · rw [if_neg hf]
      have hx := setup_context_world env fself fw
      have hxs := setup_context_self env fself fw
      generalize tvhva_context_setup_context env fself fw = x at hx hxs ⊢
      obtain ⟨x1, xself, xw⟩ := x
      dsimp only at hx hxs ⊢
      have hxfr : xw.frames = fw.frames := by rw [hx]
      by_cases hx0 : x1 ≠ 0
      · rw [if_pos hx0]
        dsimp only
        rw [hxfr, hfr, hxs, q1]
        refine ⟨by simp, ?_⟩
        intro f hfeq
        simp at hfeq
        subst hfeq
        exact ⟨rfl, rfl, rfl, rfl, rfl, rfl⟩
      · rw [if_neg hx0]
        obtain ⟨_, _, b3, b4⟩ := setup_export_world env xself avctx xw
        dsimp only
        refine ⟨by rw [b3, hxfr, hfr]; simp, ?_⟩
        intro f hfeq
        obtain ⟨f0, hf0, hff⟩ := b4 _ f hfeq
        rw [hxfr, hfr] at hf0
        simp at hf0
        subst hf0
        rw [hff, hxs, q1]
        exact ⟨rfl, rfl, rfl, rfl, rfl, rfl⟩
  · have ha' : env.av_hwframe_ctx_alloc wk.now = false := by simpa using ha
    obtain ⟨q0, q1, q2⟩ := p1 ha'
    generalize tvhva_context_setup_pool env selfk wk = f at q0 q1 q2 ⊢
    obtain ⟨f1, fself, fw⟩ := f
    dsimp only at q0 q1 q2 ⊢
    have hf : f1 ≠ 0 := by rw [q0]; decide
    rw [if_pos hf]
    dsimp only
    have hfr : fw.frames = wk.frames := by rw [q2]
    rw [hfr]
    refine ⟨by simp, ?_⟩
    intro f hfeq
    simp at hfeq

theorem setup_export_ok (env : Env) (self : TVHVAContext) (avctx : AVCodecContext)
    (w : World) (h : (tvhva_context_setup_export env self avctx w).1 = 0) :
    ∃ buf, self.hw_frames_ref = some buf ∧
      (tvhva_context_setup_export env self avctx w).2.1 =
        { avctx with hw_frames_ctx := some buf, sw_pix_fmt := self.sw_format,
                     thread_count := 1 } := by
  revert h
  unfold tvhva_context_setup_export av_buffer_ref_frames
  dsimp only
  split
  · simp
  · rename_i buf hb
    split_ifs
    · intro _
      exact ⟨buf, hb, rfl⟩
    · simp

theorem setup_pool_registry (env : Env) (self : TVHVAContext) (w : World) :
    (tvhva_context_setup_pool env self w).2.2.hw_device_ref = w.hw_device_ref ∧
    (tvhva_context_setup_pool env self w).2.2.devices = w.devices ∧
    (tvhva_context_setup_pool env self w).2.1.hw_device_ref = self.hw_device_ref ∧
    (tvhva_context_setup_pool env self w).2.1.context_id = self.context_id ∧
    (tvhva_context_setup_pool env self w).2.1.config_id = self.config_id ∧
    (tvhva_context_setup_pool env self w).2.1.entrypoint = self.entrypoint := by
  unfold tvhva_context_setup_pool
  dsimp only
  split_ifs <;> exact ⟨rfl, rfl, rfl, rfl, rfl, rfl⟩

theorem setup_context_keep (env : Env) (self : TVHVAContext) (w : World)
    (h : self.entrypoint ≠ VAEntrypoint.VLD) :
    tvhva_context_setup_context env self w = (0, self, w) := by
  simp [tvhva_context_setup_context, h]

/-- What the last three stages of the setup leave when they succeed. -/
theorem setup_tail_success (env : Env) (selfk : TVHVAContext) (avctx : AVCodecContext)
    (wk : World) (s : Int × TVHVAContext × AVCodecContext × World)
    (hs : s = (let f := tvhva_context_setup_pool env selfk wk
         if f.1 ≠ 0 then (f.1, f.2.1, avctx, f.2.2)
         else
           let x := tvhva_context_setup_context env f.2.1 f.2.2
           if x.1 ≠ 0 then (-1, x.2.1, avctx, x.2.2)
           else
             let b := tvhva_context_setup_export env x.2.1 avctx x.2.2
             (b.1, x.2.1, b.2.1, b.2.2)))
    (h0 : s.1 = 0) :
    s.2.2.2.hw_device_ref = wk.hw_device_ref ∧
    s.2.2.2.devices = wk.devices ∧
    s.2.1.hw_device_ref = selfk.hw_device_ref ∧
    s.2.1.config_id = selfk.config_id ∧
    s.2.1.entrypoint = selfk.entrypoint ∧
    (selfk.entrypoint ≠ VAEntrypoint.VLD → s.2.1.context_id = selfk.context_id) ∧
    ∃ fr, s.2.1.hw_frames_ref = some fr ∧
      s.2.2.1 = { avctx with hw_frames_ctx := some fr, sw_pix_fmt := s.2.1.sw_format,
                             thread_count := 1 } := by
  obtain ⟨p1, p2, p3, p4, p5, p6⟩ := setup_pool_registry env selfk wk
  have p7 := setup_pool_ok env selfk wk
  subst hs
  revert h0
  dsimp only
  generalize tvhva_context_setup_pool env selfk wk = f at p1 p2 p3 p4 p5 p6 p7 ⊢
  obtain ⟨f1, fself, fw⟩ := f
  dsimp only at p1 p2 p3 p4 p5 p6 p7 ⊢
  by_cases hf : f1 ≠ 0
  · rw [if_pos hf]
    intro h0
    exact absurd h0 hf
  · rw [if_neg hf]
    have hx := setup_context_world env fself fw
    have hxs := setup_context_self env fself fw
    have hxk := setup_context_keep env fself fw
    generalize tvhva_context_setup_context env fself fw = x at hx hxs hxk ⊢
    obtain ⟨x1, xself, xw⟩ := x
    dsimp only at hx hxs hxk ⊢
    by_cases hx0 : x1 ≠ 0
    · rw [if_pos hx0]
      intro h0
      simp at h0
    · rw [if_neg hx0]
      obtain ⟨b1, b2, _, _⟩ := setup_export_world env xself avctx xw
      have b5 := setup_export_ok env xself avctx xw
      generalize tvhva_context_setup_export env xself avctx xw = b at b1 b2 b5 ⊢
      intro h0
      dsimp only at h0 ⊢
      obtain ⟨buf, hb1, hb2⟩ := b5 h0
      have hxw1 : xw.hw_device_ref = fw.hw_device_ref := by rw [hx]
      have hxw2 : xw.devices = fw.devices := by rw [hx]
      refine ⟨by rw [b1, hxw1, p1], by rw [b2, hxw2, p2], by rw [hxs]; exact p3,
        by rw [hxs]; exact p5, by rw [hxs]; exact p6, ?_, buf, hb1, hb2⟩
      intro hne
      have hfe : fself.entrypoint ≠ VAEntrypoint.VLD := by rw [p6]; exact hne
      have := hxk hfe
      simp only [Prod.mk.injEq] at this
      rw [this.2.1]
      exact p4

/-- The device acquisition when the registry holds a handle: one
`av_buffer_ref`, no open attempt. -/
theorem display_live (env : Env) (self : TVHVAContext) (w : World) (buf : Nat)
    (h : w.hw_device_ref = some buf) :
    tvhva_context_display env self w =
      if env.av_buffer_ref w.now = true then
        (some buf, { self with hw_device_ref := some buf },
          { w.log (Event.av_buffer_ref_device buf) with
            devices := w.devices.set buf (w.devices.getD buf 0 + 1) })
      else (none, { self with hw_device_ref := none },
        w.log (Event.av_buffer_ref_device buf)) := by
  unfold tvhva_context_display av_buffer_ref_device
  simp only [h, reduceCtorEq, if_false, Bool.false_eq_true]
  split_ifs <;> rfl

/-- The device acquisition when the registry is empty: `tvhva_init`, then the
acquisition on the state it leaves. -/
theorem display_empty (env : Env) (self : TVHVAContext) (w : World)
    (h : w.hw_device_ref = none) :
    tvhva_context_display env self w =
      if (tvhva_init env w).1 ≠ 0 then (none, self, (tvhva_init env w).2)
      else
        match (tvhva_init env w).2.hw_device_ref with
        | none => (none, self, (tvhva_init env w).2)
        | some _ => tvhva_context_display env self (tvhva_init env w).2 := by
  by_cases hi : (tvhva_init env w).1 ≠ 0
  · rw [if_pos hi]
    unfold tvhva_context_display
    simp [h, hi]
  · rw [if_neg hi]
    cases hr : (tvhva_init env w).2.hw_device_ref with
    | none =>
      unfold tvhva_context_display
      simp [h, hi, hr]
    | some buf =>
      dsimp only
      rw [display_live env self _ buf hr]
      unfold tvhva_context_display av_buffer_ref_device
      simp only [h, if_true, hi, decide_False, Bool.false_eq_true, if_false, hr]
      split_ifs <;> rfl

theorem display_registry (env : Env) (self : TVHVAContext) (w : World)
    (h : (tvhva_context_display env self w).1 ≠ none) :
    (tvhva_context_display env self w).2.1.hw_device_ref =
      (tvhva_context_display env self w).2.2.hw_device_ref ∧
    (tvhva_context_display env self w).2.1.hw_device_ref ≠ none := by
  have live : ∀ (w0 : World) (buf : Nat), w0.hw_device_ref = some buf →
      (tvhva_context_display env self w0).1 ≠ none →
      (tvhva_context_display env self w0).2.1.hw_device_ref =
        (tvhva_context_display env self w0).2.2.hw_device_ref ∧
      (tvhva_context_display env self w0).2.1.hw_device_ref ≠ none := by
    intro w0 buf h0
    rw [display_live env self w0 buf h0]
    split_ifs
    · intro _
      exact ⟨by simp [World.log, h0], by simp⟩
    · simp
  cases hr : w.hw_device_ref with
  | some buf => exact live w buf hr h
  | none =>
    rw [display_empty env self w hr] at h ⊢
    split_ifs at h ⊢ with hi
    · simp at h
    · cases hr2 : (tvhva_init env w).2.hw_device_ref with
      | none => rw [hr2] at h; simp at h
      | some buf =>
        rw [hr2] at h
        dsimp only at h ⊢
        exact live _ buf hr2 h

/-- What a successful `tvhva_context_setup` leaves in the session, the codec
context and the registry. -/
theorem setup_success (env : Env) (self : TVHVAContext) (avctx : AVCodecContext)
    (w : World) (h : (tvhva_context_setup env self avctx w).1 = 0) :
    (tvhva_context_setup env self avctx w).2.1.hw_device_ref =
      (tvhva_context_setup env self avctx w).2.2.2.hw_device_ref ∧
    (tvhva_context_setup env self avctx w).2.1.hw_device_ref ≠ none ∧
    (tvhva_context_setup env self avctx w).2.2.2.devices =
      (tvhva_context_display env self w).2.2.devices ∧
    (tvhva_context_setup env self avctx w).2.2.2.hw_device_ref =
      (tvhva_context_display env self w).2.2.hw_device_ref ∧
    (self.entrypoint ≠ VAEntrypoint.VLD →
      (tvhva_context_setup env self avctx w).2.1.context_id = self.context_id) ∧
    ((tvhva_context_setup env self avctx w).2.1.config_id ≠ VA_INVALID_ID ∨
      ∃ t p e f, env.vaCreateConfig t p e f = some VA_INVALID_ID) ∧
    ∃ fr, (tvhva_context_setup env self avctx w).2.1.hw_frames_ref = some fr ∧
      (tvhva_context_setup env self avctx w).2.2.1 =
        { avctx with hw_frames_ctx := some fr,
                     sw_pix_fmt := (tvhva_context_setup env self avctx w).2.1.sw_format,
                     thread_count := 1 } := by
  have hds := display_self env self w
  have hdr := display_registry env self w
  revert h
  apply setup_elim env self avctx w
    (fun s => s.1 = 0 →
      s.2.1.hw_device_ref = s.2.2.2.hw_device_ref ∧
      s.2.1.hw_device_ref ≠ none ∧
      s.2.2.2.devices = (tvhva_context_display env self w).2.2.devices ∧
      s.2.2.2.hw_device_ref = (tvhva_context_display env self w).2.2.hw_device_ref ∧
      (self.entrypoint ≠ VAEntrypoint.VLD → s.2.1.context_id = self.context_id) ∧
      (s.2.1.config_id ≠ VA_INVALID_ID ∨
        ∃ t p e f, env.vaCreateConfig t p e f = some VA_INVALID_ID) ∧
      ∃ fr, s.2.1.hw_frames_ref = some fr ∧
        s.2.2.1 = { avctx with hw_frames_ctx := some fr, sw_pix_fmt := s.2.1.sw_format,
                               thread_count := 1 })
  · intro selfk wk _ _ h0
    simp at h0
  · intro selfk wk hsk hw hd hcfg h0
    obtain ⟨t1, t2, t3, t4, t5, t6, t7⟩ := setup_tail_success env selfk avctx wk _ rfl h0
    obtain ⟨r1, r2⟩ := hdr hd
    have hent : selfk.entrypoint = self.entrypoint := by rw [hsk.2.1, hds]
    have hctx : selfk.context_id = self.context_id := by rw [hsk.1, hds]
    refine ⟨?_, ?_, ?_, ?_, ?_, ?_, t7⟩
    · rw [t3, t1, hsk.2.2.2.2.2.1, hw.1]; exact r1
    · rw [t3, hsk.2.2.2.2.2.1]; exact r2
    · rw [t2, hw.2.1]
    · rw [t1, hw.1]
    · intro hne
      rw [t6 (by rw [hent]; exact hne), hctx]
    · rw [t4]; exact hcfg

theorem create_of_setup_ok (env : Env) (avctx : AVCodecContext) (entrypoint : VAEntrypoint)
    (w : World) (ptr : Nat)
    (h : (tvhva_context_create env avctx entrypoint w).1 = some ptr) :
    (tvhva_context_create env avctx entrypoint w).2.1 =
      (tvhva_context_setup env (tvhva_context_create_self avctx entrypoint) avctx
        (tvhva_context_create_world avctx entrypoint w)).2.2.1 ∧
    (tvhva_context_create env avctx entrypoint w).2.2.trace =
      (tvhva_context_setup env (tvhva_context_create_self avctx entrypoint) avctx
        (tvhva_context_create_world avctx entrypoint w)).2.2.2.trace ∧
    (tvhva_context_create env avctx entrypoint w).2.2.hw_device_ref =
      (tvhva_context_setup env (tvhva_context_create_self avctx entrypoint) avctx
        (tvhva_context_create_world avctx entrypoint w)).2.2.2.hw_device_ref ∧
    (tvhva_context_create env avctx entrypoint w).2.2.devices =
      (tvhva_context_setup env (tvhva_context_create_self avctx entrypoint) avctx
        (tvhva_context_create_world avctx entrypoint w)).2.2.2.devices ∧
    (tvhva_context_create env avctx entrypoint w).2.2.heap =
      w.heap ++ [{ val := (tvhva_context_setup env
          (tvhva_context_create_self avctx entrypoint) avctx
          (tvhva_context_create_world avctx entrypoint w)).2.1, freed := false }] := by
  have hh := setup_heap env (tvhva_context_create_self avctx entrypoint) avctx
    (tvhva_context_create_world avctx entrypoint w)
  revert h
  unfold tvhva_context_create
  dsimp only
  by_cases hc : env.calloc w.now = false
  · simp [hc]
  · rw [if_neg hc]
    by_cases hs : (tvhva_context_setup env (tvhva_context_create_self avctx entrypoint) avctx
        (tvhva_context_create_world avctx entrypoint w)).1 = 0
    · rw [if_neg (by simpa using hs)]
      intro _
      refine ⟨rfl, rfl, rfl, rfl, ?_⟩
      dsimp only
      rw [hh]
      simp [tvhva_context_create_world, World.log]
    · rw [if_pos (by simpa using hs)]
      simp

theorem init_loop_succeeds (env : Env) (l : List Int) (w : World) (i : Int) (hi : i ∈ l)
    (hopen : ∀ t, env.av_hwdevice_ctx_create t (tvhva_init_device i) = true) :
    (tvhva_init_loop env l w).1 = 0 ∧
    (tvhva_init_loop env l w).2.hw_device_ref ≠ none := by
  induction l generalizing w with
  | nil => cases hi
  | cons j rest ih =>
    unfold tvhva_init_loop
    dsimp only
    by_cases hj : env.av_hwdevice_ctx_create w.now (tvhva_init_device j) = true
    · rw [if_pos hj]
      exact ⟨rfl, by simp⟩
    · rw [if_neg hj]
      rcases List.mem_cons.mp hi with rfl | hr
      · exact absurd (hopen w.now) hj
      · exact ih _ hr

theorem display_succeeds (env : Env) (self : TVHVAContext) (w : World) (c : DevicePath)
    (hc : c ∈ spec_candidates)
    (hopen : ∀ t, env.av_hwdevice_ctx_create t c = true)
    (href : ∀ t, env.av_buffer_ref t = true) :
    (tvhva_context_display env self w).1 ≠ none := by
  have live : ∀ (w0 : World) (buf : Nat), w0.hw_device_ref = some buf →
      (tvhva_context_display env self w0).1 ≠ none := by
    intro w0 buf h0
    rw [display_live env self w0 buf h0, if_pos (href _)]
    simp
  cases hr : w.hw_device_ref with
  | some buf => exact live w buf hr
  | none =>
    rw [spec_candidates_eq] at hc
    obtain ⟨i, hi, hic⟩ := List.mem_map.mp hc
    obtain ⟨i1, i2⟩ := init_loop_succeeds env [0, 1, 2, 3, 4, 5] w i hi
      (by rw [hic]; exact hopen)
    rw [display_empty env self w hr]
    unfold tvhva_init
    rw [if_neg (by simpa using i1)]
    obtain ⟨buf, hbuf⟩ := Option.ne_none_iff_exists'.mp i2
    rw [hbuf]
    exact live _ buf hbuf

theorem negotiation_success (env : Env) (self : TVHVAContext) (avctx : AVCodecContext)
    (w : World) (p : VAProfile) (profiles : List VAProfile)
    (entrypoints : List VAEntrypoint)
    (hp : tvhva_context_profile_check avctx.codec_id avctx.profile = p)
    (hne : p ≠ VAProfile.None)
    (hmaxp : ∀ t, 0 < env.vaMaxNumProfiles t)
    (hcalloc : ∀ t, env.calloc t = true)
    (hprofiles : ∀ t, env.vaQueryConfigProfiles t = some profiles)
    (hmaxe : ∀ t, 0 < env.vaMaxNumEntrypoints t)
    (hentry : ∀ t, env.vaQueryConfigEntrypoints t p = some entrypoints)
    (h1 : p ∈ profiles) (h2 : self.entrypoint ∈ entrypoints) :
    (tvhva_context_setup_profile env self avctx w).1 = some p := by
  have hprof : ∀ w0, tvhva_context_profile env avctx w0 =
      (if p ∈ profiles then p else VAProfile.None,
        ((w0.log Event.vaMaxNumProfiles).log Event.calloc).log Event.vaQueryConfigProfiles) := by
    intro w0
    simp [tvhva_context_profile, hp, hne, hmaxp, hcalloc, hprofiles, profile_scan_eq]
  have hchk : ∀ w0, tvhva_context_check_profile env self p w0 =
      (if self.entrypoint ∈ entrypoints then 0 else -1,
        ((w0.log Event.vaMaxNumEntrypoints).log Event.calloc).log
          (Event.vaQueryConfigEntrypoints p)) := by
    intro w0
    simp [tvhva_context_check_profile, hmaxe, hcalloc, hentry, check_profile_scan_eq]
  simp [tvhva_context_setup_profile, hprof, hchk, h1, h2, hne]

theorem config_success (env : Env) (self : TVHVAContext) (profile : VAProfile)
    (format : Nat) (w : World) (rt cfg : Nat)
    (hattr : ∀ t, env.vaGetConfigAttributes t profile self.entrypoint = some rt)
    (hrt1 : rt ≠ VA_ATTRIB_NOT_SUPPORTED) (hrt2 : rt &&& format ≠ 0)
    (hcreate : ∀ t, env.vaCreateConfig t profile self.entrypoint format = some cfg) :
    tvhva_context_config env self profile format w =
      (0, { self with config_id := cfg },
        (w.log (Event.vaGetConfigAttributes profile self.entrypoint)).log
          (Event.vaCreateConfig profile self.entrypoint format)) := by
  simp [tvhva_context_config, hattr, hrt1, hrt2, hcreate]

theorem constraints_success (env : Env) (self : TVHVAContext) (w : World)
    (c : AVHWFramesConstraints)
    (hhwc : ∀ t, env.av_hwdevice_hwconfig_alloc t = true)
    (hcons : ∀ t, env.av_hwdevice_get_hwframe_constraints t self.config_id = some c)
    (hio : self.io_format ≠ AVPixelFormat.NONE)
    (hmem : self.io_format ∈ listed_sw_formats c.valid_sw_formats)
    (hsize : c.min_width ≤ self.width ∧ self.width ≤ c.max_width ∧
      c.min_height ≤ self.height ∧ self.height ≤ c.max_height) :
    (tvhva_context_check_constraints env self w).1 = 0 ∧
    (tvhva_context_check_constraints env self w).2.1 =
      { self with sw_format := self.io_format } := by
  have hf : (tvhva_context_check_constraints_format env self c.valid_sw_formats).sw_format
      = self.io_format := by
    simp [tvhva_context_check_constraints_format, hio, check_constraints_exact_eq, hmem]
  have hfe := check_constraints_format_eq env self c.valid_sw_formats
  rw [hf] at hfe
  simp only [tvhva_context_check_constraints, hhwc, hcons]
  simp only [Bool.true_eq_false, if_false, hfe]
  rw [if_neg hio, if_neg (by omega)]
  exact ⟨rfl, rfl⟩

theorem tail_success (env : Env) (selfk : TVHVAContext) (avctx : AVCodecContext)
    (wk : World) (ctx : Nat)
    (hent : selfk.entrypoint = VAEntrypoint.VLD)
    (href : ∀ t, env.av_buffer_ref t = true)
    (hfalloc : ∀ t, env.av_hwframe_ctx_alloc t = true)
    (hfinit : ∀ t sw wd ht n, env.av_hwframe_ctx_init t sw wd ht n = true)
    (hcc : ∀ t, env.vaCreateContext t selfk.config_id selfk.width selfk.height = some ctx) :
    (let f := tvhva_context_setup_pool env selfk wk
     if f.1 ≠ 0 then (f.1, f.2.1, avctx, f.2.2)
     else
       let x := tvhva_context_setup_context env f.2.1 f.2.2
       if x.1 ≠ 0 then (-1, x.2.1, avctx, x.2.2)
       else
         let b := tvhva_context_setup_export env x.2.1 avctx x.2.2
         (b.1, x.2.1, b.2.1, b.2.2)).1 = 0 ∧
    (let f := tvhva_context_setup_pool env selfk wk
     if f.1 ≠ 0 then (f.1, f.2.1, avctx, f.2.2)
     else
       let x := tvhva_context_setup_context env f.2.1 f.2.2
       if x.1 ≠ 0 then (-1, x.2.1, avctx, x.2.2)
       else
         let b := tvhva_context_setup_export env x.2.1 avctx x.2.2
         (b.1, x.2.1, b.2.1, b.2.2)).2.1 =
      { selfk with hw_frames_ref := some wk.frames.length, context_id := ctx } := by
  simp [tvhva_context_setup_pool, tvhva_context_setup_context, tvhva_context_setup_export,
    av_buffer_ref_frames, hent, href, hfalloc, hfinit, hcc, World.log]

theorem tail_prefix (env : Env) (selfk : TVHVAContext) (avctx : AVCodecContext)
    (wk : World) :
    ∃ evs, (let f := tvhva_context_setup_pool env selfk wk
     if f.1 ≠ 0 then (f.1, f.2.1, avctx, f.2.2)
     else
       let x := tvhva_context_setup_context env f.2.1 f.2.2
       if x.1 ≠ 0 then (-1, x.2.1, avctx, x.2.2)
       else
         let b := tvhva_context_setup_export env x.2.1 avctx x.2.2
         (b.1, x.2.1, b.2.1, b.2.2)).2.2.2.trace = wk.trace ++ evs := by
  obtain ⟨e1, h1, _⟩ := setup_pool_ext env selfk wk
  dsimp only
  split_ifs
  · exact ⟨e1, h1⟩
  · obtain ⟨e2, h2, _⟩ := setup_context_ext env (tvhva_context_setup_pool env selfk wk).2.1
      (tvhva_context_setup_pool env selfk wk).2.2
    exact ⟨e1 ++ e2, by rw [h2, h1, List.append_assoc]⟩
  · obtain ⟨e2, h2, _⟩ := setup_context_ext env (tvhva_context_setup_pool env selfk wk).2.1
      (tvhva_context_setup_pool env selfk wk).2.2
    obtain ⟨e3, h3, _⟩ := setup_export_ext env
      (tvhva_context_setup_context env (tvhva_context_setup_pool env selfk wk).2.1
        (tvhva_context_setup_pool env selfk wk).2.2).2.1 avctx
      (tvhva_context_setup_context env (tvhva_context_setup_pool env selfk wk).2.1
        (tvhva_context_setup_pool env selfk wk).2.2).2.2
    exact ⟨e1 ++ e2 ++ e3, by rw [h3, h2, h1]; simp⟩

/-- The setup on a device that answers every request of an H.264 High
decode: the result, the session and the config request in the trace. -/
theorem setup_h264_high (env : Env) (avctx : AVCodecContext) (w : World)
    (dev : DevicePath) (profiles : List VAProfile) (entrypoints : List VAEntrypoint)
    (rt cfg ctx : Nat) (c : AVHWFramesConstraints)
    (hcodec : avctx.codec_id = AVCodecID.H264)
    (hprofile : avctx.profile = FF_PROFILE_H264_HIGH)
    (hfmt : avctx.sw_pix_fmt = AVPixelFormat.YUV420P)
    (hdev : dev ∈ spec_candidates)
    (hopen : ∀ t, env.av_hwdevice_ctx_create t dev = true)
    (href : ∀ t, env.av_buffer_ref t = true)
    (hcalloc : ∀ t, env.calloc t = true)
    (hmaxp : ∀ t, 0 < env.vaMaxNumProfiles t)
    (hprofiles : ∀ t, env.vaQueryConfigProfiles t = some profiles)
    (hhigh : VAProfile.H264High ∈ profiles)
    (hmaxe : ∀ t, 0 < env.vaMaxNumEntrypoints t)
    (hentry : ∀ t, env.vaQueryConfigEntrypoints t VAProfile.H264High = some entrypoints)
    (hvld : VAEntrypoint.VLD ∈ entrypoints)
    (hattr : ∀ t, env.vaGetConfigAttributes t VAProfile.H264High VAEntrypoint.VLD = some rt)
    (hrt1 : rt ≠ VA_ATTRIB_NOT_SUPPORTED) (hrt2 : rt &&& VA_RT_FORMAT_YUV420 ≠ 0)
    (hcreate : ∀ t, env.vaCreateConfig t VAProfile.H264High VAEntrypoint.VLD
      VA_RT_FORMAT_YUV420 = some cfg)
    (hhwc : ∀ t, env.av_hwdevice_hwconfig_alloc t = true)
    (hcons : ∀ t, env.av_hwdevice_get_hwframe_constraints t cfg = some c)
    (hnv12 : AVPixelFormat.NV12 ∈ listed_sw_formats c.valid_sw_formats)
    (hsize : c.min_width ≤ avctx.coded_width ∧ avctx.coded_width ≤ c.max_width ∧
      c.min_height ≤ avctx.coded_height ∧ avctx.coded_height ≤ c.max_height)
    (hfalloc : ∀ t, env.av_hwframe_ctx_alloc t = true)
    (hfinit : ∀ t sw wd ht n, env.av_hwframe_ctx_init t sw wd ht n = true)
    (hcc : ∀ t, env.vaCreateContext t cfg avctx.coded_width avctx.coded_height = some ctx) :
    (tvhva_context_setup env (tvhva_context_create_self avctx VAEntrypoint.VLD) avctx w).1
      = 0 ∧
    (tvhva_context_setup env (tvhva_context_create_self avctx VAEntrypoint.VLD) avctx
      w).2.1.config_id = cfg ∧
    (tvhva_context_setup env (tvhva_context_create_self avctx VAEntrypoint.VLD) avctx
      w).2.1.context_id = ctx ∧
    (tvhva_context_setup env (tvhva_context_create_self avctx VAEntrypoint.VLD) avctx
      w).2.1.sw_format = AVPixelFormat.NV12 ∧
    (tvhva_context_setup env (tvhva_context_create_self avctx VAEntrypoint.VLD) avctx
      w).2.1.display ≠ none ∧
    ∃ pre post, (tvhva_context_setup env (tvhva_context_create_self avctx VAEntrypoint.VLD)
      avctx w).2.2.2.trace = w.trace ++ pre ++
        [Event.vaCreateConfig VAProfile.H264High VAEntrypoint.VLD VA_RT_FORMAT_YUV420] ++
        post := by
  have hdne := display_succeeds env (tvhva_context_create_self avctx VAEntrypoint.VLD) w dev
    hdev hopen href
  obtain ⟨e1, ht1, _⟩ := display_trace env (tvhva_context_create_self avctx VAEntrypoint.VLD) w
  rcases hdeq : tvhva_context_display env (tvhva_context_create_self avctx VAEntrypoint.VLD) w
    with ⟨d1, selfd, wd⟩
  rw [hdeq] at hdne ht1
  dsimp only at hdne ht1
  obtain ⟨disp, rfl⟩ := Option.ne_none_iff_exists'.mp hdne
  have hselfd := display_some_ref env _ w disp selfd wd hdeq
  have hio : selfd.io_format = AVPixelFormat.NV12 := by
    rw [hselfd]; simp [tvhva_context_create_self, hfmt]
  have hent : selfd.entrypoint = VAEntrypoint.VLD := by
    rw [hselfd]; rfl
  have hwd : selfd.width = avctx.coded_width := by rw [hselfd]; rfl
  have hht : selfd.height = avctx.coded_height := by rw [hselfd]; rfl
  have hn1 := negotiation_success env { selfd with display := some disp } avctx wd
    VAProfile.H264High profiles entrypoints
    (by rw [hcodec, hprofile]; rfl) (by simp) hmaxp hcalloc hprofiles hmaxe hentry hhigh
    (by show selfd.entrypoint ∈ entrypoints; rw [hent]; exact hvld)
  obtain ⟨e2, ht2, _⟩ := setup_profile_ext env { selfd with display := some disp } avctx wd
  rcases hneq : tvhva_context_setup_profile env { selfd with display := some disp } avctx wd
    with ⟨n1, wn⟩
  rw [hneq] at hn1 ht2
  dsimp only at hn1 ht2
  subst hn1
  have hgf : tvhva_get_format selfd.io_format = VA_RT_FORMAT_YUV420 := by rw [hio]; rfl
  have hc := config_success env { selfd with display := some disp } VAProfile.H264High
    (tvhva_get_format selfd.io_format) wn rt cfg
    (by intro t; show env.vaGetConfigAttributes t _ selfd.entrypoint = _; rw [hent]
        exact hattr t)
    hrt1 (by rw [hgf]; exact hrt2)
    (by intro t; show env.vaCreateConfig t _ selfd.entrypoint _ = _; rw [hent, hgf]
        exact hcreate t)
  obtain ⟨hk1, hk2⟩ := constraints_success env
    { ({ selfd with display := some disp } : TVHVAContext) with config_id := cfg }
    ((wn.log (Event.vaGetConfigAttributes VAProfile.H264High selfd.entrypoint)).log
      (Event.vaCreateConfig VAProfile.H264High selfd.entrypoint
        (tvhva_get_format selfd.io_format))) c hhwc hcons
    (by show selfd.io_format ≠ _; rw [hio]; simp)
    (by show selfd.io_format ∈ _; rw [hio]; exact hnv12)
    (by show _ ≤ selfd.width ∧ selfd.width ≤ _ ∧ _ ≤ selfd.height ∧ selfd.height ≤ _
        rw [hwd, hht]; exact hsize)
  obtain ⟨e3, ht3, _⟩ := check_constraints_ext env
    { ({ selfd with display := some disp } : TVHVAContext) with config_id := cfg }
    ((wn.log (Event.vaGetConfigAttributes VAProfile.H264High selfd.entrypoint)).log
      (Event.vaCreateConfig VAProfile.H264High selfd.entrypoint
        (tvhva_get_format selfd.io_format)))
  rcases hkeq : tvhva_context_check_constraints env
    { ({ selfd with display := some disp } : TVHVAContext) with config_id := cfg }
    ((wn.log (Event.vaGetConfigAttributes VAProfile.H264High selfd.entrypoint)).log
      (Event.vaCreateConfig VAProfile.H264High selfd.entrypoint
        (tvhva_get_format selfd.io_format))) with ⟨k1, selfk, wk⟩
  rw [hkeq] at hk1 hk2 ht3
  dsimp only at hk1 hk2 ht3
  subst hk1
  have hs := setup_of_constraints_ok env _ avctx w disp selfd wd wn VAProfile.H264High _ _
    selfk wk hdeq hneq (by rw [hgf]; decide) hc hkeq
  have hkent : selfk.entrypoint = VAEntrypoint.VLD := by rw [hk2]; exact hent
  have hkcfg : selfk.config_id = cfg := by rw [hk2]
  have hkw : selfk.width = avctx.coded_width := by rw [hk2]; exact hwd
  have hkh : selfk.height = avctx.coded_height := by rw [hk2]; exact hht
  have hksw : selfk.sw_format = AVPixelFormat.NV12 := by rw [hk2]; exact hio
  obtain ⟨t1, t2⟩ := tail_success env selfk avctx wk ctx hkent href hfalloc hfinit
    (by intro t; rw [hkcfg, hkw, hkh]; exact hcc t)
  obtain ⟨e4, ht4⟩ := tail_prefix env selfk avctx wk
  rw [← hs] at t1 t2 ht4
  refine ⟨t1, ?_, ?_, ?_, ?_, e1 ++ e2 ++
    [Event.vaGetConfigAttributes VAProfile.H264High VAEntrypoint.VLD], e3 ++ e4, ?_⟩
  · rw [t2]; exact hkcfg
  · rw [t2]
  · rw [t2]; exact hksw
  · rw [t2, hk2]; simp
  · rw [ht4, ht3]
    simp only [World.log, ht2, ht1, hent, hgf, List.append_assoc, List.singleton_append,
      List.cons_append, List.nil_append]

theorem release_events_resources (self : TVHVAContext) :
    (release_events self).filterMap Event.releases =
      [Resource.context, Resource.config, Resource.frame_pool, Resource.device].filter
        self.holds := by
  obtain ⟨display, config_id, context_id, entrypoint, io_format, sw_format, width, height,
    hw_device_ref, hw_frames_ref⟩ := self
  unfold release_events
  by_cases h1 : context_id = VA_INVALID_ID <;> by_cases h2 : config_id = VA_INVALID_ID <;>
    cases hw_frames_ref <;> cases hw_device_ref <;>
    simp [h1, h2, Event.releases, TVHVAContext.holds, List.filter]

theorem released_holds (self : TVHVAContext) (r : Resource) :
    (released self).holds r = false := by
  cases r <;> simp [released, TVHVAContext.holds]

theorem filterMap_acquires_nil (evs : List Event)
    (h : ∀ e ∈ evs, e.acquires = none) : evs.filterMap Event.acquires = [] := by
  rw [List.filterMap_eq_nil_iff]
  exact h

theorem init_loop_acquires (env : Env) (l : List Int) (w : World) :
    ∃ evs, (tvhva_init_loop env l w).2.trace = w.trace ++ evs ∧
      evs.filterMap Event.acquires = [] := by
  induction l generalizing w with
  | nil => exact ⟨[], by simp [tvhva_init_loop], rfl⟩
  | cons i rest ih =>
    unfold tvhva_init_loop
    dsimp only
    split_ifs
    · exact ⟨[Event.av_hwdevice_ctx_create (tvhva_init_device i)], rfl, rfl⟩
    · obtain ⟨evs, h1, h2⟩ := ih
        { w.log (Event.av_hwdevice_ctx_create (tvhva_init_device i)) with
          hw_device_ref := none }
      refine ⟨Event.av_hwdevice_ctx_create (tvhva_init_device i) :: evs, ?_, ?_⟩
      · rw [h1]; simp [World.log]
      · simpa [Event.acquires] using h2

/-- The device acquisition asks for the device reference at most once, and a
session that had no device reference holds one afterwards only if it was asked
for. -/
theorem display_acquires (env : Env) (self : TVHVAContext) (w : World)
    (hself : self.hw_device_ref = none) :
    ∃ evs, (tvhva_context_display env self w).2.2.trace = w.trace ++ evs ∧
      (evs.filterMap Event.acquires = [] ∨
        evs.filterMap Event.acquires = [Resource.device]) ∧
      ((tvhva_context_display env self w).2.1.hw_device_ref ≠ none →
        evs.filterMap Event.acquires = [Resource.device]) := by
  have live : ∀ (w0 : World) (buf : Nat), w0.hw_device_ref = some buf →
      (tvhva_context_display env self w0).2.2.trace =
        w0.trace ++ [Event.av_buffer_ref_device buf] := by
    intro w0 buf h0
    rw [display_live env self w0 buf h0]
    split_ifs <;> rfl
  cases hr : w.hw_device_ref with
  | some buf => exact ⟨_, live w buf hr, Or.inr rfl, fun _ => rfl⟩
  | none =>
    obtain ⟨evs, i1, i2⟩ := init_loop_acquires env [0, 1, 2, 3, 4, 5] w
    have i1b : (tvhva_init env w).2.trace = w.trace ++ evs := i1
    by_cases hi : (tvhva_init env w).1 ≠ 0
    · have hd : tvhva_context_display env self w = (none, self, (tvhva_init env w).2) := by
        rw [display_empty env self w hr, if_pos hi]
      rw [hd]
      exact ⟨evs, i1b, Or.inl i2, fun h => absurd hself h⟩
    · cases hr2 : (tvhva_init env w).2.hw_device_ref with
      | none =>
        have hd : tvhva_context_display env self w = (none, self, (tvhva_init env w).2) := by
          rw [display_empty env self w hr, if_neg hi, hr2]
        rw [hd]
        exact ⟨evs, i1b, Or.inl i2, fun h => absurd hself h⟩
      | some buf =>
        have hd : tvhva_context_display env self w =
            tvhva_context_display env self (tvhva_init env w).2 := by
          rw [display_empty env self w hr, if_neg hi, hr2]
        rw [hd]
        refine ⟨evs ++ [Event.av_buffer_ref_device buf], ?_, Or.inr ?_, fun _ => ?_⟩
        · rw [live _ buf hr2, i1b, List.append_assoc]
        · rw [List.filterMap_append, i2]; rfl
        · rw [List.filterMap_append, i2]; rfl

theorem setup_profile_acquires (env : Env) (self : TVHVAContext) (avctx : AVCodecContext)
    (w : World) :
    ∃ evs, (tvhva_context_setup_profile env self avctx w).2.trace = w.trace ++ evs ∧
      evs.filterMap Event.acquires = [] := by
  obtain ⟨evs, h1, h2⟩ := setup_profile_trace env self avctx w
  refine ⟨evs, h1, filterMap_acquires_nil evs fun e he => ?_⟩
  have := h2 e he
  cases e <;> simp_all [Event.isQuery, Event.acquires]

/-- The config stage asks for the config at most once; the config id changes
only when it was asked for. -/
theorem config_acquires (env : Env) (self : TVHVAContext) (profile : VAProfile)
    (format : Nat) (w : World) :
    ∃ evs, (tvhva_context_config env self profile format w).2.2.trace = w.trace ++ evs ∧
      ((evs.filterMap Event.acquires = [] ∧
          (tvhva_context_config env self profile format w).1 ≠ 0 ∧
          (tvhva_context_config env self profile format w).2.1 = self) ∨
        (evs.filterMap Event.acquires = [Resource.config] ∧
          ((tvhva_context_config env self profile format w).1 ≠ 0 →
            (tvhva_context_config env self profile format w).2.1 = self))) := by
  unfold tvhva_context_config
  dsimp only
  split
  · exact ⟨[_], rfl, Or.inl ⟨rfl, by simp, rfl⟩⟩
  · split_ifs
    · exact ⟨[_], rfl, Or.inl ⟨rfl, by simp, rfl⟩⟩
    · split
      · exact ⟨[Event.vaGetConfigAttributes profile self.entrypoint,
          Event.vaCreateConfig profile self.entrypoint format], by simp [World.log],
          Or.inr ⟨rfl, fun _ => rfl⟩⟩
      · exact ⟨[Event.vaGetConfigAttributes profile self.entrypoint,
          Event.vaCreateConfig profile self.entrypoint format], by simp [World.log],
          Or.inr ⟨rfl, fun h => absurd rfl h⟩⟩

theorem check_constraints_acquires (env : Env) (self : TVHVAContext) (w : World) :
    ∃ evs, (tvhva_context_check_constraints env self w).2.2.trace = w.trace ++ evs ∧
      evs.filterMap Event.acquires = [] := by
  unfold tvhva_context_check_constraints
  dsimp only
  split_ifs
  · exact ⟨[_], rfl, rfl⟩
  · split
    · exact ⟨[Event.av_hwdevice_hwconfig_alloc,
        Event.av_hwdevice_get_hwframe_constraints self.config_id], by simp [World.log], rfl⟩
    · split_ifs <;> exact ⟨[Event.av_hwdevice_hwconfig_alloc,
        Event.av_hwdevice_get_hwframe_constraints self.config_id], by simp [World.log], rfl⟩

theorem setup_pool_acquires (env : Env) (self : TVHVAContext) (w : World) :
    ∃ evs, (tvhva_context_setup_pool env self w).2.2.trace = w.trace ++ evs ∧
      evs.filterMap Event.acquires = [Resource.frame_pool] := by
  unfold tvhva_context_setup_pool
  dsimp only
  split_ifs
  · exact ⟨[Event.av_hwframe_ctx_alloc self.hw_device_ref], rfl, rfl⟩
  · exact ⟨[Event.av_hwframe_ctx_alloc self.hw_device_ref,
      Event.av_hwframe_ctx_init w.frames.length], by simp [World.log], rfl⟩
  · exact ⟨[Event.av_hwframe_ctx_alloc self.hw_device_ref,
      Event.av_hwframe_ctx_init w.frames.length], by simp [World.log], rfl⟩

/-- The context stage asks for the execution context at most once; the
context id changes only when it was asked for. -/
theorem setup_context_acquires (env : Env) (self : TVHVAContext) (w : World) :
    ∃ evs, (tvhva_context_setup_context env self w).2.2.trace = w.trace ++ evs ∧
      ((evs.filterMap Event.acquires = [] ∧
          (tvhva_context_setup_context env self w).2.1 = self) ∨
        evs.filterMap Event.acquires = [Resource.context]) := by
  unfold tvhva_context_setup_context
  dsimp only
  split_ifs
  · split
    · exact ⟨[_], rfl, Or.inr rfl⟩
    · exact ⟨[_], rfl, Or.inr rfl⟩
  · exact ⟨[], by simp, Or.inl ⟨rfl, rfl⟩⟩

theorem setup_export_acquires (env : Env) (self : TVHVAContext) (avctx : AVCodecContext)
    (w : World) :
    ∃ evs, (tvhva_context_setup_export env self avctx w).2.2.trace = w.trace ++ evs ∧
      evs.filterMap Event.acquires = [] := by
  unfold tvhva_context_setup_export av_buffer_ref_frames
  dsimp only
  split
  · exact ⟨[], by simp, rfl⟩
  · split_ifs <;> exact ⟨[_], rfl, rfl⟩

theorem setup_of_format_zero (env : Env) (self : TVHVAContext) (avctx : AVCodecContext)
    (w : World) (disp : Nat) (selfd : TVHVAContext) (wd wn : World) (profile : VAProfile)
    (hd : tvhva_context_display env self w = (some disp, selfd, wd))
    (hn : tvhva_context_setup_profile env { selfd with display := some disp } avctx wd =
      (some profile, wn))
    (hf : tvhva_get_format selfd.io_format = 0) :
    tvhva_context_setup env self avctx w =
      (-1, { selfd with display := some disp }, avctx, wn) := by
  simp [tvhva_context_setup, hd, hn, hf]

theorem setup_of_config_fail (env : Env) (self : TVHVAContext) (avctx : AVCodecContext)
    (w : World) (disp : Nat) (selfd : TVHVAContext) (wd wn : World) (profile : VAProfile)
    (c1 : Int) (selfc : TVHVAContext) (wc : World)
    (hd : tvhva_context_display env self w = (some disp, selfd, wd))
    (hn : tvhva_context_setup_profile env { selfd with display := some disp } avctx wd =
      (some profile, wn))
    (hf : tvhva_get_format selfd.io_format ≠ 0)
    (hc : tvhva_context_config env { selfd with display := some disp } profile
      (tvhva_get_format selfd.io_format) wn = (c1, selfc, wc))
    (hc1 : c1 ≠ 0) :
    tvhva_context_setup env self avctx w = (-1, selfc, avctx, wc) := by
  simp [tvhva_context_setup, hd, hn, hf, hc, hc1]

/-- The last three stages of the setup ask for the frame pool and then, at
most once, for the execution context; the context id changes only when the
context was asked for. -/
theorem tail_acquires (env : Env) (selfk : TVHVAContext) (avctx : AVCodecContext)
    (wk : World) (s : Int × TVHVAContext × AVCodecContext × World)
    (hs : s = (let f := tvhva_context_setup_pool env selfk wk
         if f.1 ≠ 0 then (f.1, f.2.1, avctx, f.2.2)
         else
           let x := tvhva_context_setup_context env f.2.1 f.2.2
           if x.1 ≠ 0 then (-1, x.2.1, avctx, x.2.2)
           else
             let b := tvhva_context_setup_export env x.2.1 avctx x.2.2
             (b.1, x.2.1, b.2.1, b.2.2))) :
    ∃ evs, s.2.2.2.trace = wk.trace ++ evs ∧
      ((evs.filterMap Event.acquires = [Resource.frame_pool] ∧
          s.2.1.context_id = selfk.context_id) ∨
        evs.filterMap Event.acquires = [Resource.frame_pool, Resource.context]) := by
  obtain ⟨e5, t5, a5⟩ := setup_pool_acquires env selfk wk
  obtain ⟨_, _, _, p4, _, _⟩ := setup_pool_registry env selfk wk
  obtain ⟨e6, t6, a6⟩ := setup_context_acquires env
    (tvhva_context_setup_pool env selfk wk).2.1 (tvhva_context_setup_pool env selfk wk).2.2
  obtain ⟨e7, t7, a7⟩ := setup_export_acquires env
    (tvhva_context_setup_context env (tvhva_context_setup_pool env selfk wk).2.1
      (tvhva_context_setup_pool env selfk wk).2.2).2.1 avctx
    (tvhva_context_setup_context env (tvhva_context_setup_pool env selfk wk).2.1
      (tvhva_context_setup_pool env selfk wk).2.2).2.2
  subst hs
  dsimp only
  split_ifs
  · exact ⟨e5, t5, Or.inl ⟨a5, p4⟩⟩
  · refine ⟨e5 ++ e6, by rw [t6, t5, List.append_assoc], ?_⟩
    rw [List.filterMap_append, a5]
    rcases a6 with ⟨a6, s6⟩ | a6
    · rw [a6, s6]; exact Or.inl ⟨rfl, p4⟩
    · rw [a6]; exact Or.inr rfl
  · refine ⟨e5 ++ e6 ++ e7, by rw [t7, t6, t5]; simp, ?_⟩
    rw [List.filterMap_append, List.filterMap_append, a5, a7]
    rcases a6 with ⟨a6, s6⟩ | a6
    · rw [a6, s6]; exact Or.inl ⟨rfl, p4⟩
    · rw [a6]; exact Or.inr rfl

/-- The setup of a session that holds nothing asks for the resources in the
order device, config, frame pool, execution context, stopping anywhere; and
the session it leaves holds only resources it asked for. -/
theorem setup_acquires (env : Env) (self : TVHVAContext) (avctx : AVCodecContext)
    (w : World) (h1 : self.hw_device_ref = none) (h2 : self.config_id = VA_INVALID_ID)
    (h3 : self.hw_frames_ref = none) (h4 : self.context_id = VA_INVALID_ID) :
    ∃ evs, (tvhva_context_setup env self avctx w).2.2.2.trace = w.trace ++ evs ∧
      evs.filterMap Event.acquires <+:
        [Resource.device, Resource.config, Resource.frame_pool, Resource.context] ∧
      ∀ r, (tvhva_context_setup env self avctx w).2.1.holds r = true →
        r ∈ evs.filterMap Event.acquires := by
  obtain ⟨e1, t1, a1, b1⟩ := display_acquires env self w h1
  have hds := display_self env self w
  rcases hd : tvhva_context_display env self w with ⟨d1, selfd, wd⟩
  rw [hd] at t1 b1 hds
  dsimp only at t1 b1 hds
  have f2 : selfd.config_id = VA_INVALID_ID := by rw [hds]; exact h2
  have f3 : selfd.hw_frames_ref = none := by rw [hds]; exact h3
  have f4 : selfd.context_id = VA_INVALID_ID := by rw [hds]; exact h4
  cases d1 with
  | none =>
    rw [setup_of_display_none env self avctx w selfd wd hd]
    refine ⟨e1, t1, ?_, ?_⟩
    · rcases a1 with a1 | a1 <;> rw [a1]
      · exact List.nil_prefix
      · exact ⟨[Resource.config, Resource.frame_pool, Resource.context], rfl⟩
    · intro r hr
      cases r with
      | device =>
        rw [b1 (by simpa [TVHVAContext.holds, Option.isSome_iff_ne_none] using hr)]
        simp
      | config => simp [TVHVAContext.holds, f2] at hr
      | frame_pool => simp [TVHVAContext.holds, f3] at hr
      | context => simp [TVHVAContext.holds, f4] at hr
  | some disp =>
    have hsd := display_some_ref env self w disp selfd wd hd
    have a1d : e1.filterMap Event.acquires = [Resource.device] :=
      b1 (by rw [hsd]; simp)
    obtain ⟨e2, t2, a2⟩ := setup_profile_acquires env { selfd with display := some disp }
      avctx wd
    rcases hn : tvhva_context_setup_profile env { selfd with display := some disp } avctx wd
      with ⟨n1, wn⟩
    rw [hn] at t2
    dsimp only at t2
    have t12 : wn.trace = w.trace ++ (e1 ++ e2) := by rw [t2, t1, List.append_assoc]
    have a12 : (e1 ++ e2).filterMap Event.acquires = [Resource.device] := by
      rw [List.filterMap_append, a1d, a2]; rfl
    have hold1 : ∀ r, ({ selfd with display := some disp } : TVHVAContext).holds r = true →
        r ∈ [Resource.device] := by
      intro r hr
      cases r with
      | device => simp
      | config => simp [TVHVAContext.holds, f2] at hr
      | frame_pool => simp [TVHVAContext.holds, f3] at hr
      | context => simp [TVHVAContext.holds, f4] at hr
    cases n1 with
    | none =>
      rw [setup_of_profile_none env self avctx w disp selfd wd wn hd hn]
      refine ⟨e1 ++ e2, t12, ?_, ?_⟩
      · rw [a12]; exact ⟨[Resource.config, Resource.frame_pool, Resource.context], rfl⟩
      · rw [a12]; exact hold1
    | some profile =>
      by_cases hf : tvhva_get_format selfd.io_format = 0
      · rw [setup_of_format_zero env self avctx w disp selfd wd wn profile hd hn hf]
        refine ⟨e1 ++ e2, t12, ?_, ?_⟩
        · rw [a12]; exact ⟨[Resource.config, Resource.frame_pool, Resource.context], rfl⟩
        · rw [a12]; exact hold1
      · obtain ⟨e3, t3, a3⟩ := config_acquires env { selfd with display := some disp } profile
          (tvhva_get_format selfd.io_format) wn
        have hcs := config_self env { selfd with display := some disp } profile
          (tvhva_get_format selfd.io_format) wn
        rcases hc : tvhva_context_config env { selfd with display := some disp } profile
          (tvhva_get_format selfd.io_format) wn with ⟨c1, selfc, wc⟩
        rw [hc] at t3 a3 hcs
        dsimp only at t3 a3 hcs
        have t123 : wc.trace = w.trace ++ (e1 ++ e2 ++ e3) := by
          rw [t3, t12, List.append_assoc]
        have g3 : selfc.hw_frames_ref = none := by rw [hcs]; exact f3
        have g4 : selfc.context_id = VA_INVALID_ID := by rw [hcs]; exact f4
        by_cases hc1 : c1 ≠ 0
        · rw [setup_of_config_fail env self avctx w disp selfd wd wn profile c1 selfc wc hd hn
            hf hc hc1]
          have hsame : selfc = { selfd with display := some disp } := by
            rcases a3 with ⟨_, _, a3⟩ | ⟨_, a3⟩
            · exact a3
            · exact a3 hc1
          refine ⟨e1 ++ e2 ++ e3, t123, ?_, ?_⟩
          · rw [List.filterMap_append, a12]
            rcases a3 with ⟨a3, _, _⟩ | ⟨a3, _⟩ <;> rw [a3]
            · exact ⟨[Resource.config, Resource.frame_pool, Resource.context], rfl⟩
            · exact ⟨[Resource.frame_pool, Resource.context], rfl⟩
          · intro r hr
            rw [hsame] at hr
            rw [List.filterMap_append, a12]
            exact List.mem_append_left _ (hold1 r hr)
        · have hc0 : c1 = 0 := by simpa using hc1
          subst hc0
          have a3c : e3.filterMap Event.acquires = [Resource.config] := by
            rcases a3 with ⟨_, a3, _⟩ | ⟨a3, _⟩
            · exact absurd rfl a3
            · exact a3
          have a123 : (e1 ++ e2 ++ e3).filterMap Event.acquires =
              [Resource.device, Resource.config] := by
            rw [List.filterMap_append, a12, a3c]; rfl
          obtain ⟨e4, t4, a4⟩ := check_constraints_acquires env selfc wc
          have hks := check_constraints_self env selfc wc
          rcases hk : tvhva_context_check_constraints env selfc wc with ⟨k1, selfk, wk⟩
          rw [hk] at t4 hks
          dsimp only at t4 hks
          have t1234 : wk.trace = w.trace ++ (e1 ++ e2 ++ e3 ++ e4) := by
            rw [t4, t123, List.append_assoc]
          have a1234 : (e1 ++ e2 ++ e3 ++ e4).filterMap Event.acquires =
              [Resource.device, Resource.config] := by
            rw [List.filterMap_append, a123, a4]; rfl
          have k3 : selfk.hw_frames_ref = none := by rw [hks]; exact g3
          have k4 : selfk.context_id = VA_INVALID_ID := by rw [hks]; exact g4
          by_cases hk1 : k1 ≠ 0
          · have hs := setup_of_constraints_fail env self avctx w disp selfd wd wn profile
              selfc wc hd hn hf hc (by rw [hk]; exact hk1)
            rw [hk] at hs
            rw [hs]
            refine ⟨e1 ++ e2 ++ e3 ++ e4, t1234, ?_, ?_⟩
            · rw [a1234]; exact ⟨[Resource.frame_pool, Resource.context], rfl⟩
            · intro r hr
              rw [a1234]
              cases r with
              | device => simp
              | config => simp
              | frame_pool => simp [TVHVAContext.holds, k3] at hr
              | context => simp [TVHVAContext.holds, k4] at hr
          · have hk0 : k1 = 0 := by simpa using hk1
            subst hk0
            have hs := setup_of_constraints_ok env self avctx w disp selfd wd wn profile
              selfc wc selfk wk hd hn hf hc hk
            obtain ⟨e5, t5, a5⟩ := tail_acquires env selfk avctx wk _ hs
            refine ⟨e1 ++ e2 ++ e3 ++ e4 ++ e5, by rw [t5, t1234, List.append_assoc], ?_, ?_⟩
            · rw [List.filterMap_append, a1234]
              rcases a5 with ⟨a5, _⟩ | a5 <;> rw [a5]
              · exact ⟨[Resource.context], rfl⟩
              · exact ⟨[], rfl⟩
            · intro r hr
              rw [List.filterMap_append, a1234]
              rcases a5 with ⟨a5, c5⟩ | a5 <;> rw [a5]
              · cases r with
                | device => simp
                | config => simp
                | frame_pool => simp
                | context => simp [TVHVAContext.holds, c5, k4] at hr
              · cases r <;> simp

/-- The format the two loops of `tvhva_context_check_constraints` resolve, for
a session entered with `sw_format` still `AV_PIX_FMT_NONE`. -/
theorem format_resolved (env : Env) (self : TVHVAContext) (l : List AVPixelFormat)
    (hsw : self.sw_format = AVPixelFormat.NONE)
    (h : (tvhva_context_check_constraints_format env self l).sw_format ≠
      AVPixelFormat.NONE) :
    (tvhva_context_check_constraints_format env self l).sw_format ∈ listed_sw_formats l ∧
    ((tvhva_context_check_constraints_format env self l).sw_format = self.io_format ∨
      same_layout env self.io_format
        (tvhva_context_check_constraints_format env self l).sw_format = true) := by
  by_cases hio : self.io_format = AVPixelFormat.NONE
  · exfalso
    apply h
    simp [tvhva_context_check_constraints_format, hio, hsw]
  · by_cases hmem : self.io_format ∈ listed_sw_formats l
    · have hf : (tvhva_context_check_constraints_format env self l).sw_format =
          self.io_format := by
        simp [tvhva_context_check_constraints_format, hio, check_constraints_exact_eq, hmem]
      rw [hf]
      exact ⟨hmem, Or.inl rfl⟩
    · cases hd : env.av_pix_fmt_desc_get self.io_format with
      | none =>
        exfalso
        apply h
        simp [tvhva_context_check_constraints_format, hio, hsw, check_constraints_exact_eq,
          hmem, hd]
      | some io_desc =>
        have hs := check_constraints_similar_eq env self.io_format io_desc hd l
        cases hfind : (listed_sw_formats l).find? (same_layout env self.io_format) with
        | none =>
          exfalso
          apply h
          rw [hfind] at hs
          simp [tvhva_context_check_constraints_format, hio, hsw, check_constraints_exact_eq,
            hmem, hd, hs]
        | some f =>
          rw [hfind] at hs
          have hf : (tvhva_context_check_constraints_format env self l).sw_format = f := by
            simp [tvhva_context_check_constraints_format, hio, hsw,
              check_constraints_exact_eq, hmem, hd, hs]
          rw [hf]
          exact ⟨List.mem_of_find?_eq_some hfind, Or.inr (List.find?_some hfind)⟩

/-- A successful `tvhva_context_check_constraints` obtained the constraints
of the device and left the session as the format block resolved it. -/
theorem check_constraints_success (env : Env) (self : TVHVAContext) (w : World)
    (h : (tvhva_context_check_constraints env self w).1 = 0) :
    ∃ c, env.av_hwdevice_get_hwframe_constraints
        (w.log Event.av_hwdevice_hwconfig_alloc).now self.config_id = some c ∧
      (tvhva_context_check_constraints env self w).2.1 =
        tvhva_context_check_constraints_format env self c.valid_sw_formats ∧
      (tvhva_context_check_constraints env self w).2.1.sw_format ≠ AVPixelFormat.NONE := by
  revert h
  unfold tvhva_context_check_constraints
  dsimp only
  split_ifs
  · simp [AVERROR_ENOMEM, AVERROR_EINVAL]
  · split
    · simp [AVERROR_ENOMEM, AVERROR_EINVAL]
    · rename_i c hc
      split_ifs with h1 h2
      · simp [AVERROR_ENOMEM, AVERROR_EINVAL]
      · simp [AVERROR_ENOMEM, AVERROR_EINVAL]
      · intro _
        exact ⟨c, hc, rfl, h1⟩

/-- A successful setup went through every stage: the results of the stages up
to the constraints, and the setup as the last three stages on them. -/
theorem setup_ok_chain (env : Env) (self : TVHVAContext) (avctx : AVCodecContext)
    (w : World) (h : (tvhva_context_setup env self avctx w).1 = 0) :
    ∃ (disp : Nat) (selfd : TVHVAContext) (wd : World) (profile : VAProfile) (wn : World)
      (selfc : TVHVAContext) (wc : World) (selfk : TVHVAContext) (wk : World),
      tvhva_context_display env self w = (some disp, selfd, wd) ∧
      tvhva_context_setup_profile env { selfd with display := some disp } avctx wd =
        (some profile, wn) ∧
      tvhva_get_format selfd.io_format ≠ 0 ∧
      tvhva_context_config env { selfd with display := some disp } profile
        (tvhva_get_format selfd.io_format) wn = (0, selfc, wc) ∧
      tvhva_context_check_constraints env selfc wc = (0, selfk, wk) ∧
      tvhva_context_setup env self avctx w =
        (let f := tvhva_context_setup_pool env selfk wk
         if f.1 ≠ 0 then (f.1, f.2.1, avctx, f.2.2)
         else
           let x := tvhva_context_setup_context env f.2.1 f.2.2
           if x.1 ≠ 0 then (-1, x.2.1, avctx, x.2.2)
           else
             let b := tvhva_context_setup_export env x.2.1 avctx x.2.2
             (b.1, x.2.1, b.2.1, b.2.2)) := by
  rcases hd : tvhva_context_display env self w with ⟨d1, selfd, wd⟩
  cases d1 with
  | none =>
    rw [setup_of_display_none env self avctx w selfd wd hd] at h
    simp at h
  | some disp =>
    rcases hn : tvhva_context_setup_profile env { selfd with display := some disp } avctx wd
      with ⟨n1, wn⟩
    cases n1 with
    | none =>
      rw [setup_of_profile_none env self avctx w disp selfd wd wn hd hn] at h
      simp at h
    | some profile =>
      by_cases hf : tvhva_get_format selfd.io_format = 0
      · rw [setup_of_format_zero env self avctx w disp selfd wd wn profile hd hn hf] at h
        simp at h
      · rcases hc : tvhva_context_config env { selfd with display := some disp } profile
          (tvhva_get_format selfd.io_format) wn with ⟨c1, selfc, wc⟩
        by_cases hc1 : c1 ≠ 0
        · rw [setup_of_config_fail env self avctx w disp selfd wd wn profile c1 selfc wc hd hn
            hf hc hc1] at h
          simp at h
        · have hc0 : c1 = 0 := by simpa using hc1
          subst hc0
          rcases hk : tvhva_context_check_constraints env selfc wc with ⟨k1, selfk, wk⟩
          by_cases hk1 : k1 ≠ 0
          · rw [setup_of_constraints_fail env self avctx w disp selfd wd wn profile
              selfc wc hd hn hf hc (by rw [hk]; exact hk1)] at h
            simp at h
          · have hk0 : k1 = 0 := by simpa using hk1
            subst hk0
            exact ⟨disp, selfd, wd, profile, wn, selfc, wc, selfk, wk, rfl, hn, hf, hc, hk,
              setup_of_constraints_ok env self avctx w disp selfd wd wn profile
                selfc wc selfk wk hd hn hf hc hk⟩

/-- What the last three stages of the setup leave when they succeed: the
session with its frame pool, the frames context of the pool and the software
format of the codec context. -/
theorem tail_ok_fields (env : Env) (selfk : TVHVAContext) (avctx : AVCodecContext)
    (wk : World) (s : Int × TVHVAContext × AVCodecContext × World)
    (hs : s = (let f := tvhva_context_setup_pool env selfk wk
         if f.1 ≠ 0 then (f.1, f.2.1, avctx, f.2.2)
         else
           let x := tvhva_context_setup_context env f.2.1 f.2.2
           if x.1 ≠ 0 then (-1, x.2.1, avctx, x.2.2)
           else
             let b := tvhva_context_setup_export env x.2.1 avctx x.2.2
             (b.1, x.2.1, b.2.1, b.2.2)))
    (h0 : s.1 = 0) :
    s.2.1.sw_format = selfk.sw_format ∧
    s.2.1.io_format = selfk.io_format ∧
    s.2.1.config_id = selfk.config_id ∧
    s.2.1.hw_frames_ref = some wk.frames.length ∧
    s.2.2.1.sw_pix_fmt = selfk.sw_format ∧
    ∃ f : AVHWFramesContext, s.2.2.2.frames[wk.frames.length]? = some f ∧
      f.sw_format = selfk.sw_format := by
  obtain ⟨t1, t2⟩ := setup_tail_frames env selfk avctx wk s hs
  obtain ⟨_, _, _, c4, _, _, fr, c7, c8⟩ := setup_tail_success env selfk avctx wk s hs h0
  have hfields : s.2.1.sw_format = selfk.sw_format ∧ s.2.1.io_format = selfk.io_format ∧
      s.2.1.hw_frames_ref = some wk.frames.length ∧
      wk.frames.length < s.2.2.2.frames.length := by
    subst hs
    revert h0
    dsimp only
    by_cases hp : (tvhva_context_setup_pool env selfk wk).1 = 0
    · have hps := setup_pool_ok env selfk wk hp
      have hpw := setup_pool_world env selfk wk
      have halloc : env.av_hwframe_ctx_alloc wk.now = true := by
        by_contra hne
        have := (hpw.1 (by simpa using hne)).1
        rw [hp] at this
        exact absurd this (by decide)
      have hpf := (hpw.2 halloc).2
      rw [if_neg (by simpa using hp)]
      have hxs := setup_context_self env (tvhva_context_setup_pool env selfk wk).2.1
        (tvhva_context_setup_pool env selfk wk).2.2
      have hxw := setup_context_world env (tvhva_context_setup_pool env selfk wk).2.1
        (tvhva_context_setup_pool env selfk wk).2.2
      by_cases hx : (tvhva_context_setup_context env
          (tvhva_context_setup_pool env selfk wk).2.1
          (tvhva_context_setup_pool env selfk wk).2.2).1 = 0
      · rw [if_neg (by simpa using hx)]
        intro _
        obtain ⟨_, _, e3, _⟩ := setup_export_world env
          (tvhva_context_setup_context env (tvhva_context_setup_pool env selfk wk).2.1
            (tvhva_context_setup_pool env selfk wk).2.2).2.1 avctx
          (tvhva_context_setup_context env (tvhva_context_setup_pool env selfk wk).2.1
            (tvhva_context_setup_pool env selfk wk).2.2).2.2
        dsimp only
        refine ⟨by rw [hxs, hps], by rw [hxs, hps], by rw [hxs, hps], ?_⟩
        rw [e3, hxw, hpf]
        simp
      · rw [if_pos (by simpa using hx)]
        intro h; simp at h
    · rw [if_pos (by simpa using hp)]
      intro h
      exact absurd h hp
  obtain ⟨f1, f2, f3, f4⟩ := hfields
  obtain ⟨f, hf⟩ : ∃ f : AVHWFramesContext, s.2.2.2.frames[wk.frames.length]? = some f :=
    ⟨s.2.2.2.frames[wk.frames.length], List.getElem?_eq_getElem f4⟩
  obtain ⟨_, _, _, g4, _, _⟩ := t2 f hf
  refine ⟨f1, f2, c4, f3, ?_, f, hf, by rw [g4, f1]⟩
  rw [c8, ← f1]

theorem setup_profile_some_iff (env : Env) (self : TVHVAContext) (avctx : AVCodecContext)
    (w : World) (profile : VAProfile) (wn : World) :
    tvhva_context_setup_profile env self avctx w = (some profile, wn) ↔
      ∃ wp, tvhva_context_profile env avctx w = (profile, wp) ∧
        profile ≠ VAProfile.None ∧
        tvhva_context_check_profile env self profile wp = (0, wn) := by
  unfold tvhva_context_setup_profile
  dsimp only
  rcases hp : tvhva_context_profile env avctx w with ⟨p, wp⟩
  dsimp only
  by_cases hnone : p = VAProfile.None
  · rw [if_pos hnone]
    constructor
    · intro h; simp at h
    · rintro ⟨wp2, h1, h2, _⟩
      simp only [Prod.mk.injEq] at h1
      exact absurd (h1.1 ▸ hnone) h2
  · rw [if_neg hnone]
    rcases hc : tvhva_context_check_profile env self p wp with ⟨c1, wc⟩
    dsimp only
    by_cases hc1 : c1 = 0
    · rw [if_neg (by simpa using hc1)]
      constructor
      · intro h
        simp only [Prod.mk.injEq, Option.some.injEq] at h
        obtain ⟨h1, h2⟩ := h
        subst h1; subst h2; subst hc1
        exact ⟨wp, rfl, hnone, hc⟩
      · rintro ⟨wp2, h1, _, h3⟩
        simp only [Prod.mk.injEq] at h1
        obtain ⟨h1a, h1b⟩ := h1
        subst h1a; subst h1b
        rw [hc] at h3
        simp only [Prod.mk.injEq] at h3
        rw [h3.2]
    · rw [if_pos (by simpa using hc1)]
      constructor
      · intro h; simp at h
      · rintro ⟨wp2, h1, _, h3⟩
        simp only [Prod.mk.injEq] at h1
        obtain ⟨h1a, h1b⟩ := h1
        subst h1a; subst h1b
        rw [hc] at h3
        simp only [Prod.mk.injEq] at h3
        exact absurd h3.1 hc1

/-- The last three stages of the setup return 0 exactly when the frame pool
is allocated and initialised, the execution context is created for the decode
entry point, and the reference for the codec context is obtained. -/
theorem tail_zero_iff (env : Env) (selfk : TVHVAContext) (avctx : AVCodecContext)
    (wk : World) (s : Int × TVHVAContext × AVCodecContext × World)
    (hs : s = (let f := tvhva_context_setup_pool env selfk wk
         if f.1 ≠ 0 then (f.1, f.2.1, avctx, f.2.2)
         else
           let x := tvhva_context_setup_context env f.2.1 f.2.2
           if x.1 ≠ 0 then (-1, x.2.1, avctx, x.2.2)
           else
             let b := tvhva_context_setup_export env x.2.1 avctx x.2.2
             (b.1, x.2.1, b.2.1, b.2.2))) :
    s.1 = 0 ↔
      env.av_hwframe_ctx_alloc wk.now = true ∧
      env.av_hwframe_ctx_init (wk.now + 1) selfk.sw_format selfk.width selfk.height 32 =
        true ∧
      (selfk.entrypoint = VAEntrypoint.VLD →
        ∃ id, env.vaCreateContext (wk.now + 2) selfk.config_id selfk.width selfk.height =
          some id) ∧
      env.av_buffer_ref (wk.now + (if selfk.entrypoint = VAEntrypoint.VLD then 3 else 2)) =
        true := by
  subst hs
  simp only [World.now]
  by_cases ha : env.av_hwframe_ctx_alloc wk.trace.length = true
  · by_cases hi : env.av_hwframe_ctx_init (wk.trace.length + 1) selfk.sw_format selfk.width
        selfk.height 32 = true
    · by_cases hv : selfk.entrypoint = VAEntrypoint.VLD
      · cases hc : env.vaCreateContext (wk.trace.length + 2) selfk.config_id selfk.width
          selfk.height with
        | none =>
          simp [tvhva_context_setup_pool, tvhva_context_setup_context, hv, World.log,
            World.now, hc, ha, hi]
        | some id =>
          by_cases hb : env.av_buffer_ref (wk.trace.length + 3) = true
          · simp [tvhva_context_setup_pool, tvhva_context_setup_context,
              tvhva_context_setup_export, av_buffer_ref_frames, hv, World.log, World.now,
              hc, hb, ha, hi]
          · have hb2 : env.av_buffer_ref (wk.trace.length + 3) = false := by simpa using hb
            simp [tvhva_context_setup_pool, tvhva_context_setup_context,
              tvhva_context_setup_export, av_buffer_ref_frames, hv, World.log, World.now,
              hc, hb2, ha, hi, AVERROR_ENOMEM]
      · by_cases hb : env.av_buffer_ref (wk.trace.length + 2) = true
        · simp [tvhva_context_setup_pool, tvhva_context_setup_context,
            tvhva_context_setup_export, av_buffer_ref_frames, hv, World.log, World.now,
            hb, ha, hi]
        · have hb2 : env.av_buffer_ref (wk.trace.length + 2) = false := by simpa using hb
          simp [tvhva_context_setup_pool, tvhva_context_setup_context,
            tvhva_context_setup_export, av_buffer_ref_frames, hv, World.log, World.now,
            hb2, ha, hi, AVERROR_ENOMEM]
    · have hi2 : env.av_hwframe_ctx_init (wk.trace.length + 1) selfk.sw_format selfk.width
          selfk.height 32 = false := by simpa using hi
      simp [tvhva_context_setup_pool, ha, World.log, World.now, hi2]
  · have ha2 : env.av_hwframe_ctx_alloc wk.trace.length = false := by simpa using ha
    simp [tvhva_context_setup_pool, ha2, World.log, World.now, AVERROR_ENOMEM]

theorem chain_entrypoint (env : Env) (avctx : AVCodecContext) (entrypoint : VAEntrypoint)
    (w0 : World) (disp : Nat) (selfd : TVHVAContext) (wd : World) (profile : VAProfile)
    (format : Nat) (wn : World) (selfc : TVHVAContext) (wc : World) (selfk : TVHVAContext)
    (wk : World)
    (hd : tvhva_context_display env (tvhva_context_create_self avctx entrypoint) w0 =
      (some disp, selfd, wd))
    (hc : tvhva_context_config env { selfd with display := some disp } profile format wn =
      (0, selfc, wc))
    (hk : tvhva_context_check_constraints env selfc wc = (0, selfk, wk)) :
    selfk.entrypoint = entrypoint := by
  have hsd := display_some_ref env _ w0 disp selfd wd hd
  obtain ⟨_, hcs⟩ := config_zero env _ profile format wn selfc wc hc
  have hks := check_constraints_self env selfc wc
  rw [hk] at hks
  dsimp only at hks
  rw [hks, hcs, hsd]
  rfl

/-- A session is returned exactly when the allocation and every stage of
the setup succeeded. -/
theorem create_iff_stages (env : Env) (avctx : AVCodecContext) (entrypoint : VAEntrypoint)
    (w : World) :
    (tvhva_context_create env avctx entrypoint w).1 ≠ none ↔
      env.calloc w.now = true ∧
      ∃ (disp : Nat) (selfd : TVHVAContext) (wd : World) (profile : VAProfile)
        (wp wn : World) (selfc : TVHVAContext) (wc : World) (selfk : TVHVAContext)
        (wk : World),
        tvhva_context_display env (tvhva_context_create_self avctx entrypoint)
          (tvhva_context_create_world avctx entrypoint w) = (some disp, selfd, wd) ∧
        tvhva_context_profile env avctx wd = (profile, wp) ∧
        profile ≠ VAProfile.None ∧
        tvhva_context_check_profile env { selfd with display := some disp } profile wp =
          (0, wn) ∧
        tvhva_get_format selfd.io_format ≠ 0 ∧
        tvhva_context_config env { selfd with display := some disp } profile
          (tvhva_get_format selfd.io_format) wn = (0, selfc, wc) ∧
        tvhva_context_check_constraints env selfc wc = (0, selfk, wk) ∧
        env.av_hwframe_ctx_alloc wk.now = true ∧
        env.av_hwframe_ctx_init (wk.now + 1) selfk.sw_format selfk.width selfk.height 32 =
          true ∧
        (entrypoint = VAEntrypoint.VLD →
          ∃ id, env.vaCreateContext (wk.now + 2) selfk.config_id selfk.width
            selfk.height = some id) ∧
        env.av_buffer_ref (wk.now + (if entrypoint = VAEntrypoint.VLD then 3 else 2)) =
          true := by
  rw [create_eq_none_iff env avctx entrypoint w]
  constructor
  · rintro ⟨hcal, h0⟩
    obtain ⟨disp, selfd, wd, profile, wn, selfc, wc, selfk, wk, hd, hn, hf, hc, hk, hs⟩ :=
      setup_ok_chain env _ avctx _ h0
    obtain ⟨wp, p1, p2, p3⟩ :=
      (setup_profile_some_iff env _ avctx wd profile wn).mp hn
    have hent := chain_entrypoint env avctx entrypoint _ disp selfd wd profile _ wn selfc wc
      selfk wk hd hc hk
    obtain ⟨t1, t2, t3, t4⟩ := (tail_zero_iff env selfk avctx wk _ hs).mp h0
    rw [hent] at t3 t4
    exact ⟨hcal, disp, selfd, wd, profile, wp, wn, selfc, wc, selfk, wk, hd, p1, p2, p3, hf,
      hc, hk, t1, t2, t3, t4⟩
  · rintro ⟨hcal, disp, selfd, wd, profile, wp, wn, selfc, wc, selfk, wk, hd, p1, p2, p3,
      hf, hc, hk, t1, t2, t3, t4⟩
    have hn := (setup_profile_some_iff env { selfd with display := some disp } avctx wd
      profile wn).mpr ⟨wp, p1, p2, p3⟩
    have hs := setup_of_constraints_ok env _ avctx _ disp selfd wd wn profile selfc wc
      selfk wk hd hn hf hc hk
    have hent := chain_entrypoint env avctx entrypoint _ disp selfd wd profile _ wn selfc wc
      selfk wk hd hc hk
    rw [← hent] at t3 t4
    exact ⟨hcal, (tail_zero_iff env selfk avctx wk _ hs).mpr ⟨t1, t2, t3, t4⟩⟩

theorem profile_some_iff (env : Env) (avctx : AVCodecContext) (w : World)
    (profile : VAProfile) (wp : World) :
    (tvhva_context_profile env avctx w = (profile, wp) ∧ profile ≠ VAProfile.None) ↔
      profile = tvhva_context_profile_check avctx.codec_id avctx.profile ∧
      profile ≠ VAProfile.None ∧
      0 < env.vaMaxNumProfiles w.now ∧
      env.calloc (w.now + 1) = true ∧
      (∃ ps, env.vaQueryConfigProfiles (w.now + 2) = some ps ∧ profile ∈ ps) ∧
      wp = ((w.log Event.vaMaxNumProfiles).log Event.calloc).log
        Event.vaQueryConfigProfiles := by
  unfold tvhva_context_profile
  simp only [World.now, World.log, List.length_append, List.length_singleton,
    profile_scan_eq]
  generalize tvhva_context_profile_check avctx.codec_id avctx.profile = check
  by_cases h1 : check = VAProfile.None
  · subst h1
    simp
    constructor
    · rintro ⟨⟨h, _⟩, hn⟩
      exact absurd h.symm hn
    · rintro ⟨h, hn, _⟩
      exact absurd h hn
  · by_cases h2 : 0 < env.vaMaxNumProfiles w.trace.length
    · by_cases h3 : env.calloc (w.trace.length + 1) = true
      · cases h4 : env.vaQueryConfigProfiles (w.trace.length + 1 + 1) with
        | none =>
          have h4b : env.vaQueryConfigProfiles (w.trace.length + 2) = none := h4
          simp [h1, h2, h3, h4, h4b]
          intro h _
          exact h.symm
        | some ps =>
          have h4b : env.vaQueryConfigProfiles (w.trace.length + 2) = some ps := h4
          by_cases h5 : check ∈ ps
          · simp [h1, h2, h3, h4, h4b, h5]
            constructor
            · rintro ⟨⟨a, b⟩, _⟩
              subst a
              exact ⟨rfl, h1, h5, b.symm⟩
            · rintro ⟨a, b, _, d⟩
              subst a
              exact ⟨⟨rfl, d.symm⟩, h1⟩
          · simp [h1, h2, h3, h4, h4b, h5]
            constructor
            · rintro ⟨⟨a, _⟩, hn⟩
              exact absurd a.symm hn
            · rintro ⟨a, _, c, _⟩
              subst a
              exact absurd c h5
      · have h3b : env.calloc (w.trace.length + 1) = false := by simpa using h3
        simp [h1, h2, h3b]
        intro h _
        exact h.symm
    · simp [h1, h2]
      intro h _
      exact h.symm

theorem check_profile_zero_iff (env : Env) (self : TVHVAContext) (profile : VAProfile)
    (w wn : World) :
    tvhva_context_check_profile env self profile w = (0, wn) ↔
      0 < env.vaMaxNumEntrypoints w.now ∧
      env.calloc (w.now + 1) = true ∧
      (∃ eps, env.vaQueryConfigEntrypoints (w.now + 2) profile = some eps ∧
        self.entrypoint ∈ eps) ∧
      wn = ((w.log Event.vaMaxNumEntrypoints).log Event.calloc).log
        (Event.vaQueryConfigEntrypoints profile) := by
  unfold tvhva_context_check_profile
  simp only [World.now, World.log, List.length_append, List.length_singleton,
    check_profile_scan_eq]
  by_cases h2 : 0 < env.vaMaxNumEntrypoints w.trace.length
  · by_cases h3 : env.calloc (w.trace.length + 1) = true
    · cases h4 : env.vaQueryConfigEntrypoints (w.trace.length + 1 + 1) profile with
      | none =>
        have h4b : env.vaQueryConfigEntrypoints (w.trace.length + 2) profile = none := h4
        simp [h2, h3, h4, h4b]
      | some eps =>
        have h4b : env.vaQueryConfigEntrypoints (w.trace.length + 2) profile = some eps := h4
        by_cases h5 : self.entrypoint ∈ eps
        · simp [h2, h3, h4, h4b, h5]
          exact eq_comm
        · simp [h2, h3, h4, h4b, h5]
    · have h3b : env.calloc (w.trace.length + 1) = false := by simpa using h3
      simp [h2, h3b]
  · simp [h2]

theorem config_zero_iff (env : Env) (self : TVHVAContext) (profile : VAProfile)
    (format : Nat) (w : World) (selfc : TVHVAContext) (wc : World) :
    tvhva_context_config env self profile format w = (0, selfc, wc) ↔
      ∃ value cfg,
        env.vaGetConfigAttributes w.now profile self.entrypoint = some value ∧
        value ≠ VA_ATTRIB_NOT_SUPPORTED ∧ value &&& format ≠ 0 ∧
        env.vaCreateConfig (w.now + 1) profile self.entrypoint format = some cfg ∧
        selfc = { self with config_id := cfg } ∧
        wc = (w.log (Event.vaGetConfigAttributes profile self.entrypoint)).log
          (Event.vaCreateConfig profile self.entrypoint format) := by
  unfold tvhva_context_config
  simp only [World.now, World.log, List.length_append, List.length_singleton]
  cases h1 : env.vaGetConfigAttributes w.trace.length profile self.entrypoint with
  | none => simp
  | some value =>
    by_cases h2 : value = VA_ATTRIB_NOT_SUPPORTED ∨ value &&& format = 0
    · simp only [h2, if_true]
      simp
      intro a b
      rcases h2 with h2 | h2
      · exact absurd h2 a
      · exact absurd h2 b
    · simp only [h2, if_false]
      push_neg at h2
      cases h3 : env.vaCreateConfig (w.trace.length + 1) profile self.entrypoint format with
      | none => simp
      | some cfg =>
        simp [h2.1, h2.2]
        constructor
        · rintro ⟨a, b⟩
          exact ⟨a.symm, b.symm⟩
        · rintro ⟨a, b⟩
          exact ⟨a.symm, b.symm⟩

theorem check_constraints_zero_iff (env : Env) (self : TVHVAContext) (w : World)
    (selfk : TVHVAContext) (wk : World) :
    tvhva_context_check_constraints env self w = (0, selfk, wk) ↔
      env.av_hwdevice_hwconfig_alloc w.now = true ∧
      ∃ hc, env.av_hwdevice_get_hwframe_constraints (w.now + 1) self.config_id = some hc ∧
        selfk = tvhva_context_check_constraints_format env self hc.valid_sw_formats ∧
        selfk.sw_format ≠ AVPixelFormat.NONE ∧
        hc.min_width ≤ selfk.width ∧ hc.min_height ≤ selfk.height ∧
        selfk.width ≤ hc.max_width ∧ selfk.height ≤ hc.max_height ∧
        wk = (w.log Event.av_hwdevice_hwconfig_alloc).log
          (Event.av_hwdevice_get_hwframe_constraints self.config_id) := by
  unfold tvhva_context_check_constraints
  simp only [World.now, World.log, List.length_append, List.length_singleton]
  by_cases h1 : env.av_hwdevice_hwconfig_alloc w.trace.length = true
  · cases h2 : env.av_hwdevice_get_hwframe_constraints (w.trace.length + 1)
        self.config_id with
    | none => simp [h1, AVERROR_ENOMEM]
    | some hc =>
      simp only [h1, Bool.true_eq_false, if_false, true_and]
      by_cases h3 : (tvhva_context_check_constraints_format env self
          hc.valid_sw_formats).sw_format = AVPixelFormat.NONE
      · simp [h3, AVERROR_EINVAL]
        intro a b
        subst a
        exact absurd h3 b
      · by_cases h4 :
            (tvhva_context_check_constraints_format env self hc.valid_sw_formats).width <
              hc.min_width ∨
            (tvhva_context_check_constraints_format env self hc.valid_sw_formats).height <
              hc.min_height ∨
            (tvhva_context_check_constraints_format env self hc.valid_sw_formats).width >
              hc.max_width ∨
            (tvhva_context_check_constraints_format env self hc.valid_sw_formats).height >
              hc.max_height
        · simp [h3, h4, AVERROR_EINVAL]
          intro a _ c d e f
          subst a
          omega
        · simp [h3, h4]
          constructor
          · rintro ⟨a, b⟩
            subst a
            push_neg at h4
            exact ⟨rfl, h3, by omega, by omega, by omega, by omega, b.symm⟩
          · rintro ⟨a, _, _, _, _, _, b⟩
            exact ⟨a.symm, b.symm⟩
  · have h1b : env.av_hwdevice_hwconfig_alloc w.trace.length = false := by simpa using h1
    simp [h1b, AVERROR_ENOMEM]

theorem display_some_iff (env : Env) (self : TVHVAContext) (w : World) (disp : Nat)
    (selfd : TVHVAContext) (wd : World) :
    tvhva_context_display env self w = (some disp, selfd, wd) ↔
      ∃ wi, (if w.hw_device_ref = none then tvhva_init env w = (0, wi) else wi = w) ∧
        wi.hw_device_ref = some disp ∧
        env.av_buffer_ref wi.now = true ∧
        selfd = { self with hw_device_ref := some disp } ∧
        wd = (av_buffer_ref_device env disp wi).2 := by
  unfold tvhva_context_display
  by_cases hreg : w.hw_device_ref = none
  · simp only [hreg, if_true]
    rcases hi : tvhva_init env w with ⟨r, wi0⟩
    by_cases hr : r = 0
    · subst hr
      cases hreg0 : wi0.hw_device_ref with
      | none =>
        simp [hreg0]
      | some buf =>
        by_cases hb : env.av_buffer_ref wi0.now = true
        · simp [hreg0, av_buffer_ref_device, hb]
          intro e
          subst e
          constructor <;> rintro ⟨a, b⟩ <;> exact ⟨a.symm, b.symm⟩
        · have hb2 : env.av_buffer_ref wi0.now = false := by simpa using hb
          simp [hreg0, av_buffer_ref_device, hb2]
    · simp [hr]
  · simp only [hreg, if_false]
    cases hreg0 : w.hw_device_ref with
    | none => exact absurd hreg0 hreg
    | some buf =>
      by_cases hb : env.av_buffer_ref w.now = true
      · simp [av_buffer_ref_device, hb]
        rw [hreg0]
        simp only [Option.some.injEq, and_congr_right_iff]
        intro e
        subst e
        constructor <;> rintro ⟨a, b⟩ <;> exact ⟨a.symm, b.symm⟩
      · have hb2 : env.av_buffer_ref w.now = false := by simpa using hb
        simp [av_buffer_ref_device, hb2]

theorem ref_device_now (env : Env) (buf : Nat) (w : World) :
    (av_buffer_ref_device env buf w).2.now = w.now + 1 := by
  unfold av_buffer_ref_device
  dsimp only
  split_ifs <;> simp [World.now, World.log]

theorem check_constraints_format_congr (env : Env) (self other : TVHVAContext)
    (l : List AVPixelFormat) (hio : other.io_format = self.io_format)
    (hsw : other.sw_format = self.sw_format) :
    (tvhva_context_check_constraints_format env other l).sw_format =
      (tvhva_context_check_constraints_format env self l).sw_format := by
  obtain ⟨display, config_id, context_id, entrypoint, io_format, sw_format, width, height,
    hw_device_ref, hw_frames_ref⟩ := self
  obtain ⟨display2, config_id2, context_id2, entrypoint2, io_format2, sw_format2, width2,
    height2, hw_device_ref2, hw_frames_ref2⟩ := other
  dsimp only at hio hsw
  subst hio; subst hsw
  unfold tvhva_context_check_constraints_format
  by_cases hio : io_format2 = AVPixelFormat.NONE
  · simp [hio]
  · cases he : tvhva_context_check_constraints_exact io_format2 l with
    | some f =>
      by_cases hf : f = AVPixelFormat.NONE
      · cases hd : env.av_pix_fmt_desc_get io_format2 with
        | none => simp [hio, hf, hd]
        | some d =>
          cases hs : tvhva_context_check_constraints_similar env d l <;>
            simp [hio, hf, hs, hd]
      · simp [hio, hf]
    | none =>
      by_cases hsw : sw_format2 = AVPixelFormat.NONE
      · cases hd : env.av_pix_fmt_desc_get io_format2 with
        | none => simp [hio, hsw, hd]
        | some d =>
          cases hs : tvhva_context_check_constraints_similar env d l <;>
            simp [hio, hsw, hs, hd]
      · simp [hio, hsw]

/-- A sequence with a second teardown of the same decode session leaves
defined behaviour. -/
theorem run_defined_double_close :
    (Machine.mk [example_avctx] World.init).run_defined example_env
      [Call.decode_setup 0, Call.decode_close 0, Call.decode_close 0] = none := by
  decide

/-! ## The claims -/

/-- Claim C1: the candidate profile of `tvhva_context_profile` is the table of
the specification, a function of the codec id and the profile hint alone; no
listed candidate is `VAProfileNone`; for a pair the table does not list the
function returns `VAProfileNone` without asking the device anything; and the
function never returns anything but `VAProfileNone` or the candidate. -/
theorem C1_profile_table (env : Env) (avctx : AVCodecContext) (w : World) :
    tvhva_context_profile_check avctx.codec_id avctx.profile =
      (spec_profile_candidate avctx.codec_id avctx.profile).getD VAProfile.None ∧
    (∀ p, spec_profile_candidate avctx.codec_id avctx.profile = some p →
      p ≠ VAProfile.None) ∧
    (spec_profile_candidate avctx.codec_id avctx.profile = none →
      tvhva_context_profile env avctx w = (VAProfile.None, w)) ∧
    ((tvhva_context_profile env avctx w).1 = VAProfile.None ∨
      (tvhva_context_profile env avctx w).1 =
        (spec_profile_candidate avctx.codec_id avctx.profile).getD VAProfile.None) := by
  have h1 := profile_check_eq_spec avctx.codec_id avctx.profile
  refine ⟨h1, fun p hp => spec_profile_candidate_ne_none _ _ p hp, ?_, ?_⟩
  · intro hn
    apply profile_none_of_check
    rw [h1, hn]
    rfl
  · rw [← h1]
    exact profile_result env avctx w

/-- Witness for C1: H.264 with the unlisted hint 244 (High 4:4:4 Predictive)
has no candidate and yields `VAProfileNone` on a device that supports H.264. -/
theorem C1_profile_table_witness :
    spec_profile_candidate AVCodecID.H264 244 = none ∧
    tvhva_context_profile example_env { example_avctx with profile := 244 } World.init =
      (VAProfile.None, World.init) :=
  ⟨by decide,
    (C1_profile_table example_env { example_avctx with profile := 244 } World.init).2.2.1
      (by decide)⟩

/-- Claim C2: on a device whose profile and entry-point queries succeed, the
profile negotiation of `tvhva_context_setup` for a pair with table candidate
`p` succeeds exactly when `p` is in the reported profile list and the entry
point of the session is in the entry-point list reported for `p`; the
selected profile is then `p`, and entry points are queried for no other
profile. -/
theorem C2_negotiation (env : Env) (self : TVHVAContext) (avctx : AVCodecContext)
    (w : World) (p : VAProfile) (profiles : List VAProfile)
    (entrypoints : List VAEntrypoint)
    (hp : tvhva_context_profile_check avctx.codec_id avctx.profile = p)
    (hne : p ≠ VAProfile.None)
    (hmaxp : ∀ t, 0 < env.vaMaxNumProfiles t)
    (hcalloc : ∀ t, env.calloc t = true)
    (hprofiles : ∀ t, env.vaQueryConfigProfiles t = some profiles)
    (hmaxe : ∀ t, 0 < env.vaMaxNumEntrypoints t)
    (hentry : ∀ t, env.vaQueryConfigEntrypoints t p = some entrypoints) :
    ((tvhva_context_setup_profile env self avctx w).1 ≠ none ↔
        p ∈ profiles ∧ self.entrypoint ∈ entrypoints) ∧
      ((tvhva_context_setup_profile env self avctx w).1 ≠ none →
        (tvhva_context_setup_profile env self avctx w).1 = some p) ∧
      (∀ q, Event.vaQueryConfigEntrypoints q ∈
          (tvhva_context_setup_profile env self avctx w).2.since w → q = p) := by
  have hprof : ∀ w0, tvhva_context_profile env avctx w0 =
      (if p ∈ profiles then p else VAProfile.None,
        ((w0.log Event.vaMaxNumProfiles).log Event.calloc).log Event.vaQueryConfigProfiles) := by
    intro w0
    simp [tvhva_context_profile, hp, hne, hmaxp, hcalloc, hprofiles, profile_scan_eq]
  have hchk : ∀ w0, tvhva_context_check_profile env self p w0 =
      (if self.entrypoint ∈ entrypoints then 0 else -1,
        ((w0.log Event.vaMaxNumEntrypoints).log Event.calloc).log
          (Event.vaQueryConfigEntrypoints p)) := by
    intro w0
    simp [tvhva_context_check_profile, hmaxe, hcalloc, hentry, check_profile_scan_eq]
  by_cases h1 : p ∈ profiles
  · by_cases h2 : self.entrypoint ∈ entrypoints
    · simp [tvhva_context_setup_profile, hprof, hchk, h1, h2, hne, World.since, World.log]
    · simp [tvhva_context_setup_profile, hprof, hchk, h1, h2, hne, World.since, World.log]
  · simp [tvhva_context_setup_profile, hprof, hchk, h1, hne, World.since, World.log]

/-- Witness for C2: H.264 High decode on the example device negotiates
`VAProfileH264High`. -/
theorem C2_negotiation_witness :
    (tvhva_context_setup_profile example_env
      (tvhva_context_create_self example_avctx VAEntrypoint.VLD) example_avctx
      World.init).1 = some VAProfile.H264High :=
  have h := C2_negotiation example_env
    (tvhva_context_create_self example_avctx VAEntrypoint.VLD) example_avctx World.init
    VAProfile.H264High [VAProfile.H264Main, VAProfile.H264High]
    [VAEntrypoint.VLD, VAEntrypoint.EncSlice] (by decide) (by decide)
    (fun _ => by show (0 : Int) < 16; decide) (fun _ => rfl) (fun _ => rfl)
    (fun _ => by show (0 : Int) < 8; decide) (fun _ => rfl)
  h.2.1 (h.1.mpr ⟨by decide, by decide⟩)

/-- Claim C3: when the desired format is not `AV_PIX_FMT_NONE` and occurs in
the list of the device, `tvhva_context_check_constraints` sets `sw_format` to
the desired format itself, whatever precedes it in the list. -/
theorem C3_exact_match (env : Env) (self : TVHVAContext) (w : World)
    (c : AVHWFramesConstraints)
    (hio : self.io_format ≠ AVPixelFormat.NONE)
    (hmem : self.io_format ∈ listed_sw_formats c.valid_sw_formats)
    (halloc : env.av_hwdevice_hwconfig_alloc w.now = true)
    (hc : env.av_hwdevice_get_hwframe_constraints
      (w.log Event.av_hwdevice_hwconfig_alloc).now self.config_id = some c) :
    (tvhva_context_check_constraints env self w).2.1.sw_format = self.io_format := by
  have hf : (tvhva_context_check_constraints_format env self c.valid_sw_formats).sw_format
      = self.io_format := by
    simp [tvhva_context_check_constraints_format, hio, check_constraints_exact_eq, hmem]
  have hf2 : (tvhva_context_check_constraints_format env self c.valid_sw_formats).sw_format
      ≠ AVPixelFormat.NONE := by rw [hf]; exact hio
  simp only [tvhva_context_check_constraints, halloc, hc]
  simp only [hf2, if_false, Bool.true_eq_false]
  split_ifs <;> exact hf

/-- Witness for C3: the example device lists NV21 before NV12, both three
components with 4:2:0 chroma; the desired NV12 is resolved to NV12. -/
theorem C3_exact_match_witness :
    (tvhva_context_check_constraints example_env
      (tvhva_context_create_self example_avctx VAEntrypoint.VLD) World.init).2.1.sw_format =
      AVPixelFormat.NV12 :=
  C3_exact_match example_env (tvhva_context_create_self example_avctx VAEntrypoint.VLD)
    World.init
    { valid_sw_formats := [AVPixelFormat.NV21, AVPixelFormat.NV12, AVPixelFormat.NONE],
      min_width := 16, min_height := 16, max_width := 4096, max_height := 4096 }
    (by decide) (by decide) rfl rfl

/-- Claim C4: when the desired format does not occur in the list of the
device, `tvhva_context_check_constraints`, entered with `sw_format` still
`AV_PIX_FMT_NONE` as `tvhva_context_create` leaves it, sets `sw_format` to the
first listed format with the component count and chroma subsampling of the
desired format; when there is none it returns `AVERROR(EINVAL)`, which is not
zero, and `sw_format` stays `AV_PIX_FMT_NONE`. -/
theorem C4_structural_match (env : Env) (self : TVHVAContext) (w : World)
    (c : AVHWFramesConstraints)
    (hnone : env.av_pix_fmt_desc_get AVPixelFormat.NONE = none)
    (hsw : self.sw_format = AVPixelFormat.NONE)
    (hmem : self.io_format ∉ listed_sw_formats c.valid_sw_formats)
    (halloc : env.av_hwdevice_hwconfig_alloc w.now = true)
    (hc : env.av_hwdevice_get_hwframe_constraints
      (w.log Event.av_hwdevice_hwconfig_alloc).now self.config_id = some c) :
    match (listed_sw_formats c.valid_sw_formats).find? (same_layout env self.io_format) with
    | some f => (tvhva_context_check_constraints env self w).2.1.sw_format = f
    | none =>
      (tvhva_context_check_constraints env self w).1 = AVERROR_EINVAL ∧
      (tvhva_context_check_constraints env self w).1 ≠ 0 ∧
      (tvhva_context_check_constraints env self w).2.1.sw_format = AVPixelFormat.NONE := by
  have hf := check_constraints_format_similar env self c.valid_sw_formats hnone hsw hmem
  cases hfind : (listed_sw_formats c.valid_sw_formats).find?
      (same_layout env self.io_format) with
  | none =>
    rw [hfind] at hf
    simp only [Option.getD_none] at hf
    simp [tvhva_context_check_constraints, halloc, hc, hf]
  | some f =>
    rw [hfind] at hf
    simp only [Option.getD_some] at hf
    have hne : f ≠ AVPixelFormat.NONE :=
      listed_ne_none c.valid_sw_formats f (List.mem_of_find?_eq_some hfind)
    simp only [tvhva_context_check_constraints, halloc, hc]
    simp only [hf, hne, if_false, Bool.true_eq_false]
    split_ifs <;> exact hf

/-- Witness for C4: planar YUV420P is not in the list of the example device
and is resolved to NV21, the first listed format of the same layout. -/
theorem C4_structural_match_witness :
    (tvhva_context_check_constraints example_env
      { tvhva_context_create_self example_avctx VAEntrypoint.VLD with
        io_format := AVPixelFormat.YUV420P } World.init).2.1.sw_format =
      AVPixelFormat.NV21 :=
  C4_structural_match example_env
    { tvhva_context_create_self example_avctx VAEntrypoint.VLD with
      io_format := AVPixelFormat.YUV420P } World.init
    { valid_sw_formats := [AVPixelFormat.NV21, AVPixelFormat.NV12, AVPixelFormat.NONE],
      min_width := 16, min_height := 16, max_width := 4096, max_height := 4096 }
    rfl rfl (by decide) rfl rfl

/-- Claim C5: once the native format is resolved, the size check of
`tvhva_context_check_constraints` succeeds exactly when the width and the
height lie within the inclusive bounds of the device, and a failure is
`AVERROR(EINVAL)`. -/
theorem C5_size_bounds (env : Env) (self : TVHVAContext) (w : World)
    (c : AVHWFramesConstraints)
    (halloc : env.av_hwdevice_hwconfig_alloc w.now = true)
    (hc : env.av_hwdevice_get_hwframe_constraints
      (w.log Event.av_hwdevice_hwconfig_alloc).now self.config_id = some c)
    (hres : (tvhva_context_check_constraints env self w).2.1.sw_format ≠
      AVPixelFormat.NONE) :
    ((tvhva_context_check_constraints env self w).1 = 0 ↔
      c.min_width ≤ self.width ∧ self.width ≤ c.max_width ∧
      c.min_height ≤ self.height ∧ self.height ≤ c.max_height) ∧
    ((tvhva_context_check_constraints env self w).1 ≠ 0 →
      (tvhva_context_check_constraints env self w).1 = AVERROR_EINVAL) := by
  obtain ⟨hw, hh⟩ := check_constraints_format_width env self c.valid_sw_formats
  simp only [tvhva_context_check_constraints, halloc, hc] at hres ⊢
  simp only [Bool.true_eq_false, if_false] at hres ⊢
  by_cases hs : (tvhva_context_check_constraints_format env self
      c.valid_sw_formats).sw_format = AVPixelFormat.NONE
  · simp [hs] at hres
  · simp only [hs, if_false, hw, hh]
    split_ifs with hb
    · simp
      omega
    · simp
      omega

/-- Witness for C5: on the example device, whose widths range from 16 to 4096,
width 4096 with height 16 is accepted and width 4097 is rejected. -/
theorem C5_size_bounds_witness :
    (tvhva_context_check_constraints example_env
      { tvhva_context_create_self example_avctx VAEntrypoint.VLD with
        width := 4096, height := 16 } World.init).1 = 0 ∧
    (tvhva_context_check_constraints example_env
      { tvhva_context_create_self example_avctx VAEntrypoint.VLD with
        width := 4097, height := 16 } World.init).1 = AVERROR_EINVAL :=
  ⟨(C5_size_bounds example_env
      { tvhva_context_create_self example_avctx VAEntrypoint.VLD with
        width := 4096, height := 16 } World.init
      { valid_sw_formats := [AVPixelFormat.NV21, AVPixelFormat.NV12, AVPixelFormat.NONE],
        min_width := 16, min_height := 16, max_width := 4096, max_height := 4096 }
      rfl rfl (by decide)).1.mpr (by decide),
    by decide⟩

/-- Counterexample to C6 as stated: NV21 is a 4:2:0 format, yet
`tvhva_get_format` has no case for it, so the format class is 0 and not
`VA_RT_FORMAT_YUV420`, and the decode setup fails on the example device, which
lists NV21 among its native formats. -/
theorem C6_counterexample :
    is_yuv420 AVPixelFormat.NV21 ∧
    tvhva_get_format (tvhva_context_create_self
      { example_avctx with sw_pix_fmt := AVPixelFormat.NV21 } VAEntrypoint.VLD).io_format = 0 ∧
    tvhva_get_format (tvhva_context_create_self
      { example_avctx with sw_pix_fmt := AVPixelFormat.NV21 } VAEntrypoint.VLD).io_format ≠
        VA_RT_FORMAT_YUV420 ∧
    (vaapi_decode_setup_context example_env
      { example_avctx with sw_pix_fmt := AVPixelFormat.NV21 } World.init).1 = -1 := by
  refine ⟨rfl, rfl, ?_, rfl⟩
  decide

/-- Claim C6, amended: the format class of a codec context is YUV420 exactly
for YUV420P and NV12, YUV422 exactly for YUV422P, UYVY422 and YUYV422, YUV400
exactly for GRAY8 and 0 for every other format; when it is 0 the setup fails
and makes no create-config request. -/
theorem C6_format_class (env : Env) (avctx : AVCodecContext) (entrypoint : VAEntrypoint)
    (w : World) :
    (tvhva_get_format (tvhva_context_create_self avctx entrypoint).io_format =
        VA_RT_FORMAT_YUV420 ↔
      avctx.sw_pix_fmt = AVPixelFormat.YUV420P ∨ avctx.sw_pix_fmt = AVPixelFormat.NV12) ∧
    (tvhva_get_format (tvhva_context_create_self avctx entrypoint).io_format =
        VA_RT_FORMAT_YUV422 ↔
      avctx.sw_pix_fmt = AVPixelFormat.YUV422P ∨ avctx.sw_pix_fmt = AVPixelFormat.UYVY422 ∨
        avctx.sw_pix_fmt = AVPixelFormat.YUYV422) ∧
    (tvhva_get_format (tvhva_context_create_self avctx entrypoint).io_format =
        VA_RT_FORMAT_YUV400 ↔ avctx.sw_pix_fmt = AVPixelFormat.GRAY8) ∧
    (tvhva_get_format (tvhva_context_create_self avctx entrypoint).io_format = 0 ↔
      ¬ (avctx.sw_pix_fmt = AVPixelFormat.YUV420P ∨ avctx.sw_pix_fmt = AVPixelFormat.NV12 ∨
        avctx.sw_pix_fmt = AVPixelFormat.YUV422P ∨ avctx.sw_pix_fmt = AVPixelFormat.UYVY422 ∨
        avctx.sw_pix_fmt = AVPixelFormat.YUYV422 ∨ avctx.sw_pix_fmt = AVPixelFormat.GRAY8)) ∧
    (tvhva_get_format (tvhva_context_create_self avctx entrypoint).io_format = 0 →
      (tvhva_context_setup env (tvhva_context_create_self avctx entrypoint) avctx w).1 ≠ 0 ∧
      ∀ e ∈ (tvhva_context_setup env (tvhva_context_create_self avctx entrypoint)
          avctx w).2.2.2.since w, e.isCreateConfig = false) := by
  refine ⟨?_, ?_, ?_, ?_, ?_⟩
  · cases h : avctx.sw_pix_fmt <;> simp [tvhva_context_create_self, tvhva_get_format, h]
  · cases h : avctx.sw_pix_fmt <;> simp [tvhva_context_create_self, tvhva_get_format, h]
  · cases h : avctx.sw_pix_fmt <;> simp [tvhva_context_create_self, tvhva_get_format, h]
  · cases h : avctx.sw_pix_fmt <;> simp [tvhva_context_create_self, tvhva_get_format, h]
  · intro h0
    obtain ⟨hr, evs, ht, hq⟩ := setup_head_trace env
      (tvhva_context_create_self avctx entrypoint) avctx w h0
    refine ⟨by rw [hr]; decide, ?_⟩
    rw [since_append w evs _ ht]
    intro e he
    rcases hq e he with h1 | h1 <;> cases e <;> simp_all [Event.isAcquire, Event.isQuery,
      Event.isCreateConfig]

/-- Witness for C6: the setup of an NV21 codec context fails on the example
device. -/
theorem C6_format_class_witness :
    (tvhva_context_setup example_env
      (tvhva_context_create_self { example_avctx with sw_pix_fmt := AVPixelFormat.NV21 }
        VAEntrypoint.VLD)
      { example_avctx with sw_pix_fmt := AVPixelFormat.NV21 } World.init).1 ≠ 0 :=
  ((C6_format_class example_env { example_avctx with sw_pix_fmt := AVPixelFormat.NV21 }
    VAEntrypoint.VLD World.init).2.2.2.2 (by decide)).1

/-- Claim C7: `tvhva_context_config` returns -1 after the attribute query
alone when the query fails, reports `VA_ATTRIB_NOT_SUPPORTED`, or reports a
value that has no bit in common with the requested format class; otherwise it
makes exactly one create-config request, with the requested format class as
attribute value, and returns 0 exactly when that request succeeds. -/
theorem C7_config (env : Env) (self : TVHVAContext) (profile : VAProfile) (format : Nat)
    (w : World) :
    ((env.vaGetConfigAttributes w.now profile self.entrypoint = none ∨
        env.vaGetConfigAttributes w.now profile self.entrypoint =
          some VA_ATTRIB_NOT_SUPPORTED ∨
        ∃ value, env.vaGetConfigAttributes w.now profile self.entrypoint = some value ∧
          value &&& format = 0) →
      (tvhva_context_config env self profile format w).1 = -1 ∧
      (tvhva_context_config env self profile format w).2.2.since w =
        [Event.vaGetConfigAttributes profile self.entrypoint]) ∧
    (¬ (env.vaGetConfigAttributes w.now profile self.entrypoint = none ∨
        env.vaGetConfigAttributes w.now profile self.entrypoint =
          some VA_ATTRIB_NOT_SUPPORTED ∨
        ∃ value, env.vaGetConfigAttributes w.now profile self.entrypoint = some value ∧
          value &&& format = 0) →
      (tvhva_context_config env self profile format w).2.2.since w =
        [Event.vaGetConfigAttributes profile self.entrypoint,
          Event.vaCreateConfig profile self.entrypoint format] ∧
      ((tvhva_context_config env self profile format w).1 = 0 ↔
        env.vaCreateConfig (w.log (Event.vaGetConfigAttributes profile self.entrypoint)).now
          profile self.entrypoint format ≠ none) ∧
      ((tvhva_context_config env self profile format w).1 ≠ 0 →
        (tvhva_context_config env self profile format w).1 = -1)) := by
  cases hq : env.vaGetConfigAttributes w.now profile self.entrypoint with
  | none => simp [tvhva_context_config, hq, World.since, World.log]
  | some value =>
    by_cases hv : value = VA_ATTRIB_NOT_SUPPORTED
    · simp [tvhva_context_config, hq, hv, World.since, World.log]
    · by_cases ha : value &&& format = 0
      · simp [tvhva_context_config, hq, hv, ha, World.since, World.log]
      · cases hc : env.vaCreateConfig
            (w.log (Event.vaGetConfigAttributes profile self.entrypoint)).now
            profile self.entrypoint format with
        | none =>
          simp only [tvhva_context_config, hq, hv, ha, hc]
          simp [World.since, World.log, hv, ha]
        | some id =>
          simp only [tvhva_context_config, hq, hv, ha, hc]
          simp [World.since, World.log, hv, ha]

/-- Witness for C7: a device that reports only the YUV422 class is asked for
YUV420; the attribute query is the only call made. -/
theorem C7_config_witness :
    (tvhva_context_config
      { example_env with vaGetConfigAttributes := fun _ _ _ => some VA_RT_FORMAT_YUV422 }
      (tvhva_context_create_self example_avctx VAEntrypoint.VLD) VAProfile.H264High
      VA_RT_FORMAT_YUV420 World.init).2.2.since World.init =
      [Event.vaGetConfigAttributes VAProfile.H264High VAEntrypoint.VLD] :=
  ((C7_config
    { example_env with vaGetConfigAttributes := fun _ _ _ => some VA_RT_FORMAT_YUV422 }
    (tvhva_context_create_self example_avctx VAEntrypoint.VLD) VAProfile.H264High
    VA_RT_FORMAT_YUV420 World.init).1
    (Or.inr (Or.inr ⟨VA_RT_FORMAT_YUV422, rfl, by decide⟩))).2

/-- Claim C8: `tvhva_context_create` returns a session exactly when `calloc`
and every stage of `tvhva_context_setup` succeeded, stage by stage in terms of
the calls made.  Device reference: the registry holds a device, or
`tvhva_init` opens one, and `av_buffer_ref` gives the session its reference.
Profile and entry point: the profile the source maps the codec context to is
not `VAProfileNone` and is among the profiles the device reports, and the
entry point of the session is among those the device reports for it.  Format
class: `tvhva_get_format` is not 0.  Config: the RT-format attribute is
supported and shares a bit with the format class, and `vaCreateConfig`
succeeds.  Constraints: they are obtained, a native format is resolved and the
coded size lies within the bounds.  Frame pool: it is allocated and
initialised with that format and size.  Execution context, for decode:
`vaCreateContext` succeeds.  Last, `av_buffer_ref` gives the codec context its
reference to the pool.  The session returned is live and holds a display, a
device reference, a valid config id, a frame pool, a native format other than
`AV_PIX_FMT_NONE` and, for decode, a valid context id; and
`vaapi_decode_setup_context` returns -1 with a null `hwaccel_context` when no
session is returned, 0 with the session otherwise.  The ids a successful
`vaCreateConfig` or `vaCreateContext` writes are taken to differ from
`VA_INVALID_ID`. -/
theorem C8_all_or_nothing (env : Env) (avctx : AVCodecContext) (entrypoint : VAEntrypoint)
    (w : World)
    (hcfg : ∀ t p e f id, env.vaCreateConfig t p e f = some id → id ≠ VA_INVALID_ID)
    (hctx : ∀ t c x y id, env.vaCreateContext t c x y = some id → id ≠ VA_INVALID_ID) :
    ((tvhva_context_create env avctx entrypoint w).1 ≠ none ↔
      env.calloc w.now = true ∧
      ∃ (wi : World) (disp : Nat) (ps : List VAProfile) (eps : List VAEntrypoint)
        (value cfg : Nat) (hc : AVHWFramesConstraints),
        (if w.hw_device_ref = none then
          tvhva_init env (tvhva_context_create_world avctx entrypoint w) = (0, wi)
          else wi = tvhva_context_create_world avctx entrypoint w) ∧
        wi.hw_device_ref = some disp ∧
        env.av_buffer_ref wi.now = true ∧
        tvhva_context_profile_check avctx.codec_id avctx.profile ≠ VAProfile.None ∧
        0 < env.vaMaxNumProfiles (wi.now + 1) ∧
        env.calloc (wi.now + 2) = true ∧
        env.vaQueryConfigProfiles (wi.now + 3) = some ps ∧
        tvhva_context_profile_check avctx.codec_id avctx.profile ∈ ps ∧
        0 < env.vaMaxNumEntrypoints (wi.now + 4) ∧
        env.calloc (wi.now + 5) = true ∧
        env.vaQueryConfigEntrypoints (wi.now + 6)
          (tvhva_context_profile_check avctx.codec_id avctx.profile) = some eps ∧
        entrypoint ∈ eps ∧
        tvhva_get_format (tvhva_context_create_self avctx entrypoint).io_format ≠ 0 ∧
        env.vaGetConfigAttributes (wi.now + 7)
          (tvhva_context_profile_check avctx.codec_id avctx.profile) entrypoint =
          some value ∧
        value ≠ VA_ATTRIB_NOT_SUPPORTED ∧
        value &&& tvhva_get_format (tvhva_context_create_self avctx entrypoint).io_format ≠
          0 ∧
        env.vaCreateConfig (wi.now + 8)
          (tvhva_context_profile_check avctx.codec_id avctx.profile) entrypoint
          (tvhva_get_format (tvhva_context_create_self avctx entrypoint).io_format) =
          some cfg ∧
        env.av_hwdevice_hwconfig_alloc (wi.now + 9) = true ∧
        env.av_hwdevice_get_hwframe_constraints (wi.now + 10) cfg = some hc ∧
        (tvhva_context_check_constraints_format env
          (tvhva_context_create_self avctx entrypoint) hc.valid_sw_formats).sw_format ≠
          AVPixelFormat.NONE ∧
        hc.min_width ≤ avctx.coded_width ∧ hc.min_height ≤ avctx.coded_height ∧
        avctx.coded_width ≤ hc.max_width ∧ avctx.coded_height ≤ hc.max_height ∧
        env.av_hwframe_ctx_alloc (wi.now + 11) = true ∧
        env.av_hwframe_ctx_init (wi.now + 12)
          (tvhva_context_check_constraints_format env
            (tvhva_context_create_self avctx entrypoint) hc.valid_sw_formats).sw_format
          avctx.coded_width avctx.coded_height 32 = true ∧
        (entrypoint = VAEntrypoint.VLD →
          ∃ id, env.vaCreateContext (wi.now + 13) cfg avctx.coded_width
            avctx.coded_height = some id) ∧
        env.av_buffer_ref (wi.now + (if entrypoint = VAEntrypoint.VLD then 14 else 13)) =
          true) ∧
    (∀ ptr, (tvhva_context_create env avctx entrypoint w).1 = some ptr →
      ∃ cell, (tvhva_context_create env avctx entrypoint w).2.2.heap[ptr]? = some cell ∧
        cell.freed = false ∧
        cell.val.display ≠ none ∧
        cell.val.hw_device_ref ≠ none ∧
        cell.val.config_id ≠ VA_INVALID_ID ∧
        cell.val.hw_frames_ref ≠ none ∧
        cell.val.sw_format ≠ AVPixelFormat.NONE ∧
        (entrypoint = VAEntrypoint.VLD → cell.val.context_id ≠ VA_INVALID_ID)) ∧
    ((tvhva_context_create env avctx VAEntrypoint.VLD w).1 = none →
      (vaapi_decode_setup_context env avctx w).1 = -1 ∧
      (vaapi_decode_setup_context env avctx w).2.1.hwaccel_context = none) ∧
    (∀ ptr, (tvhva_context_create env avctx VAEntrypoint.VLD w).1 = some ptr →
      (vaapi_decode_setup_context env avctx w).1 = 0 ∧
      (vaapi_decode_setup_context env avctx w).2.1.hwaccel_context = some ptr) := by
  refine ⟨?_, ?_, ?_, ?_⟩
  · rw [create_iff_stages env avctx entrypoint w]
    constructor
    · rintro ⟨hcal, disp, selfd, wd, profile, wp, wn, selfc, wc, selfk, wk, hd, p1, p2, p3,
        hf, hc, hk, t1, t2, t3, t4⟩
      obtain ⟨wi, d1, d2, d3, hselfd, hwd⟩ := (display_some_iff env _ _ disp selfd wd).mp hd
      obtain ⟨q1, q2, q3, q4, ⟨ps, q5, q6⟩, hwp⟩ :=
        (profile_some_iff env avctx wd profile wp).mp ⟨p1, p2⟩
      obtain ⟨r1, r2, ⟨eps, r3, r4⟩, hwn⟩ :=
        (check_profile_zero_iff env _ profile wp wn).mp p3
      obtain ⟨value, cfg, c1, c2, c3, c4, hselfc, hwc⟩ :=
        (config_zero_iff env _ profile _ wn selfc wc).mp hc
      obtain ⟨k1, hcs, k2, hselfk, k3, k4, k5, k6, k7, hwk⟩ :=
        (check_constraints_zero_iff env selfc wc selfk wk).mp hk
      have n1 : wd.now = wi.now + 1 := by rw [hwd]; exact ref_device_now env disp wi
      have n2 : wp.now = wi.now + 4 := by rw [hwp]; simp only [log_now, n1]
      have n3 : wn.now = wi.now + 7 := by rw [hwn]; simp only [log_now, n2]
      have n4 : wc.now = wi.now + 9 := by rw [hwc]; simp only [log_now, n3]
      have n5 : wk.now = wi.now + 11 := by rw [hwk]; simp only [log_now, n4]
      have e1 : selfd.io_format = (tvhva_context_create_self avctx entrypoint).io_format := by
        rw [hselfd]
      have e2 : selfc.config_id = cfg := by rw [hselfc]
      have hw := check_constraints_format_width env selfc hcs.valid_sw_formats
      rw [← hselfk] at hw
      have e3 : selfk.width = avctx.coded_width := by rw [hw.1, hselfc, hselfd]; rfl
      have e4 : selfk.height = avctx.coded_height := by rw [hw.2, hselfc, hselfd]; rfl
      have e5 : selfk.sw_format = (tvhva_context_check_constraints_format env
          (tvhva_context_create_self avctx entrypoint) hcs.valid_sw_formats).sw_format := by
        rw [hselfk]
        apply check_constraints_format_congr
        · rw [hselfc, hselfd]
        · rw [hselfc, hselfd]
      have e6 : selfk.config_id = cfg := by
        rw [hselfk, check_constraints_format_eq]
        exact e2
      have e7 : ({ selfd with display := some disp } : TVHVAContext).entrypoint =
          entrypoint := by rw [hselfd]; rfl
      rw [n1] at q3 q4 q5
      rw [n2] at r1 r2 r3
      rw [n3] at c1 c4
      rw [n4] at k1 k2
      rw [n5] at t1 t2 t3 t4
      rw [e7] at r4 c1 c4
      rw [e1] at hf c3 c4
      rw [e2] at k2
      rw [e3] at k4 k6 t2 t3
      rw [e4] at k5 k7 t2 t3
      rw [e5] at k3 t2
      rw [e6] at t3
      subst q1
      refine ⟨hcal, wi, disp, ps, eps, value, cfg, hcs, d1, d2, d3, q2, q3, q4, q5, q6, r1,
        r2, r3, r4, hf, c1, c2, c3, c4, k1, k2, k3, k4, k5, k6, k7, t1, t2, t3, ?_⟩
      split_ifs at t4 ⊢ <;> exact t4
    · rintro ⟨hcal, wi, disp, ps, eps, value, cfg, hcs, d1, d2, d3, q2, q3, q4, q5, q6, r1,
        r2, r3, r4, hf, c1, c2, c3, c4, k1, k2, k3, k4, k5, k6, k7, t1, t2, t3, t4⟩
      obtain ⟨wd, hwd⟩ : ∃ wd, wd = (av_buffer_ref_device env disp wi).2 := ⟨_, rfl⟩
      obtain ⟨selfd, hselfd⟩ : ∃ selfd : TVHVAContext, selfd =
        { tvhva_context_create_self avctx entrypoint with hw_device_ref := some disp } :=
        ⟨_, rfl⟩
      obtain ⟨wp, hwp⟩ : ∃ wp, wp = ((wd.log Event.vaMaxNumProfiles).log Event.calloc).log
        Event.vaQueryConfigProfiles := ⟨_, rfl⟩
      obtain ⟨wn, hwn⟩ : ∃ wn, wn = ((wp.log Event.vaMaxNumEntrypoints).log Event.calloc).log
        (Event.vaQueryConfigEntrypoints
          (tvhva_context_profile_check avctx.codec_id avctx.profile)) := ⟨_, rfl⟩
      have e7 : ({ selfd with display := some disp } : TVHVAContext).entrypoint =
          entrypoint := by rw [hselfd]; rfl
      have e1 : selfd.io_format = (tvhva_context_create_self avctx entrypoint).io_format := by
        rw [hselfd]
      obtain ⟨wc, hwc⟩ : ∃ wc, wc = (wn.log (Event.vaGetConfigAttributes
          (tvhva_context_profile_check avctx.codec_id avctx.profile)
          ({ selfd with display := some disp } : TVHVAContext).entrypoint)).log
        (Event.vaCreateConfig (tvhva_context_profile_check avctx.codec_id avctx.profile)
          ({ selfd with display := some disp } : TVHVAContext).entrypoint
          (tvhva_get_format selfd.io_format)) := ⟨_, rfl⟩
      obtain ⟨selfc, hselfc⟩ : ∃ selfc : TVHVAContext, selfc =
        { ({ selfd with display := some disp } : TVHVAContext) with config_id := cfg } :=
        ⟨_, rfl⟩
      obtain ⟨selfk, hselfk⟩ : ∃ selfk : TVHVAContext, selfk =
        tvhva_context_check_constraints_format env selfc hcs.valid_sw_formats := ⟨_, rfl⟩
      obtain ⟨wk, hwk⟩ : ∃ wk, wk = (wc.log Event.av_hwdevice_hwconfig_alloc).log
        (Event.av_hwdevice_get_hwframe_constraints selfc.config_id) := ⟨_, rfl⟩
      have n1 : wd.now = wi.now + 1 := by rw [hwd]; exact ref_device_now env disp wi
      have n2 : wp.now = wi.now + 4 := by rw [hwp]; simp only [log_now, n1]
      have n3 : wn.now = wi.now + 7 := by rw [hwn]; simp only [log_now, n2]
      have n4 : wc.now = wi.now + 9 := by rw [hwc]; simp only [log_now, n3]
      have n5 : wk.now = wi.now + 11 := by rw [hwk]; simp only [log_now, n4]
      have e2 : selfc.config_id = cfg := by rw [hselfc]
      have hw := check_constraints_format_width env selfc hcs.valid_sw_formats
      rw [← hselfk] at hw
      have e3 : selfk.width = avctx.coded_width := by rw [hw.1, hselfc, hselfd]; rfl
      have e4 : selfk.height = avctx.coded_height := by rw [hw.2, hselfc, hselfd]; rfl
      have e5 : selfk.sw_format = (tvhva_context_check_constraints_format env
          (tvhva_context_create_self avctx entrypoint) hcs.valid_sw_formats).sw_format := by
        rw [hselfk]
        apply check_constraints_format_congr
        · rw [hselfc, hselfd]
        · rw [hselfc, hselfd]
      have e6 : selfk.config_id = cfg := by
        rw [hselfk, check_constraints_format_eq]
        exact e2
      have t4b : env.av_buffer_ref
          (wk.now + (if entrypoint = VAEntrypoint.VLD then 3 else 2)) = true := by
        rw [n5]
        split_ifs at t4 ⊢ <;> exact t4
      replace q3 : 0 < env.vaMaxNumProfiles wd.now := by rw [n1]; exact q3
      replace q4 : env.calloc (wd.now + 1) = true := by rw [n1]; exact q4
      replace q5 : env.vaQueryConfigProfiles (wd.now + 2) = some ps := by rw [n1]; exact q5
      replace r1 : 0 < env.vaMaxNumEntrypoints wp.now := by rw [n2]; exact r1
      replace r2 : env.calloc (wp.now + 1) = true := by rw [n2]; exact r2
      replace r3 : env.vaQueryConfigEntrypoints (wp.now + 2)
          (tvhva_context_profile_check avctx.codec_id avctx.profile) = some eps := by
        rw [n2]; exact r3
      replace r4 : ({ selfd with display := some disp } : TVHVAContext).entrypoint ∈ eps := by
        rw [e7]; exact r4
      replace hf : tvhva_get_format selfd.io_format ≠ 0 := by rw [e1]; exact hf
      replace c1 : env.vaGetConfigAttributes wn.now
          (tvhva_context_profile_check avctx.codec_id avctx.profile)
          ({ selfd with display := some disp } : TVHVAContext).entrypoint = some value := by
        rw [n3, e7]; exact c1
      replace c3 : value &&& tvhva_get_format selfd.io_format ≠ 0 := by rw [e1]; exact c3
      replace c4 : env.vaCreateConfig (wn.now + 1)
          (tvhva_context_profile_check avctx.codec_id avctx.profile)
          ({ selfd with display := some disp } : TVHVAContext).entrypoint
          (tvhva_get_format selfd.io_format) = some cfg := by
        rw [n3, e7, e1]; exact c4
      replace k1 : env.av_hwdevice_hwconfig_alloc wc.now = true := by rw [n4]; exact k1
      replace k2 : env.av_hwdevice_get_hwframe_constraints (wc.now + 1) selfc.config_id =
          some hcs := by rw [n4, e2]; exact k2
      replace k3 : selfk.sw_format ≠ AVPixelFormat.NONE := by rw [e5]; exact k3
      replace k4 : hcs.min_width ≤ selfk.width := by rw [e3]; exact k4
      replace k5 : hcs.min_height ≤ selfk.height := by rw [e4]; exact k5
      replace k6 : selfk.width ≤ hcs.max_width := by rw [e3]; exact k6
      replace k7 : selfk.height ≤ hcs.max_height := by rw [e4]; exact k7
      replace t1 : env.av_hwframe_ctx_alloc wk.now = true := by rw [n5]; exact t1
      replace t2 : env.av_hwframe_ctx_init (wk.now + 1) selfk.sw_format selfk.width
          selfk.height 32 = true := by rw [n5, e5, e3, e4]; exact t2
      replace t3 : entrypoint = VAEntrypoint.VLD →
          ∃ id, env.vaCreateContext (wk.now + 2) selfk.config_id selfk.width selfk.height =
            some id := by rw [n5, e6, e3, e4]; exact t3
      have hd := (display_some_iff env (tvhva_context_create_self avctx entrypoint)
        (tvhva_context_create_world avctx entrypoint w) disp selfd wd).mpr
        ⟨wi, d1, d2, d3, hselfd, hwd⟩
      have hp := (profile_some_iff env avctx wd
        (tvhva_context_profile_check avctx.codec_id avctx.profile) wp).mpr
        ⟨rfl, q2, q3, q4, ⟨ps, q5, q6⟩, hwp⟩
      have hcp := (check_profile_zero_iff env { selfd with display := some disp }
        (tvhva_context_profile_check avctx.codec_id avctx.profile) wp wn).mpr
        ⟨r1, r2, ⟨eps, r3, r4⟩, hwn⟩
      have hc := (config_zero_iff env { selfd with display := some disp }
        (tvhva_context_profile_check avctx.codec_id avctx.profile)
        (tvhva_get_format selfd.io_format) wn selfc wc).mpr
        ⟨value, cfg, c1, c2, c3, c4, hselfc, hwc⟩
      have hk := (check_constraints_zero_iff env selfc wc selfk wk).mpr
        ⟨k1, hcs, k2, hselfk, k3, k4, k5, k6, k7, hwk⟩
      exact ⟨hcal, disp, selfd, wd, _, wp, wn, selfc, wc, selfk, wk, hd, hp.1, hp.2, hcp, hf,
        hc, hk, t1, t2, t3, t4b⟩
  · intro ptr h
    obtain ⟨_, hs, hcell⟩ := create_some_cell env avctx entrypoint w ptr h
    obtain ⟨a, b, c, d, e, f, _⟩ := setup_ok env (tvhva_context_create_self avctx entrypoint)
      avctx (tvhva_context_create_world avctx entrypoint w) hcfg hctx hs
    exact ⟨_, hcell, rfl, a, b, c, d, e, f⟩
  · intro h
    simp [vaapi_decode_setup_context, h]
  · intro ptr h
    simp [vaapi_decode_setup_context, h]

/-- Witness for C8: on the example device every stage succeeds for the
example codec context, so its decode session is created, and none is created
for an NV21 codec context. -/
theorem C8_all_or_nothing_witness :
    (tvhva_context_create example_env example_avctx VAEntrypoint.VLD World.init).1 ≠ none ∧
    (tvhva_context_create example_env
      { example_avctx with sw_pix_fmt := AVPixelFormat.NV21 } VAEntrypoint.VLD
      World.init).1 = none :=
  ⟨(C8_all_or_nothing example_env example_avctx VAEntrypoint.VLD World.init
      (fun _ _ _ _ id h => by
        have : id = 7 := by injection h with h; exact h.symm
        subst this; decide)
      (fun _ _ _ _ id h => by
        have : id = 9 := by injection h with h; exact h.symm
        subst this; decide)).1.mpr
      ⟨rfl,
        (tvhva_init example_env
          (tvhva_context_create_world example_avctx VAEntrypoint.VLD World.init)).2,
        0, [VAProfile.H264Main, VAProfile.H264High],
        [VAEntrypoint.VLD, VAEntrypoint.EncSlice], 3, 7,
        AVHWFramesConstraints.mk [AVPixelFormat.NV21, AVPixelFormat.NV12, AVPixelFormat.NONE]
          16 16 4096 4096,
        by decide, rfl, rfl, by decide, by decide, rfl, rfl, by decide, by decide, rfl, rfl,
        by decide, by decide, rfl, by decide, by decide, rfl, rfl, rfl, by decide,
        by decide, by decide, by decide, by decide, rfl, rfl, fun _ => ⟨9, rfl⟩, rfl⟩,
    by decide⟩

/-- Claim C9 fails on the code: after a successful decode setup on the example
device the first `vaapi_decode_close_context` releases the execution context,
the config, the frame pool, the device reference and the session object once
each but leaves `hwaccel_context` pointing at the freed session, and the
second call frees the session object again. -/
theorem C9_decode_close_twice_frees_again :
    (vaapi_decode_setup_context example_env example_avctx World.init).1 = 0 ∧
    (vaapi_decode_close_context
        (vaapi_decode_setup_context example_env example_avctx World.init).2.1
        (vaapi_decode_setup_context example_env example_avctx World.init).2.2).2.since
        (vaapi_decode_setup_context example_env example_avctx World.init).2.2 =
      [Event.vaDestroyContext 9, Event.vaDestroyConfig 7, Event.av_buffer_unref_frames 0,
        Event.av_buffer_unref_device 0, Event.free_context 0] ∧
    (vaapi_decode_close_context
        (vaapi_decode_setup_context example_env example_avctx World.init).2.1
        (vaapi_decode_setup_context example_env example_avctx World.init).2.2).1.hwaccel_context =
      some 0 ∧
    (vaapi_decode_close_context
        (vaapi_decode_close_context
          (vaapi_decode_setup_context example_env example_avctx World.init).2.1
          (vaapi_decode_setup_context example_env example_avctx World.init).2.2).1
        (vaapi_decode_close_context
          (vaapi_decode_setup_context example_env example_avctx World.init).2.1
          (vaapi_decode_setup_context example_env example_avctx World.init).2.2).2).2.since
        (vaapi_decode_close_context
          (vaapi_decode_setup_context example_env example_avctx World.init).2.1
          (vaapi_decode_setup_context example_env example_avctx World.init).2.2).2 =
      [Event.free_context 0] :=
  ⟨rfl, rfl, rfl, rfl⟩

/-- Claim C10: `vaapi_encode_close_context` leaves the slot null, releases
exactly the reference the slot held and nothing else, is the identity on a
codec context whose slot is null, and so changes nothing when called a second
time. -/
theorem C10_encode_close_idempotent (avctx : AVCodecContext) (w : World) :
    (vaapi_encode_close_context avctx w).1.opaque_slot = none ∧
    (∀ buf, avctx.opaque_slot = some buf →
      (vaapi_encode_close_context avctx w).2.since w = [Event.av_buffer_unref_device buf]) ∧
    ((vaapi_encode_close_context avctx w).2.since w).countP Event.isRelease ≤ 1 ∧
    vaapi_encode_close_context (vaapi_encode_close_context avctx w).1
        (vaapi_encode_close_context avctx w).2 = vaapi_encode_close_context avctx w ∧
    (avctx.opaque_slot = none → vaapi_encode_close_context avctx w = (avctx, w)) := by
  cases h : avctx.opaque_slot with
  | none => simp [vaapi_encode_close_context, h, World.since]
  | some buf =>
    simp [vaapi_encode_close_context, h, World.since, av_buffer_unref_device, World.log,
      Event.isRelease]

/-- Witness for C10: a slot holding a reference to device buffer 0 is released
by one `av_buffer_unref`. -/
theorem C10_encode_close_idempotent_witness :
    (vaapi_encode_close_context { example_avctx with opaque_slot := some 0 }
      { World.init with devices := [2], hw_device_ref := some 0 }).2.since
      { World.init with devices := [2], hw_device_ref := some 0 } =
      [Event.av_buffer_unref_device 0] :=
  (C10_encode_close_idempotent { example_avctx with opaque_slot := some 0 }
    { World.init with devices := [2], hw_device_ref := some 0 }).2.1 0 rfl

/-- Claim C11: when the device acquisition of a new session succeeds and the
profile negotiation yields no profile, `tvhva_context_setup` returns -1,
`tvhva_context_create` returns no session, and among the calls made from the
allocation of the session to the end of its teardown there is no create-config
request, no frame-pool allocation, no create-context request, no
destroy-config request and no destroy-context request. -/
theorem C11_negotiation_failure (env : Env) (avctx : AVCodecContext)
    (entrypoint : VAEntrypoint) (w : World) (disp : Nat) (selfd : TVHVAContext)
    (wd : World)
    (hd : tvhva_context_display env (tvhva_context_create_self avctx entrypoint)
      (tvhva_context_create_world avctx entrypoint w) = (some disp, selfd, wd))
    (hn : (tvhva_context_setup_profile env { selfd with display := some disp } avctx
      wd).1 = none) :
    (tvhva_context_setup env (tvhva_context_create_self avctx entrypoint) avctx
      (tvhva_context_create_world avctx entrypoint w)).1 = -1 ∧
    (tvhva_context_create env avctx entrypoint w).1 = none ∧
    ∀ e ∈ (tvhva_context_create env avctx entrypoint w).2.2.since w,
      e.isCreateConfig = false ∧ e.isPoolAlloc = false ∧ e.isCreateContext = false ∧
      e.isDestroyConfig = false ∧ e.isDestroyContext = false := by
  by_cases hcalloc : env.calloc w.now = true
  · obtain ⟨h1, h2, pre, rel, h3, h4, h5⟩ :=
      create_trace_of_profile_none env avctx entrypoint w disp selfd wd hcalloc hd hn
    refine ⟨h1, h2, ?_⟩
    rw [h3]
    intro e he
    rcases List.mem_cons.mp he with rfl | he
    · exact ⟨rfl, rfl, rfl, rfl, rfl⟩
    · rcases List.mem_append.mp he with he | he
      · rcases List.mem_append.mp he with he | he
        · rcases h4 e he with hq | hq <;> cases e <;>
            simp_all [Event.isAcquire, Event.isQuery, Event.isCreateConfig,
              Event.isPoolAlloc, Event.isCreateContext, Event.isDestroyConfig,
              Event.isDestroyContext]
        · rcases h5 with h5 | ⟨buf, h5⟩
          · rw [h5] at he; cases he
          · rw [h5] at he
            rcases List.mem_singleton.mp he with rfl
            exact ⟨rfl, rfl, rfl, rfl, rfl⟩
      · rcases List.mem_singleton.mp he with rfl
        exact ⟨rfl, rfl, rfl, rfl, rfl⟩
  · have hs := setup_of_profile_none env (tvhva_context_create_self avctx entrypoint) avctx
      (tvhva_context_create_world avctx entrypoint w) disp selfd wd
      (tvhva_context_setup_profile env { selfd with display := some disp } avctx wd).2 hd
      (Prod.ext hn rfl)
    have hc : env.calloc w.now = false := by simpa using hcalloc
    refine ⟨by rw [hs], by simp [tvhva_context_create, hc], ?_⟩
    intro e he
    have : e = Event.calloc := by
      simpa [tvhva_context_create, hc, World.since, World.log] using he
    subst this
    exact ⟨rfl, rfl, rfl, rfl, rfl⟩

/-- Witness for C11: HEVC decode with hint Main 10 on a device that reports
HEVC Main alone. -/
theorem C11_negotiation_failure_witness :
    (tvhva_context_create
      { example_env with vaQueryConfigProfiles := fun _ => some [VAProfile.HEVCMain] }
      { example_avctx with codec_id := AVCodecID.HEVC, profile := FF_PROFILE_HEVC_MAIN_10 }
      VAEntrypoint.VLD World.init).1 = none ∧
    ∀ e ∈ (tvhva_context_create
      { example_env with vaQueryConfigProfiles := fun _ => some [VAProfile.HEVCMain] }
      { example_avctx with codec_id := AVCodecID.HEVC, profile := FF_PROFILE_HEVC_MAIN_10 }
      VAEntrypoint.VLD World.init).2.2.since World.init,
      e.isCreateConfig = false ∧ e.isPoolAlloc = false ∧ e.isCreateContext = false ∧
      e.isDestroyConfig = false ∧ e.isDestroyContext = false :=
  (C11_negotiation_failure
    { example_env with vaQueryConfigProfiles := fun _ => some [VAProfile.HEVCMain] }
    { example_avctx with codec_id := AVCodecID.HEVC, profile := FF_PROFILE_HEVC_MAIN_10 }
    VAEntrypoint.VLD World.init 0 _ _ rfl rfl).2

/-- Claim C12: when the stages up to the config succeed, the config id is
valid, the constraints of the device are obtained and the requested width or
height lies outside their bounds, `tvhva_context_setup` returns -1 and
`tvhva_context_create` returns no session; the calls made are the allocation,
acquisition and query calls, the attribute query, one create-config request,
the two constraint calls, then the teardown: one destroy-config request for
that config, one release of the device reference of the session and the
release of the session object.  No frame pool is allocated and no execution
context is created. -/
theorem C12_size_failure (env : Env) (avctx : AVCodecContext) (entrypoint : VAEntrypoint)
    (w : World) (disp : Nat) (selfd : TVHVAContext) (wd : World) (profile : VAProfile)
    (wn : World) (selfc : TVHVAContext) (wc : World) (c : AVHWFramesConstraints)
    (hcalloc : env.calloc w.now = true)
    (hd : tvhva_context_display env (tvhva_context_create_self avctx entrypoint)
      (tvhva_context_create_world avctx entrypoint w) = (some disp, selfd, wd))
    (hn : tvhva_context_setup_profile env { selfd with display := some disp } avctx wd =
      (some profile, wn))
    (hf : tvhva_get_format selfd.io_format ≠ 0)
    (hc : tvhva_context_config env { selfd with display := some disp } profile
      (tvhva_get_format selfd.io_format) wn = (0, selfc, wc))
    (hid : selfc.config_id ≠ VA_INVALID_ID)
    (halloc : env.av_hwdevice_hwconfig_alloc wc.now = true)
    (hcons : env.av_hwdevice_get_hwframe_constraints
      (wc.log Event.av_hwdevice_hwconfig_alloc).now selfc.config_id = some c)
    (hsize : ¬ (c.min_width ≤ avctx.coded_width ∧ avctx.coded_width ≤ c.max_width ∧
      c.min_height ≤ avctx.coded_height ∧ avctx.coded_height ≤ c.max_height)) :
    (tvhva_context_setup env (tvhva_context_create_self avctx entrypoint) avctx
      (tvhva_context_create_world avctx entrypoint w)).1 = -1 ∧
    (tvhva_context_create env avctx entrypoint w).1 = none ∧
    (∃ pre, (tvhva_context_create env avctx entrypoint w).2.2.since w =
        Event.calloc :: pre ++
          [Event.vaGetConfigAttributes profile entrypoint,
            Event.vaCreateConfig profile entrypoint (tvhva_get_format selfd.io_format),
            Event.av_hwdevice_hwconfig_alloc,
            Event.av_hwdevice_get_hwframe_constraints selfc.config_id,
            Event.vaDestroyConfig selfc.config_id,
            Event.av_buffer_unref_device disp,
            Event.free_context w.heap.length] ∧
      ∀ e ∈ pre, e.isAcquire = true ∨ e.isQuery = true) ∧
    ((tvhva_context_create env avctx entrypoint w).2.2.since w).countP
      Event.isCreateConfig = 1 ∧
    ((tvhva_context_create env avctx entrypoint w).2.2.since w).countP
      Event.isPoolAlloc = 0 ∧
    ((tvhva_context_create env avctx entrypoint w).2.2.since w).countP
      Event.isCreateContext = 0 ∧
    ((tvhva_context_create env avctx entrypoint w).2.2.since w).countP
      Event.isDestroyConfig = 1 ∧
    ((tvhva_context_create env avctx entrypoint w).2.2.since w).count
      (Event.vaDestroyConfig selfc.config_id) = 1 ∧
    ((tvhva_context_create env avctx entrypoint w).2.2.since w).count
      (Event.av_buffer_unref_device disp) = 1 := by
  have hsd := display_some_ref env _ _ disp selfd wd hd
  obtain ⟨ct, cs⟩ := config_zero env _ profile _ wn selfc wc hc
  have hwid : selfc.width = avctx.coded_width ∧ selfc.height = avctx.coded_height := by
    rw [cs, hsd]; exact ⟨rfl, rfl⟩
  have hsize2 : ¬ (c.min_width ≤ selfc.width ∧ selfc.width ≤ c.max_width ∧
      c.min_height ≤ selfc.height ∧ selfc.height ≤ c.max_height) := by
    rw [hwid.1, hwid.2]; exact hsize
  obtain ⟨k1, k2⟩ := check_constraints_size_fail env selfc wc c halloc hcons hsize2
  have k3 := check_constraints_self env selfc wc
  have hs := setup_of_constraints_fail env (tvhva_context_create_self avctx entrypoint)
    avctx (tvhva_context_create_world avctx entrypoint w) disp selfd wd wn profile selfc wc
    hd hn hf hc k1
  have hs1 : (tvhva_context_setup env (tvhva_context_create_self avctx entrypoint) avctx
      (tvhva_context_create_world avctx entrypoint w)).1 ≠ 0 := by rw [hs]; simp
  obtain ⟨c1, _, c3⟩ := create_of_setup_fail env avctx entrypoint w hcalloc hs1
  obtain ⟨e1, h1, q1⟩ := display_trace env (tvhva_context_create_self avctx entrypoint)
    (tvhva_context_create_world avctx entrypoint w)
  obtain ⟨e2, h2, q2⟩ := setup_profile_trace env { selfd with display := some disp } avctx wd
  rw [hd] at h1
  rw [hn] at h2
  dsimp only at h1 h2
  have hrel : release_events (tvhva_context_check_constraints env selfc wc).2.1 =
      [Event.vaDestroyConfig selfc.config_id, Event.av_buffer_unref_device disp] := by
    rw [k3]
    have h5 : selfc.context_id = VA_INVALID_ID := by rw [cs, hsd]; rfl
    have h6 : selfc.hw_frames_ref = none := by rw [cs, hsd]; rfl
    have h7 : selfc.hw_device_ref = some disp := by rw [cs, hsd]
    simp [release_events, h5, h6, h7, hid]
  have hent : ({ selfd with display := some disp } : TVHVAContext).entrypoint = entrypoint := by
    rw [hsd]; rfl
  have hpre : ∀ e ∈ e1 ++ e2, e.isAcquire = true ∨ e.isQuery = true := by
    intro e he
    rcases List.mem_append.mp he with he | he
    · exact Or.inl (q1 e he)
    · exact Or.inr (q2 e he)
  have htrace : (tvhva_context_create env avctx entrypoint w).2.2.since w =
      Event.calloc :: (e1 ++ e2) ++
        [Event.vaGetConfigAttributes profile entrypoint,
          Event.vaCreateConfig profile entrypoint (tvhva_get_format selfd.io_format),
          Event.av_hwdevice_hwconfig_alloc,
          Event.av_hwdevice_get_hwframe_constraints selfc.config_id,
          Event.vaDestroyConfig selfc.config_id,
          Event.av_buffer_unref_device disp,
          Event.free_context w.heap.length] := by
    apply since_trace
    rw [c3, hs]
    dsimp only
    rw [hrel, k2, ct, hent, h2, h1, create_world_trace]
    simp
  have z1 : (e1 ++ e2).countP Event.isCreateConfig = 0 :=
    countP_eq_zero_of_forall _ _ (fun e he => (acquire_or_query_kind e (hpre e he)).1)
  have z2 : (e1 ++ e2).countP Event.isPoolAlloc = 0 :=
    countP_eq_zero_of_forall _ _ (fun e he => (acquire_or_query_kind e (hpre e he)).2.1)
  have z3 : (e1 ++ e2).countP Event.isCreateContext = 0 :=
    countP_eq_zero_of_forall _ _ (fun e he => (acquire_or_query_kind e (hpre e he)).2.2.1)
  have z4 : (e1 ++ e2).countP Event.isDestroyConfig = 0 :=
    countP_eq_zero_of_forall _ _ (fun e he => (acquire_or_query_kind e (hpre e he)).2.2.2.1)
  have z5 : (e1 ++ e2).count (Event.vaDestroyConfig selfc.config_id) = 0 := by
    rw [List.count_eq_zero]
    intro he
    rcases hpre _ he with h | h <;> simp [Event.isAcquire, Event.isQuery] at h
  have z6 : (e1 ++ e2).count (Event.av_buffer_unref_device disp) = 0 := by
    rw [List.count_eq_zero]
    intro he
    rcases hpre _ he with h | h <;> simp [Event.isAcquire, Event.isQuery] at h
  generalize e1 ++ e2 = pre at htrace hpre z1 z2 z3 z4 z5 z6
  refine ⟨by rw [hs], c1, ⟨pre, htrace, hpre⟩, ?_, ?_, ?_, ?_, ?_, ?_⟩
  · rw [htrace]
    simp [List.countP_cons, List.countP_append, z1, Event.isCreateConfig]
  · rw [htrace]
    simp [List.countP_cons, List.countP_append, z2, Event.isPoolAlloc]
  · rw [htrace]
    simp [List.countP_cons, List.countP_append, z3, Event.isCreateContext]
  · rw [htrace]
    simp [List.countP_cons, List.countP_append, z4, Event.isDestroyConfig]
  · rw [htrace]
    simp [List.count_cons, List.count_append, z5]
  · rw [htrace]
    simp [List.count_cons, List.count_append, z6]

/-- Witness for C12: encode with width 4097 on the example device, whose
widths end at 4096. -/
theorem C12_size_failure_witness :
    (tvhva_context_create example_env { example_avctx with coded_width := 4097 }
      VAEntrypoint.EncSlice World.init).1 = none ∧
    ((tvhva_context_create example_env { example_avctx with coded_width := 4097 }
      VAEntrypoint.EncSlice World.init).2.2.since World.init).countP
      Event.isCreateConfig = 1 ∧
    ((tvhva_context_create example_env { example_avctx with coded_width := 4097 }
      VAEntrypoint.EncSlice World.init).2.2.since World.init).countP
      Event.isPoolAlloc = 0 ∧
    ((tvhva_context_create example_env { example_avctx with coded_width := 4097 }
      VAEntrypoint.EncSlice World.init).2.2.since World.init).count
      (Event.vaDestroyConfig 7) = 1 :=
  have h := C12_size_failure example_env { example_avctx with coded_width := 4097 }
    VAEntrypoint.EncSlice World.init 0 _ _ VAProfile.H264High _ _ _
    { valid_sw_formats := [AVPixelFormat.NV21, AVPixelFormat.NV12, AVPixelFormat.NONE],
      min_width := 16, min_height := 16, max_width := 4096, max_height := 4096 }
    rfl rfl rfl (by decide) rfl (by decide) rfl rfl (by decide)
  ⟨h.2.1, h.2.2.2.1, h.2.2.2.2.1, h.2.2.2.2.2.2.2.1⟩

/-- Claim C13: `tvhva_init` tries the candidates in the order renderD128,
renderD129, renderD130, card0, card1, card2.  When the attempt on candidate
`k` is the first to succeed it returns 0, has tried exactly the candidates up
to `k`, and the registry holds the new device buffer with one reference.  When
all six attempts fail it returns -1, has tried all six, the registry is empty
and no device buffer was added, and the next device acquisition starts with
the calls of a whole `tvhva_init` again. -/
theorem C13_probe_order (env : Env) (w : World) :
    (∀ k c, spec_candidates[k]? = some c →
      (∀ j d, j < k → spec_candidates[j]? = some d →
        env.av_hwdevice_ctx_create (w.now + j) d = false) →
      env.av_hwdevice_ctx_create (w.now + k) c = true →
      (tvhva_init env w).1 = 0 ∧
      (tvhva_init env w).2.since w =
        (spec_candidates.take (k + 1)).map Event.av_hwdevice_ctx_create ∧
      (tvhva_init env w).2.hw_device_ref = some w.devices.length ∧
      (tvhva_init env w).2.devices = w.devices ++ [1]) ∧
    ((∀ j d, spec_candidates[j]? = some d →
        env.av_hwdevice_ctx_create (w.now + j) d = false) →
      (tvhva_init env w).1 = -1 ∧
      (tvhva_init env w).2.since w = spec_candidates.map Event.av_hwdevice_ctx_create ∧
      (tvhva_init env w).2.hw_device_ref = none ∧
      (tvhva_init env w).2.devices = w.devices ∧
      ∀ self, ∃ rest,
        (tvhva_context_display env self (tvhva_init env w).2).2.2.since (tvhva_init env w).2 =
          (tvhva_init env (tvhva_init env w).2).2.since (tvhva_init env w).2 ++ rest) := by
  refine ⟨fun k c hk hfail hsucc => init_first_success env w k c hk hfail hsucc, ?_⟩
  intro hfail
  obtain ⟨a, b, c, d⟩ := init_all_fail env w hfail
  exact ⟨a, b, c, d, fun self => display_runs_init env self _ c⟩

/-- Witness for C13: the example device opens at the second candidate, and a
device that never opens leaves the registry empty. -/
theorem C13_probe_order_witness :
    ((tvhva_init example_env World.init).1 = 0 ∧
      (tvhva_init example_env World.init).2.since World.init =
        [Event.av_hwdevice_ctx_create (DevicePath.renderD 128),
          Event.av_hwdevice_ctx_create (DevicePath.renderD 129)]) ∧
    ((tvhva_init { example_env with av_hwdevice_ctx_create := fun _ _ => false }
        World.init).1 = -1 ∧
      (tvhva_init { example_env with av_hwdevice_ctx_create := fun _ _ => false }
        World.init).2.hw_device_ref = none) :=
  have h1 := (C13_probe_order example_env World.init).1 1 (DevicePath.renderD 129) rfl
    (fun j d hj hd => by
      have hj0 : j = 0 := by omega
      subst hj0
      have hd0 : d = DevicePath.renderD 128 := by
        simpa [spec_candidates] using hd.symm
      subst hd0
      rfl)
    rfl
  have h2 := (C13_probe_order { example_env with av_hwdevice_ctx_create := fun _ _ => false }
    World.init).2 (fun _ _ _ => rfl)
  ⟨⟨h1.1, h1.2.1⟩, ⟨h2.1, h2.2.2.1⟩⟩

/-- Counterexample to C16 as stated: the encode setup of the example codec
context succeeds on the example device and changes the frame-pool reference
of the codec context from null to frames buffer 0, its software pixel format
from YUV420P to NV12 and its thread count from 4 to 1. -/
theorem C16_counterexample :
    (vaapi_encode_setup_context example_env example_avctx World.init).1 = 0 ∧
    example_avctx.hw_frames_ctx = none ∧
    (vaapi_encode_setup_context example_env example_avctx World.init).2.1.hw_frames_ctx =
      some 0 ∧
    example_avctx.sw_pix_fmt = AVPixelFormat.YUV420P ∧
    (vaapi_encode_setup_context example_env example_avctx World.init).2.1.sw_pix_fmt =
      AVPixelFormat.NV12 ∧
    example_avctx.thread_count = 4 ∧
    (vaapi_encode_setup_context example_env example_avctx World.init).2.1.thread_count = 1 :=
  ⟨rfl, rfl, rfl, rfl, rfl, rfl, rfl⟩

/-- Claim C16, amended: when `vaapi_encode_setup_context` returns 0, the codec
context differs from the one passed in exactly in four fields: `opaque` holds
a new reference to the device of the registry, `hw_frames_ctx` a new reference
to the frame pool of the session, `sw_pix_fmt` the negotiated native format
and `thread_count` is 1.  The call ends with the `av_buffer_ref` for the
`opaque` field followed by the teardown of the session: the config is
destroyed, the frame-pool reference and the device reference of the session
are released and the session object is freed.  The ids a successful
`vaCreateConfig` writes are taken to differ from `VA_INVALID_ID`. -/
theorem C16_encode_export (env : Env) (avctx : AVCodecContext) (w : World)
    (hcfg : ∀ t p e f id, env.vaCreateConfig t p e f = some id → id ≠ VA_INVALID_ID)
    (h : (vaapi_encode_setup_context env avctx w).1 = 0) :
    ∃ (buf fr cfg : Nat) (val : TVHVAContext),
      (vaapi_encode_setup_context env avctx w).2.2.hw_device_ref = some buf ∧
      (vaapi_encode_setup_context env avctx w).2.1 =
        { avctx with opaque_slot := some buf, hw_frames_ctx := some fr,
                     sw_pix_fmt := val.sw_format, thread_count := 1 } ∧
      val.config_id = cfg ∧ cfg ≠ VA_INVALID_ID ∧ val.hw_frames_ref = some fr ∧
      val.hw_device_ref = some buf ∧
      (vaapi_encode_setup_context env avctx w).2.2.heap[w.heap.length]? =
        some { val := released val, freed := true } ∧
      ∃ pre, (vaapi_encode_setup_context env avctx w).2.2.since w =
        pre ++ [Event.av_buffer_ref_device buf, Event.vaDestroyConfig cfg,
          Event.av_buffer_unref_frames fr, Event.av_buffer_unref_device buf,
          Event.free_context w.heap.length] := by
  cases hc : (tvhva_context_create env avctx VAEntrypoint.EncSlice w).1 with
  | none => simp [vaapi_encode_setup_context, hc] at h
  | some ptr =>
    obtain ⟨hp, hs, _⟩ := create_some_cell env avctx VAEntrypoint.EncSlice w ptr hc
    obtain ⟨c1, c2, c3, _, c5⟩ := create_of_setup_ok env avctx VAEntrypoint.EncSlice w ptr hc
    obtain ⟨s1, s2, _, _, s5, s6, fr, s7, s8⟩ := setup_success env
      (tvhva_context_create_self avctx VAEntrypoint.EncSlice) avctx
      (tvhva_context_create_world avctx VAEntrypoint.EncSlice w) hs
    obtain ⟨evs, hext, _⟩ := setup_ext env
      (tvhva_context_create_self avctx VAEntrypoint.EncSlice) avctx
      (tvhva_context_create_world avctx VAEntrypoint.EncSlice w)
    obtain ⟨e0, hdt, _⟩ := display_trace env
      (tvhva_context_create_self avctx VAEntrypoint.EncSlice)
      (tvhva_context_create_world avctx VAEntrypoint.EncSlice w)
    generalize tvhva_context_setup env (tvhva_context_create_self avctx VAEntrypoint.EncSlice)
      avctx (tvhva_context_create_world avctx VAEntrypoint.EncSlice w) = s at *
    obtain ⟨sr, val, avctx2, ws⟩ := s
    dsimp only at *
    subst hp
    obtain ⟨buf, hbuf⟩ := Option.ne_none_iff_exists'.mp s2
    have hctxid : val.context_id = VA_INVALID_ID := by
      rw [s5 (by simp [tvhva_context_create_self])]; rfl
    have hcfgid : val.config_id ≠ VA_INVALID_ID := by
      rcases s6 with h1 | ⟨t, p, e, f, h1⟩
      · exact h1
      · exact absurd rfl (hcfg t p e f _ h1)
    generalize hcr : tvhva_context_create env avctx VAEntrypoint.EncSlice w = c at *
    obtain ⟨cp, cav, cw⟩ := c
    dsimp only at *
    subst hc
    have hcell : cw.heap[w.heap.length]? = some { val := val, freed := false } := by
      rw [c5]; simp
    have hcell2 : (av_buffer_ref_device env buf cw).2.heap[w.heap.length]? =
        some { val := val, freed := false } := by
      unfold av_buffer_ref_device
      dsimp only
      split_ifs <;> simpa [World.log] using hcell
    obtain ⟨d1, d2, d3⟩ := destroy_eq w.heap.length (av_buffer_ref_device env buf cw).2 _ hcell2
    have hrel : release_events val = [Event.vaDestroyConfig val.config_id,
        Event.av_buffer_unref_frames fr, Event.av_buffer_unref_device buf] := by
      simp [release_events, hctxid, hcfgid, s7, hbuf]
    have henc : vaapi_encode_setup_context env avctx w =
        (match (av_buffer_ref_device env buf cw).1 with
          | none => (AVERROR_ENOMEM, { cav with opaque_slot := none },
              tvhva_context_destroy (some w.heap.length) (av_buffer_ref_device env buf cw).2)
          | some ref => (0, { cav with opaque_slot := some ref },
              tvhva_context_destroy (some w.heap.length)
                (av_buffer_ref_device env buf cw).2)) := by
      unfold vaapi_encode_setup_context
      simp only [hcr, hcell, Option.some_bind, hbuf]
    rw [henc] at h ⊢
    by_cases hok : env.av_buffer_ref cw.now = true
    · have hb : av_buffer_ref_device env buf cw =
          (some buf, { cw.log (Event.av_buffer_ref_device buf) with
            devices := cw.devices.set buf (cw.devices.getD buf 0 + 1) }) := by
        simp [av_buffer_ref_device, hok, World.log]
      rw [hb] at d1 d2 d3 ⊢
      dsimp only at d1 d2 d3 ⊢
      refine ⟨buf, fr, val.config_id, val, ?_, ?_, rfl, hcfgid, s7, hbuf, d2, ?_⟩
      · rw [d3]
        simp only [World.log]
        rw [c3, ← s1, hbuf]
      · rw [c1, s8]
      · refine ⟨Event.calloc :: (e0 ++ evs), ?_⟩
        apply since_trace
        rw [d1, hrel]
        simp only [World.log]
        rw [c2, hext, hdt, create_world_trace]
        simp
    · have hb : (av_buffer_ref_device env buf cw).1 = none := by
        simp [av_buffer_ref_device, hok]
      rw [hb] at h
      simp at h

/-- Witness for C16: the encode setup of the example codec context on the
example device. -/
theorem C16_encode_export_witness :
    ∃ (buf fr cfg : Nat) (val : TVHVAContext),
      (vaapi_encode_setup_context example_env example_avctx World.init).2.2.hw_device_ref =
        some buf ∧
      (vaapi_encode_setup_context example_env example_avctx World.init).2.1 =
        { example_avctx with opaque_slot := some buf, hw_frames_ctx := some fr,
                             sw_pix_fmt := val.sw_format, thread_count := 1 } ∧
      val.config_id = cfg ∧ cfg ≠ VA_INVALID_ID ∧ val.hw_frames_ref = some fr ∧
      val.hw_device_ref = some buf ∧
      (vaapi_encode_setup_context example_env example_avctx World.init).2.2.heap[
        World.init.heap.length]? = some { val := released val, freed := true } ∧
      ∃ pre, (vaapi_encode_setup_context example_env example_avctx World.init).2.2.since
          World.init =
        pre ++ [Event.av_buffer_ref_device buf, Event.vaDestroyConfig cfg,
          Event.av_buffer_unref_frames fr, Event.av_buffer_unref_device buf,
          Event.free_context World.init.heap.length] :=
  C16_encode_export example_env example_avctx World.init
    (fun _ _ _ _ id h => by
      have : id = 7 := by injection h with h; exact h.symm
      subst this; decide)
    rfl

/-- Claim C17: for an H.264 codec context with hint High and format YUV420P, on
a device of which one candidate node opens, whose profile list contains
`VAProfileH264High` with the decode entry point, whose format attribute has the
YUV420 bit, whose constraints list NV12 and bound the requested size, and
whose allocation and creation calls all succeed with valid ids,
`vaapi_decode_setup_context` returns 0 and stores a live session.  The one
config request named in the calls is for `VAProfileH264High`, the decode entry
point and the YUV420 class; the native format of the session is in the list
of the device and of the 4:2:0 family, and is the software format of the codec
context; the config id and the context id are those the device returned and
valid, and the session holds a display, a device reference and a frame
pool. -/
theorem C17_end_to_end_success (env : Env) (avctx : AVCodecContext) (w : World)
    (dev : DevicePath) (profiles : List VAProfile) (entrypoints : List VAEntrypoint)
    (rt cfg ctx : Nat) (c : AVHWFramesConstraints)
    (hcodec : avctx.codec_id = AVCodecID.H264)
    (hprofile : avctx.profile = FF_PROFILE_H264_HIGH)
    (hfmt : avctx.sw_pix_fmt = AVPixelFormat.YUV420P)
    (hdev : dev ∈ spec_candidates)
    (hopen : ∀ t, env.av_hwdevice_ctx_create t dev = true)
    (href : ∀ t, env.av_buffer_ref t = true)
    (hcalloc : ∀ t, env.calloc t = true)
    (hmaxp : ∀ t, 0 < env.vaMaxNumProfiles t)
    (hprofiles : ∀ t, env.vaQueryConfigProfiles t = some profiles)
    (hhigh : VAProfile.H264High ∈ profiles)
    (hmaxe : ∀ t, 0 < env.vaMaxNumEntrypoints t)
    (hentry : ∀ t, env.vaQueryConfigEntrypoints t VAProfile.H264High = some entrypoints)
    (hvld : VAEntrypoint.VLD ∈ entrypoints)
    (hattr : ∀ t, env.vaGetConfigAttributes t VAProfile.H264High VAEntrypoint.VLD = some rt)
    (hrt1 : rt ≠ VA_ATTRIB_NOT_SUPPORTED) (hrt2 : rt &&& VA_RT_FORMAT_YUV420 ≠ 0)
    (hcreate : ∀ t, env.vaCreateConfig t VAProfile.H264High VAEntrypoint.VLD
      VA_RT_FORMAT_YUV420 = some cfg)
    (hcfgv : cfg ≠ VA_INVALID_ID)
    (hhwc : ∀ t, env.av_hwdevice_hwconfig_alloc t = true)
    (hcons : ∀ t, env.av_hwdevice_get_hwframe_constraints t cfg = some c)
    (hnv12 : AVPixelFormat.NV12 ∈ listed_sw_formats c.valid_sw_formats)
    (hsize : c.min_width ≤ avctx.coded_width ∧ avctx.coded_width ≤ c.max_width ∧
      c.min_height ≤ avctx.coded_height ∧ avctx.coded_height ≤ c.max_height)
    (hfalloc : ∀ t, env.av_hwframe_ctx_alloc t = true)
    (hfinit : ∀ t sw wd ht n, env.av_hwframe_ctx_init t sw wd ht n = true)
    (hcc : ∀ t, env.vaCreateContext t cfg avctx.coded_width avctx.coded_height = some ctx)
    (hctxv : ctx ≠ VA_INVALID_ID) :
    (vaapi_decode_setup_context env avctx w).1 = 0 ∧
    (vaapi_decode_setup_context env avctx w).2.1.hwaccel_context = some w.heap.length ∧
    ∃ val pre post,
      (vaapi_decode_setup_context env avctx w).2.2.heap[w.heap.length]? =
        some { val := val, freed := false } ∧
      ((vaapi_decode_setup_context env avctx w).2.2.since w =
        pre ++ [Event.vaCreateConfig VAProfile.H264High VAEntrypoint.VLD
          VA_RT_FORMAT_YUV420] ++ post) ∧
      val.sw_format ∈ listed_sw_formats c.valid_sw_formats ∧
      is_yuv420 val.sw_format ∧
      (vaapi_decode_setup_context env avctx w).2.1.sw_pix_fmt = val.sw_format ∧
      val.config_id = cfg ∧ val.config_id ≠ VA_INVALID_ID ∧
      val.context_id = ctx ∧ val.context_id ≠ VA_INVALID_ID ∧
      val.display ≠ none ∧ val.hw_device_ref ≠ none ∧ val.hw_frames_ref ≠ none := by
  obtain ⟨s1, s2, s3, s4, s6, pre, post, s5⟩ := setup_h264_high env avctx
    (tvhva_context_create_world avctx VAEntrypoint.VLD w) dev profiles entrypoints rt cfg ctx c
    hcodec hprofile hfmt hdev hopen href hcalloc hmaxp hprofiles hhigh hmaxe hentry hvld hattr
    hrt1 hrt2 hcreate hhwc hcons hnv12 hsize hfalloc hfinit hcc
  have hne := (create_eq_none_iff env avctx VAEntrypoint.VLD w).mpr ⟨hcalloc _, s1⟩
  obtain ⟨ptr, hptr⟩ := Option.ne_none_iff_exists'.mp hne
  obtain ⟨c1, _, c3⟩ := create_some_cell env avctx VAEntrypoint.VLD w ptr hptr
  obtain ⟨o1, o2, _, _, _⟩ := create_of_setup_ok env avctx VAEntrypoint.VLD w ptr hptr
  subst c1
  obtain ⟨_, q2, _, _, _, _, fr, q4, hav⟩ := setup_success env _ avctx _ s1
  have hdec : vaapi_decode_setup_context env avctx w =
      (0, { ({ (tvhva_context_create env avctx VAEntrypoint.VLD w).2.1 with
                hwaccel_context := some w.heap.length } : AVCodecContext) with
              get_buffer2 := GetBuffer2.vaapi_get_buffer2, thread_safe_callbacks := 0 },
        (tvhva_context_create env avctx VAEntrypoint.VLD w).2.2) := by
    unfold vaapi_decode_setup_context
    simp [hptr]
  rw [hdec]
  refine ⟨rfl, rfl, _, [Event.calloc] ++ pre, post, c3, ?_, ?_, ?_, ?_, s2, ?_, s3, ?_,
    s6, q2, by rw [q4]; simp⟩
  · apply since_trace
    rw [o2, s5, create_world_trace]
    simp
  · rw [s4]; exact hnv12
  · rw [s4]; rfl
  · show (tvhva_context_create env avctx VAEntrypoint.VLD w).2.1.sw_pix_fmt = _
    rw [o1, hav]
  · rw [s2]; exact hcfgv
  · rw [s3]; exact hctxv

/-- Witness for C17: the example codec context on the example device, which
reports H.264 Main and High. -/
theorem C17_end_to_end_success_witness :
    (vaapi_decode_setup_context example_env example_avctx World.init).1 = 0 ∧
    (vaapi_decode_setup_context example_env example_avctx World.init).2.1.hwaccel_context =
      some 0 ∧
    ∃ val pre post,
      (vaapi_decode_setup_context example_env example_avctx World.init).2.2.heap[0]? =
        some { val := val, freed := false } ∧
      ((vaapi_decode_setup_context example_env example_avctx World.init).2.2.since World.init =
        pre ++ [Event.vaCreateConfig VAProfile.H264High VAEntrypoint.VLD
          VA_RT_FORMAT_YUV420] ++ post) ∧
      val.sw_format ∈ listed_sw_formats
        [AVPixelFormat.NV21, AVPixelFormat.NV12, AVPixelFormat.NONE] ∧
      is_yuv420 val.sw_format ∧
      (vaapi_decode_setup_context example_env example_avctx World.init).2.1.sw_pix_fmt =
        val.sw_format ∧
      val.config_id = 7 ∧ val.config_id ≠ VA_INVALID_ID ∧
      val.context_id = 9 ∧ val.context_id ≠ VA_INVALID_ID ∧
      val.display ≠ none ∧ val.hw_device_ref ≠ none ∧ val.hw_frames_ref ≠ none :=
  C17_end_to_end_success example_env example_avctx World.init (DevicePath.renderD 129)
    [VAProfile.H264Main, VAProfile.H264High] [VAEntrypoint.VLD, VAEntrypoint.EncSlice]
    3 7 9
    { valid_sw_formats := [AVPixelFormat.NV21, AVPixelFormat.NV12, AVPixelFormat.NONE],
      min_width := 16, min_height := 16, max_width := 4096, max_height := 4096 }
    rfl rfl rfl (by decide) (fun _ => by simp [example_env]) (fun _ => rfl) (fun _ => rfl)
    (fun _ => by show (0 : Int) < 16; decide) (fun _ => rfl) (by decide)
    (fun _ => by show (0 : Int) < 8; decide) (fun _ => rfl) (by decide)
    (fun _ => rfl) (by decide) (by decide) (fun _ => rfl) (by decide) (fun _ => rfl)
    (fun _ => rfl) (by decide) (by decide) (fun _ => rfl) (fun _ _ _ _ _ => rfl)
    (fun _ => rfl) (by decide)

/-- Claim C18: when the frame-pool allocation of `tvhva_context_setup_pool`
succeeds, the frames context it adds has an initial pool size of 32, the
width, the height and the native format of the session and the format
`AV_PIX_FMT_VAAPI`.  A whole `tvhva_context_setup` adds at most one frames
context, and the one it adds has an initial pool size of 32, the width and the
height requested and the negotiated native format, for every size, codec and
entry point. -/
theorem C18_pool_size (env : Env) (self : TVHVAContext) (avctx : AVCodecContext)
    (w : World) :
    (env.av_hwframe_ctx_alloc w.now = true →
      (tvhva_context_setup_pool env self w).2.2.frames = w.frames ++
        [{ refcount := 1, device := self.hw_device_ref, format := AVPixelFormat.VAAPI,
           sw_format := self.sw_format, width := self.width, height := self.height,
           initial_pool_size := 32 }] ∧
      (tvhva_context_setup_pool env self w).2.1.hw_frames_ref = some w.frames.length) ∧
    (tvhva_context_setup env self avctx w).2.2.2.frames.length ≤ w.frames.length + 1 ∧
    ∀ f : AVHWFramesContext,
      (tvhva_context_setup env self avctx w).2.2.2.frames[w.frames.length]? = some f →
      f.initial_pool_size = 32 ∧ f.width = self.width ∧ f.height = self.height ∧
      f.sw_format = (tvhva_context_setup env self avctx w).2.1.sw_format ∧
      f.format = AVPixelFormat.VAAPI := by
  constructor
  · intro ha
    obtain ⟨q1, q2⟩ := (setup_pool_world env self w).2 ha
    rw [q2, q1]
    exact ⟨rfl, rfl⟩
  · have hdf := display_frames env self w
    have hds := display_self env self w
    apply setup_elim env self avctx w
      (fun s => s.2.2.2.frames.length ≤ w.frames.length + 1 ∧
        ∀ f : AVHWFramesContext, s.2.2.2.frames[w.frames.length]? = some f →
          f.initial_pool_size = 32 ∧ f.width = self.width ∧ f.height = self.height ∧
          f.sw_format = s.2.1.sw_format ∧ f.format = AVPixelFormat.VAAPI)
    · intro selfk wk _ hw
      dsimp only
      rw [hw.2.2.1, hdf]
      refine ⟨by simp, ?_⟩
      intro f hfeq
      simp at hfeq
    · intro selfk wk hsk hw _ _
      have hfr : wk.frames = w.frames := by rw [hw.2.2.1, hdf]
      have hwid : selfk.width = self.width := by rw [hsk.2.2.2.1, hds]
      have hhei : selfk.height = self.height := by rw [hsk.2.2.2.2.1, hds]
      obtain ⟨t1, t2⟩ := setup_tail_frames env selfk avctx wk _ rfl
      rw [hfr] at t1 t2
      refine ⟨t1, fun f hfeq => ?_⟩
      obtain ⟨a, b, c, d, e, _⟩ := t2 f hfeq
      exact ⟨a, b.trans hwid, c.trans hhei, d, e⟩

/-- Witness for C18: the frames context of the example decode setup is
1920x1080, NV12, with an initial pool size of 32. -/
theorem C18_pool_size_witness :
    ∃ f : AVHWFramesContext,
      (tvhva_context_setup example_env
        (tvhva_context_create_self example_avctx VAEntrypoint.VLD) example_avctx
        World.init).2.2.2.frames[World.init.frames.length]? = some f ∧
      f.initial_pool_size = 32 ∧ f.width = 1920 ∧ f.height = 1080 ∧
      f.sw_format = AVPixelFormat.NV12 ∧ f.format = AVPixelFormat.VAAPI :=
  ⟨{ refcount := 2, device := some 0, format := AVPixelFormat.VAAPI,
     sw_format := AVPixelFormat.NV12, width := 1920, height := 1080,
     initial_pool_size := 32 }, rfl,
    (C18_pool_size example_env (tvhva_context_create_self example_avctx VAEntrypoint.VLD)
      example_avctx World.init).2.2 _ rfl⟩

/-- Claim C19: both open functions return 0 and only add requests to the
dictionary.  With a bit rate other than zero each makes the bit-rate request
for that value and no request under the key `qp`.  With a bit rate of zero
each makes no bit-rate request and one request under `qp`, flagged
`AV_DICT_DONT_OVERWRITE`, for the configured qp when it is not zero and
otherwise for 20 (H.264) or 25 (HEVC).  The H.264 function makes one more
request, for the configured quality under the key `quality` with flags 0; the
HEVC function makes none under that key. -/
theorem C19_rate_control_options (self : tvh_codec_profile_vaapi_t) (opts : AVDictionary) :
    (tvh_codec_profile_vaapi_h264_open self opts).1 = 0 ∧
    (tvh_codec_profile_vaapi_hevc_open self opts).1 = 0 ∧
    ∃ h264 hevc : List DictRequest,
      (tvh_codec_profile_vaapi_h264_open self opts).2 = opts ++ h264 ∧
      (tvh_codec_profile_vaapi_hevc_open self opts).2 = opts ++ hevc ∧
      (if self.bit_rate ≠ 0 then
        h264.filter DictRequest.isBitRate = [DictRequest.set_bit_rate self.bit_rate] ∧
        hevc.filter DictRequest.isBitRate = [DictRequest.set_bit_rate self.bit_rate] ∧
        h264.filter (fun r => decide (r.key = some "qp")) = [] ∧
        hevc.filter (fun r => decide (r.key = some "qp")) = []
      else
        h264.filter DictRequest.isBitRate = [] ∧
        hevc.filter DictRequest.isBitRate = [] ∧
        h264.filter (fun r => decide (r.key = some "qp")) =
          [DictRequest.set_int "qp" (if self.qp ≠ 0 then self.qp else 20)
            AV_DICT_DONT_OVERWRITE] ∧
        hevc.filter (fun r => decide (r.key = some "qp")) =
          [DictRequest.set_int "qp" (if self.qp ≠ 0 then self.qp else 25)
            AV_DICT_DONT_OVERWRITE]) ∧
      h264.filter (fun r => decide (r.key = some "quality")) =
        [DictRequest.set_int "quality" self.quality 0] ∧
      hevc.filter (fun r => decide (r.key = some "quality")) = [] ∧
      h264.length = 2 ∧ hevc.length = 1 := by
  refine ⟨rfl, rfl, ?_⟩
  by_cases hb : self.bit_rate = 0
  · refine ⟨[DictRequest.set_int "qp" (if self.qp ≠ 0 then self.qp else 20)
        AV_DICT_DONT_OVERWRITE, DictRequest.set_int "quality" self.quality 0],
      [DictRequest.set_int "qp" (if self.qp ≠ 0 then self.qp else 25)
        AV_DICT_DONT_OVERWRITE], ?_, ?_, ?_, ?_, ?_, rfl, rfl⟩
    · simp [tvh_codec_profile_vaapi_h264_open, hb, AV_DICT_SET_QP, AV_DICT_SET_INT]
    · simp [tvh_codec_profile_vaapi_hevc_open, hb, AV_DICT_SET_QP, AV_DICT_SET_INT]
    · rw [if_neg (by simpa using hb)]
      simp [DictRequest.isBitRate, DictRequest.key, List.filter]
    · simp [DictRequest.key, List.filter]
    · simp [DictRequest.key, List.filter]
  · refine ⟨[DictRequest.set_bit_rate self.bit_rate,
        DictRequest.set_int "quality" self.quality 0],
      [DictRequest.set_bit_rate self.bit_rate], ?_, ?_, ?_, ?_, ?_, rfl, rfl⟩
    · simp [tvh_codec_profile_vaapi_h264_open, hb, AV_DICT_SET_BIT_RATE, AV_DICT_SET_INT]
    · simp [tvh_codec_profile_vaapi_hevc_open, hb, AV_DICT_SET_BIT_RATE]
    · rw [if_pos hb]
      simp [DictRequest.isBitRate, DictRequest.key, List.filter]
    · simp [DictRequest.key, List.filter]
    · simp [DictRequest.key, List.filter]

/-- Witness for C19: with bit rate zero and qp zero the H.264 descriptor asks
for qp 20 and quality 3 and the HEVC descriptor for qp 25. -/
theorem C19_rate_control_options_witness :
    (tvh_codec_profile_vaapi_h264_open { bit_rate := 0, qp := 0, quality := 3 } []).1 = 0 ∧
    (tvh_codec_profile_vaapi_hevc_open { bit_rate := 0, qp := 0, quality := 3 } []).1 = 0 ∧
    ∃ h264 hevc : List DictRequest,
      (tvh_codec_profile_vaapi_h264_open { bit_rate := 0, qp := 0, quality := 3 } []).2 =
        [] ++ h264 ∧
      (tvh_codec_profile_vaapi_hevc_open { bit_rate := 0, qp := 0, quality := 3 } []).2 =
        [] ++ hevc ∧
      (h264.filter DictRequest.isBitRate = [] ∧
        hevc.filter DictRequest.isBitRate = [] ∧
        h264.filter (fun r => decide (r.key = some "qp")) =
          [DictRequest.set_int "qp" 20 AV_DICT_DONT_OVERWRITE] ∧
        hevc.filter (fun r => decide (r.key = some "qp")) =
          [DictRequest.set_int "qp" 25 AV_DICT_DONT_OVERWRITE]) ∧
      h264.filter (fun r => decide (r.key = some "quality")) =
        [DictRequest.set_int "quality" 3 0] ∧
      hevc.filter (fun r => decide (r.key = some "quality")) = [] ∧
      h264.length = 2 ∧ hevc.length = 1 := by
  simpa using C19_rate_control_options { bit_rate := 0, qp := 0, quality := 3 } []

/-- Counterexample to C21 as stated: the decode setup of the example codec
context on the example device asks for the device reference, the config, the
frame pool and the execution context, in this order; the teardown destroys the
execution context, then the config, then releases the frame pool and the
device reference.  The config is released before the frame pool, so the
order of the releases is not the reverse of the order of the acquisitions. -/
theorem C21_counterexample :
    ((vaapi_decode_setup_context example_env example_avctx World.init).2.2.since
      World.init).filterMap Event.acquires =
      [Resource.device, Resource.config, Resource.frame_pool, Resource.context] ∧
    (vaapi_decode_close_context
      (vaapi_decode_setup_context example_env example_avctx World.init).2.1
      (vaapi_decode_setup_context example_env example_avctx World.init).2.2).2.since
      (vaapi_decode_setup_context example_env example_avctx World.init).2.2 =
      [Event.vaDestroyContext 9, Event.vaDestroyConfig 7, Event.av_buffer_unref_frames 0,
        Event.av_buffer_unref_device 0, Event.free_context 0] ∧
    ((vaapi_decode_close_context
      (vaapi_decode_setup_context example_env example_avctx World.init).2.1
      (vaapi_decode_setup_context example_env example_avctx World.init).2.2).2.since
      (vaapi_decode_setup_context example_env example_avctx World.init).2.2).filterMap
        Event.releases =
      [Resource.context, Resource.config, Resource.frame_pool, Resource.device] ∧
    ((vaapi_decode_close_context
      (vaapi_decode_setup_context example_env example_avctx World.init).2.1
      (vaapi_decode_setup_context example_env example_avctx World.init).2.2).2.since
      (vaapi_decode_setup_context example_env example_avctx World.init).2.2).filterMap
        Event.releases ≠
      (((vaapi_decode_setup_context example_env example_avctx World.init).2.2.since
        World.init).filterMap Event.acquires).reverse :=
  ⟨by decide, by decide, by decide, by decide⟩

/-- Claim C21, amended: `tvhva_context_destroy` on a session makes the release
calls for the resources the session holds and for no other, in the fixed order
execution context, config, frame pool, device reference, then frees the
session, which holds nothing afterwards; on a null pointer it does nothing.
The setup of a new session asks for the device reference, the config, the
frame pool and the execution context in this order, stopping at the first
failure, and the session it leaves holds only resources it asked for.  So the
teardown releases in the reverse of the acquisition order except that the
config, acquired before the frame pool, is also released before it. -/
theorem C21_teardown_order (env : Env) (avctx : AVCodecContext) (entrypoint : VAEntrypoint)
    (w0 w : World) (ptr : Nat) (cell : HeapCell) (h : w.heap[ptr]? = some cell) :
    (tvhva_context_destroy (some ptr) w).since w =
      release_events cell.val ++ [Event.free_context ptr] ∧
    ((tvhva_context_destroy (some ptr) w).since w).filterMap Event.releases =
      [Resource.context, Resource.config, Resource.frame_pool, Resource.device].filter
        cell.val.holds ∧
    (∃ val, (tvhva_context_destroy (some ptr) w).heap[ptr]? =
        some { val := val, freed := true } ∧ ∀ r, val.holds r = false) ∧
    tvhva_context_destroy none w = w ∧
    ((tvhva_context_setup env (tvhva_context_create_self avctx entrypoint) avctx
        w0).2.2.2.since w0).filterMap Event.acquires <+:
      [Resource.device, Resource.config, Resource.frame_pool, Resource.context] ∧
    ∀ r, (tvhva_context_setup env (tvhva_context_create_self avctx entrypoint) avctx
        w0).2.1.holds r = true →
      r ∈ ((tvhva_context_setup env (tvhva_context_create_self avctx entrypoint) avctx
        w0).2.2.2.since w0).filterMap Event.acquires := by
  obtain ⟨d1, d2, _⟩ := destroy_eq ptr w cell h
  have hsince : (tvhva_context_destroy (some ptr) w).since w =
      release_events cell.val ++ [Event.free_context ptr] :=
    since_trace _ _ _ (by rw [d1, List.append_assoc])
  obtain ⟨evs, t, a, b⟩ := setup_acquires env (tvhva_context_create_self avctx entrypoint)
    avctx w0 rfl rfl rfl rfl
  rw [since_trace _ _ evs t]
  refine ⟨hsince, ?_, ⟨_, d2, released_holds cell.val⟩, rfl, a, b⟩
  rw [hsince, List.filterMap_append, release_events_resources]
  simp [Event.releases]

/-- Witness for C21: the teardown of the example decode session releases all
four resources, and the encode setup of the example codec context asks for
resources in the order of the chain. -/
theorem C21_teardown_order_witness :
    ((tvhva_context_destroy (some 0)
      (vaapi_decode_setup_context example_env example_avctx World.init).2.2).since
      (vaapi_decode_setup_context example_env example_avctx World.init).2.2).filterMap
        Event.releases =
      [Resource.context, Resource.config, Resource.frame_pool, Resource.device] ∧
    ((tvhva_context_setup example_env
        (tvhva_context_create_self example_avctx VAEntrypoint.EncSlice) example_avctx
        World.init).2.2.2.since World.init).filterMap Event.acquires <+:
      [Resource.device, Resource.config, Resource.frame_pool, Resource.context] := by
  have h := C21_teardown_order example_env example_avctx VAEntrypoint.EncSlice World.init
    (vaapi_decode_setup_context example_env example_avctx World.init).2.2 0 _ rfl
  exact ⟨h.2.1, h.2.2.2.2.1⟩

/-- Claim C22: when `tvhva_context_check_constraints`, entered with
`sw_format` still `AV_PIX_FMT_NONE` as `tvhva_context_create` leaves it,
returns 0, the constraints of the device were obtained and `sw_format` is one
of the formats listed before the terminator, equal to `io_format` or with the
component count and chroma subsampling of `io_format`.  After a successful
`tvhva_context_setup` of a new session the same holds of the session, whose
`io_format` is NV12 when the codec context asked for YUV420P and the format of
the codec context otherwise; `sw_pix_fmt` of the codec context and the
software format of the frames context of the session both equal the
`sw_format` of the session. -/
theorem C22_native_format (env : Env) (self : TVHVAContext) (w : World)
    (avctx : AVCodecContext) (entrypoint : VAEntrypoint) (w0 : World) :
    (self.sw_format = AVPixelFormat.NONE →
      (tvhva_context_check_constraints env self w).1 = 0 →
      ∃ c, env.av_hwdevice_get_hwframe_constraints
          (w.log Event.av_hwdevice_hwconfig_alloc).now self.config_id = some c ∧
        (tvhva_context_check_constraints env self w).2.1.sw_format ∈
          listed_sw_formats c.valid_sw_formats ∧
        ((tvhva_context_check_constraints env self w).2.1.sw_format = self.io_format ∨
          same_layout env self.io_format
            (tvhva_context_check_constraints env self w).2.1.sw_format = true)) ∧
    ((tvhva_context_setup env (tvhva_context_create_self avctx entrypoint) avctx w0).1 = 0 →
      (tvhva_context_setup env (tvhva_context_create_self avctx entrypoint) avctx
        w0).2.1.io_format =
        (if avctx.sw_pix_fmt = AVPixelFormat.YUV420P then AVPixelFormat.NV12
          else avctx.sw_pix_fmt) ∧
      (∃ t c, env.av_hwdevice_get_hwframe_constraints t
          (tvhva_context_setup env (tvhva_context_create_self avctx entrypoint) avctx
            w0).2.1.config_id = some c ∧
        (tvhva_context_setup env (tvhva_context_create_self avctx entrypoint) avctx
          w0).2.1.sw_format ∈ listed_sw_formats c.valid_sw_formats) ∧
      ((tvhva_context_setup env (tvhva_context_create_self avctx entrypoint) avctx
          w0).2.1.sw_format =
          (tvhva_context_setup env (tvhva_context_create_self avctx entrypoint) avctx
            w0).2.1.io_format ∨
        same_layout env
          (tvhva_context_setup env (tvhva_context_create_self avctx entrypoint) avctx
            w0).2.1.io_format
          (tvhva_context_setup env (tvhva_context_create_self avctx entrypoint) avctx
            w0).2.1.sw_format = true) ∧
      (tvhva_context_setup env (tvhva_context_create_self avctx entrypoint) avctx
        w0).2.2.1.sw_pix_fmt =
        (tvhva_context_setup env (tvhva_context_create_self avctx entrypoint) avctx
          w0).2.1.sw_format ∧
      ∃ (fr : Nat) (f : AVHWFramesContext),
        (tvhva_context_setup env (tvhva_context_create_self avctx entrypoint) avctx
          w0).2.1.hw_frames_ref = some fr ∧
        (tvhva_context_setup env (tvhva_context_create_self avctx entrypoint) avctx
          w0).2.2.2.frames[fr]? = some f ∧
        f.sw_format =
          (tvhva_context_setup env (tvhva_context_create_self avctx entrypoint) avctx
            w0).2.1.sw_format) := by
  constructor
  · intro hsw h
    obtain ⟨c, hc, hk, hne⟩ := check_constraints_success env self w h
    rw [hk] at hne ⊢
    obtain ⟨r1, r2⟩ := format_resolved env self c.valid_sw_formats hsw hne
    exact ⟨c, hc, r1, r2⟩
  · intro h
    obtain ⟨disp, selfd, wd, profile, wn, selfc, wc, selfk, wk, hd, hn, hf, hc, hk, hs⟩ :=
      setup_ok_chain env _ avctx w0 h
    have hsd := display_some_ref env _ w0 disp selfd wd hd
    obtain ⟨_, hcs⟩ := config_zero env _ profile _ wn selfc wc hc
    have hcsw : selfc.sw_format = AVPixelFormat.NONE := by rw [hcs, hsd]; rfl
    have hcio : selfc.io_format = (if avctx.sw_pix_fmt = AVPixelFormat.YUV420P
        then AVPixelFormat.NV12 else avctx.sw_pix_fmt) := by rw [hcs, hsd]; rfl
    have hk0 : (tvhva_context_check_constraints env selfc wc).1 = 0 := by rw [hk]
    obtain ⟨c, hcc, hkf, hne⟩ := check_constraints_success env selfc wc hk0
    have hks := check_constraints_self env selfc wc
    rw [hk] at hkf hne hks
    dsimp only at hkf hne hks
    have hfmt := format_resolved env selfc c.valid_sw_formats hcsw (by rw [← hkf]; exact hne)
    rw [← hkf] at hfmt
    have hkio : selfk.io_format = selfc.io_format := by rw [hks]
    have hkcfg : selfk.config_id = selfc.config_id := by rw [hks]
    obtain ⟨t1, t2, t3, t4, t5, f, t6, t7⟩ := tail_ok_fields env selfk avctx wk _ hs h
    refine ⟨by rw [t2, hkio, hcio], ⟨_, c, by rw [t3, hkcfg]; exact hcc, by rw [t1]; exact hfmt.1⟩,
      ?_, by rw [t5, t1], wk.frames.length, f, t4, t6, by rw [t7, t1]⟩
    rw [t1, t2, hkio]
    exact hfmt.2

/-- Witness for C22: the example decode setup resolves NV12, which the example
device lists, and writes it to the codec context. -/
theorem C22_native_format_witness :
    (tvhva_context_setup example_env
      (tvhva_context_create_self example_avctx VAEntrypoint.VLD) example_avctx
      World.init).2.1.io_format = AVPixelFormat.NV12 ∧
    (tvhva_context_setup example_env
      (tvhva_context_create_self example_avctx VAEntrypoint.VLD) example_avctx
      World.init).2.2.1.sw_pix_fmt =
      (tvhva_context_setup example_env
        (tvhva_context_create_self example_avctx VAEntrypoint.VLD) example_avctx
        World.init).2.1.sw_format ∧
    ∃ c, example_env.av_hwdevice_get_hwframe_constraints 9 7 = some c ∧
      AVPixelFormat.NV12 ∈ listed_sw_formats c.valid_sw_formats := by
  have h := C22_native_format example_env
    { (tvhva_context_create_self example_avctx VAEntrypoint.VLD) with
      config_id := 7, hw_device_ref := some 0, display := some 0 }
    { World.init with trace := List.replicate 8 Event.calloc }
    example_avctx VAEntrypoint.VLD World.init
  obtain ⟨c, h1, h2, _⟩ := h.1 rfl rfl
  obtain ⟨h3, _, _, h4, _⟩ := h.2 rfl
  exact ⟨h3, h4, c, h1, h2⟩

end Vaapi
